import Mathlib

/-!
# ReSTIR DI render pass: host-side orchestration

Shallow embedding of `Source/RenderPasses/ReSTIRDIPass/ReSTIR.cpp` and `ReSTIR.h`.

The member variables of `ReSTIRDIPass` become the fields of one record.  The
objects the pass mutates through pointers it was handed (the device that
allocates buffers, the render context that receives commands, the render-graph
dictionary and the logger) are fields of the same record, so that every member
function is a pure function from record to record.

* Unsigned 32-bit values are `Nat`; wrap-around is written `% 2 ^ 32` where the
  source computes (`mFrameDim.x * mFrameDim.y`, `mFrameCount++`).
* A `ref<T>` that may be null is an `Option`.
* A member function that dereferences a null pointer or violates a
  `FALCOR_ASSERT` has no defined result: it returns `none`.
* `mpTracePass` and `mpDirectLightingSampleColor` are never assigned by any
  constructor or member function, so the branches guarded by `if (mpTracePass)`
  are dead and both members are left out.
* Shader compilation inside `ComputePass::create` is assumed to succeed.
* `mpSampleGenerator` is set by the constructor (which asserts it) and never
  reset, so it is not an `Option`.
* The assertion of `prepareLighting` on the light collection concerns the
  internals of the scene object and is not modelled; what the scene and the
  emissive sampler report in a frame are fields of `Scene`.
* The GUI widgets and the kernel sources are not part of the host code; the few
  definitions that stand for them say so in their doc comments.
* Long functions are cut into their consecutive blocks (`prepareResources`,
  `prepareLighting`, `beginFrame`), each block a definition of its own.
-/

namespace Falcor

/-! ## Collaborator types -/

/-- Two-component unsigned vector (`uint2`). -/
structure UInt2 where
  x : Nat
  y : Nat
deriving DecidableEq, Repr

/-- A texture handle: identity plus the two dimensions the pass inspects. -/
structure Texture where
  id : Nat
  width : Nat
  height : Nat
deriving DecidableEq, Repr

/-- A structured buffer handle.  `id` is the identity of the allocation,
`structName` the reflected element type and `elementCount` what
`Buffer::getElementCount` returns. -/
structure Buffer where
  id : Nat
  structName : String
  elementCount : Nat
deriving DecidableEq, Repr

/-- The part of the device the pass uses: the two feature queries of the
constructor and the allocator.  Every allocation receives the next unused
identity, which is how distinct `createStructuredBuffer` calls yield distinct
objects. -/
structure Device where
  shaderModel6_5 : Bool
  raytracingTier1_1 : Bool
  nextBufferId : Nat
deriving DecidableEq, Repr

/-- Allocation of a structured buffer (`Device::createStructuredBuffer`). -/
def Device.createStructuredBuffer (dev : Device) (structName : String) (elementCount : Nat) :
    Buffer × Device :=
  ({ id := dev.nextBufferId, structName := structName, elementCount := elementCount },
   { dev with nextBufferId := dev.nextBufferId + 1 })

/-- A list of preprocessor defines (`DefineList`, a map from name to value). -/
abbrev DefineList := List (String × String)

/-- The call `DefineList::add(name, value)`: insert or overwrite. -/
def DefineList.add (d : DefineList) (name value : String) : DefineList :=
  if d.any (fun p => p.1 == name) then
    d.map (fun p => if p.1 == name then (name, value) else p)
  else d ++ [(name, value)]

/-- The call `DefineList::add(const DefineList&)`: add every entry of `other`. -/
def DefineList.addAll (d other : DefineList) : DefineList :=
  other.foldl (fun acc p => DefineList.add acc p.1 p.2) d

/-- A value assigned to a shader variable. -/
inductive VarValue where
  | uint (v : Nat)
  | uint2 (v : UInt2)
  | buffer (b : Option Buffer)
  | texture (t : Option Texture)
  | shaderData (owner : String)
deriving DecidableEq, Repr

/-- The variables bound on a program (`ProgramVars`), by member name. -/
abbrev ShaderVars := List (String × VarValue)

/-- The assignment `var[name] = value`. -/
def ShaderVars.set (vars : ShaderVars) (name : String) (value : VarValue) : ShaderVars :=
  (name, value) :: vars.filter (fun p => p.1 != name)

/-- A compute pass (`ComputePass`): shader file, the defines of its program and
its program vars (null until `setVars` is called, since the passes are created
with `createVars = false`). -/
structure ComputePass where
  file : String
  defines : DefineList
  vars : Option ShaderVars
deriving DecidableEq, Repr

/-- The call `ComputePass::create(mpDevice, desc, defines, false)`. -/
def ComputePass.create (file : String) (defines : DefineList) : ComputePass :=
  { file := file, defines := defines, vars := none }

/-- The lambda `preparePass` of `updatePrograms`: `setDefines(defines)` followed by
`setVars(nullptr)`, which installs fresh, empty program vars. -/
def ComputePass.preparePass (pass : ComputePass) (defines : DefineList) : ComputePass :=
  { pass with defines := defines, vars := some [] }

/-- The call `ComputePass::addDefine(name, value)` (program vars are kept). -/
def ComputePass.addDefine (pass : ComputePass) (name value : String) : ComputePass :=
  { pass with defines := DefineList.add pass.defines name value }

/-- The five compute kernels, named after the member that dispatches them. -/
inductive Kernel where
  | LoadSurfaceData
  | SpatialReuse
  | TemporalReuse
  | DirectLighting
  | ReflectTypes
deriving DecidableEq, Repr

/-- One `ComputePass::execute(pRenderContext, threads)`: the kernel, the program
vars bound at that moment and the thread-grid size. -/
structure Dispatch where
  kernel : Kernel
  vars : ShaderVars
  threads : Nat × Nat × Nat
deriving DecidableEq, Repr

/-- A command recorded on the render context. -/
inductive Command where
  | dispatch (d : Dispatch)
  | clearUAV (target : Texture) (value : Nat × Nat × Nat × Nat)
deriving DecidableEq, Repr

/-- Scene update flags consulted by the pass (`Scene::UpdateFlags`). -/
structure SceneUpdates where
  materialsChanged : Bool
  renderSettingsChanged : Bool
  envMapChanged : Bool
  sdfGridConfigChanged : Bool
deriving DecidableEq, Repr

/-- What the pass queries from the scene object. -/
structure Scene where
  updates : SceneUpdates
  hasCustomGeometry : Bool
  useEnvLight : Bool
  useAnalyticLights : Bool
  useEmissiveLights : Bool
  renderSettingsUseEmissiveLights : Bool
  emissiveSamplerUpdated : Bool
  sceneDefines : DefineList
deriving DecidableEq, Repr

/-- GPU sample generator; only its defines are used on the host. -/
structure SampleGenerator where
  defines : DefineList
deriving DecidableEq, Repr

/-- The value of `SampleGenerator::create(mpDevice, SAMPLE_GENERATOR_TINY_UNIFORM)`. -/
def SampleGenerator.create : SampleGenerator :=
  { defines := [("SAMPLE_GENERATOR_TYPE", "0")] }

/-- The enum `EmissiveLightSamplerType`. -/
inductive EmissiveLightSamplerType where
  | Uniform
  | LightBVH
  | Power
deriving DecidableEq, Repr

/-- An emissive light sampler: its kind, its options (kept for the light BVH)
and the defines it contributes. -/
structure EmissiveLightSampler where
  type : EmissiveLightSamplerType
  options : Nat
  defines : DefineList
deriving DecidableEq, Repr

/-- Construction of the sampler selected by `mStaticParams.emissiveSampler`. -/
def EmissiveLightSampler.create (t : EmissiveLightSamplerType) (lightBVHOptions : Nat) :
    EmissiveLightSampler :=
  match t with
  | .Uniform => { type := .Uniform, options := 0, defines := [("_EMISSIVE_LIGHT_SAMPLER_TYPE", "0")] }
  | .LightBVH =>
    { type := .LightBVH, options := lightBVHOptions, defines := [("_EMISSIVE_LIGHT_SAMPLER_TYPE", "1")] }
  | .Power => { type := .Power, options := 0, defines := [("_EMISSIVE_LIGHT_SAMPLER_TYPE", "2")] }

/-- The flags stored under `kRenderPassRefreshFlags` in the render-graph dictionary. -/
structure RenderPassRefreshFlags where
  lightingChanged : Bool
  renderOptionsChanged : Bool
deriving DecidableEq, Repr

/-- The value `RenderPassRefreshFlags::None`. -/
def RenderPassRefreshFlags.None : RenderPassRefreshFlags :=
  { lightingChanged := false, renderOptionsChanged := false }

/-- A log line. -/
inductive LogMsg where
  | warning (msg : String)
  | error (msg : String)
deriving DecidableEq, Repr

/-- The resources handed to `execute`: textures by channel name. -/
structure RenderData where
  textures : List (String × Texture)
deriving DecidableEq, Repr

/-- The call `renderData.getTexture(name)`; null when the channel is not connected. -/
def RenderData.getTexture (renderData : RenderData) (name : String) : Option Texture :=
  renderData.textures.lookup name

/-- A value stored in a `Properties` dictionary. -/
inductive PropValue where
  | uint (v : Nat)
  | bool (b : Bool)
deriving DecidableEq, Repr

/-- Conversion of a property value to `uint`. -/
def PropValue.asUInt : PropValue → Option Nat
  | .uint v => some (v % 2 ^ 32)
  | .bool _ => none

/-- Conversion of a property value to `bool`. -/
def PropValue.asBool : PropValue → Option Bool
  | .bool b => some b
  | .uint _ => none

/-- A `Properties` dictionary in iteration order. -/
abbrev Properties := List (String × PropValue)

/-! ## Constants of the anonymous namespace -/

def kLoadSurfaceDataPassFile : String := "RenderPasses/ReSTIRDIPass/LoadSurfaceData.cs.slang"
def kSpatialReuseFile : String := "RenderPasses/ReSTIRDIPass/SpatialReuse.cs.slang"
def kTemporalReuseFile : String := "RenderPasses/ReSTIRDIPass/TemporalReuse.cs.slang"
def kComputeDirectLightingFile : String := "RenderPasses/ReSTIRDIPass/DirectLighting.cs.slang"
def kReflectTypesFile : String := "RenderPasses/ReSTIRDIPass/ReflectTypes.cs.slang"

def kInputVBuffer : String := "vbuffer"
def kInputMotionVectors : String := "mvec"
def kInputViewDir : String := "viewW"
def kOutputColor : String := "color"
def kDebug : String := "debugTest3"

/-- Names of the channels in `kInputChannels`. -/
def kInputChannels : List String := [kInputVBuffer, kInputMotionVectors, kInputViewDir]

/-- Names of the channels in `kOutputChannels`. -/
def kOutputChannels : List String := [kOutputColor, kDebug]

/-- Values of the entries of `kRestirModeList`. -/
def kRestirModeList : List Nat := [0, 1, 2, 3]

/-- Values of the entries of `kBiasedModeList`. -/
def kBiasedModeList : List Nat := [0, 1, 2]

def kMaxBounces : String := "maxBounces"
def kCandidateCount : String := "candidateCount"
def kSelectRestirMode : String := "restirMode"
def kSpatialReuseIteration : String := "spatialReuseIteration"
def kSpatialReuseNeighbors : String := "spatialReuseNeighbors"
def kBiasedMode : String := "biasedMode"
def kUseImportanceSampling : String := "useImportanceSampling"

/-! ## The pass -/

/-- The struct `ReSTIRDIPass::StaticParams` with its default member initialisers. -/
structure StaticParams where
  samplesPerPixel : Nat := 1
  adjustShadingNormals : Bool := false
  candidateCount : Nat := 16
  spatialReuseIteration : Nat := 3
  spatialReuseNeighbors : Nat := 1
  restirMode : Nat := 3
  biasedMode : Nat := 0
  useDebugOutput : Bool := true
  useRussianRoulette : Bool := false
  useMIS : Bool := true
  emissiveSampler : EmissiveLightSamplerType := .Uniform
deriving DecidableEq, Repr

/-- The class `ReSTIRDIPass`: its member variables, followed by the collaborating
objects it mutates (`mpDevice`, the render context `ctx`, the render-graph
dictionary entry `dict` and the logger `log`). -/
structure ReSTIRDIPass where
  mStaticParams : StaticParams
  mLightBVHOptions : Nat
  mEnabled : Bool
  mpScene : Option Scene
  mpSampleGenerator : SampleGenerator
  mpEnvMapSampler : Option Unit
  mpEmissiveSampler : Option EmissiveLightSampler
  mMaxBounces : Nat
  mComputeDirect : Bool
  mUseImportanceSampling : Bool
  mFrameCount : Nat
  mFrameDim : UInt2
  mOptionsChanged : Bool
  mRecompile : Bool
  mVarsChanged : Bool
  mpLoadSurfaceDataPass : Option ComputePass
  mpSpatialResamplingPass : Option ComputePass
  mpTemporalResamplingPass : Option ComputePass
  mpComputeDirectLightingPass : Option ComputePass
  mpReflectTypesPass : Option ComputePass
  mpReservoirs : Option Buffer
  mpSurfaceData : Option Buffer
  mpPrevReservoirs : Option Buffer
  mpPrevSurfaceData : Option Buffer
  mpDevice : Device
  ctx : List Command
  dict : Option RenderPassRefreshFlags
  log : List LogMsg
deriving DecidableEq, Repr

/-- The member initialisers of `ReSTIR.h`, before the constructor body runs. -/
def ReSTIRDIPass.initial (pDevice : Device) : ReSTIRDIPass :=
  { mStaticParams := {}
    mLightBVHOptions := 0
    mEnabled := true
    mpScene := none
    mpSampleGenerator := SampleGenerator.create
    mpEnvMapSampler := none
    mpEmissiveSampler := none
    mMaxBounces := 3
    mComputeDirect := true
    mUseImportanceSampling := true
    mFrameCount := 0
    mFrameDim := { x := 0, y := 0 }
    mOptionsChanged := false
    mRecompile := false
    mVarsChanged := true
    mpLoadSurfaceDataPass := none
    mpSpatialResamplingPass := none
    mpTemporalResamplingPass := none
    mpComputeDirectLightingPass := none
    mpReflectTypesPass := none
    mpReservoirs := none
    mpSurfaceData := none
    mpPrevReservoirs := none
    mpPrevSurfaceData := none
    mpDevice := pDevice
    ctx := []
    dict := none
    log := [] }

/-- One entry of the loop of `ReSTIRDIPass::parseProperties`. -/
def parseProperty (s : ReSTIRDIPass) (key : String) (value : PropValue) : Option ReSTIRDIPass :=
  if key = kMaxBounces then
    value.asUInt.map (fun v => { s with mMaxBounces := v })
  else if key = kCandidateCount then
    value.asUInt.map (fun v => { s with mStaticParams := { s.mStaticParams with candidateCount := v } })
  else if key = kUseImportanceSampling then
    value.asBool.map (fun b => { s with mUseImportanceSampling := b })
  else if key = kSelectRestirMode then
    value.asUInt.map (fun v => { s with mStaticParams := { s.mStaticParams with restirMode := v } })
  else if key = kBiasedMode then
    value.asUInt.map (fun v => { s with mStaticParams := { s.mStaticParams with biasedMode := v } })
  else if key = kSpatialReuseIteration then
    value.asUInt.map
      (fun v => { s with mStaticParams := { s.mStaticParams with spatialReuseIteration := v } })
  else if key = kSpatialReuseNeighbors then
    value.asUInt.map
      (fun v => { s with mStaticParams := { s.mStaticParams with spatialReuseNeighbors := v } })
  else
    some { s with log := s.log ++
      [LogMsg.warning ("Unknown property " ++ key ++ " in MinimalPathTracer properties.")] }

/-- The function `ReSTIRDIPass::parseProperties`. -/
def parseProperties (s : ReSTIRDIPass) : Properties → Option ReSTIRDIPass
  | [] => some s
  | (key, value) :: rest => (parseProperty s key value).bind (fun t => parseProperties t rest)

/-- The constructor `ReSTIRDIPass::ReSTIRDIPass`; `none` when it throws. -/
def ReSTIRDIPass.create (pDevice : Device) (props : Properties) : Option ReSTIRDIPass :=
  if !pDevice.shaderModel6_5 then none
  else if !pDevice.raytracingTier1_1 then none
  else (parseProperties (ReSTIRDIPass.initial pDevice) props).map
    (fun s => { s with mpSampleGenerator := SampleGenerator.create })

/-- The function `ReSTIRDIPass::setFrameDim`.  The local `prevFrameDim` is
initialised from the parameter `frameDim`, as in the source. -/
def setFrameDim (s : ReSTIRDIPass) (frameDim : UInt2) : ReSTIRDIPass :=
  let prevFrameDim := frameDim
  let s := { s with mFrameDim := frameDim }
  if s.mFrameDim.x != prevFrameDim.x || s.mFrameDim.y != prevFrameDim.y then
    { s with mVarsChanged := true }
  else s

/-- The function `ReSTIRDIPass::getProperties`. -/
def getProperties (s : ReSTIRDIPass) : Properties :=
  [ (kMaxBounces, .uint s.mMaxBounces),
    (kCandidateCount, .uint s.mStaticParams.candidateCount),
    (kSpatialReuseIteration, .uint s.mStaticParams.spatialReuseIteration),
    (kSpatialReuseNeighbors, .uint s.mStaticParams.spatialReuseNeighbors),
    (kUseImportanceSampling, .bool s.mUseImportanceSampling),
    (kBiasedMode, .uint s.mStaticParams.biasedMode) ]

/-- The function `ReSTIRDIPass::StaticParams::getDefines`, with `owner` the pass. -/
def StaticParams.getDefines (p : StaticParams) (owner : ReSTIRDIPass) : DefineList :=
  let defines : DefineList := []
  let defines := defines.add "SAMPLES_PER_PIXEL" (toString p.samplesPerPixel)
  let defines := defines.add "ADJUST_SHADING_NORMALS" (if p.adjustShadingNormals then "1" else "0")
  let defines := defines.add "CANDIDATE_COUNT" (toString p.candidateCount)
  let defines := defines.add "SPATIAL_REUSE_ITERATION" (toString p.spatialReuseIteration)
  let defines := defines.add "SPATIAL_REUSE_NEIGHBORS" (toString p.spatialReuseNeighbors)
  let defines := defines.add "BIASED_MODE" (toString p.biasedMode)
  let defines := defines.add "USE_DEBUG_OUTPUT" (if p.useDebugOutput then "1" else "0")
  let defines := defines.add "USE_MIS" (if owner.mStaticParams.useMIS then "1" else "0")
  let defines := defines.addAll owner.mpSampleGenerator.defines
  let defines :=
    match owner.mpEmissiveSampler with
    | some sampler => defines.addAll sampler.defines
    | none => defines
  let defines := defines.add "USE_ENV_LIGHT" "0"
  let defines := defines.add "USE_ANALYTIC_LIGHTS" "0"
  let defines := defines.add "USE_EMISSIVE_LIGHTS" "0"
  match owner.mpScene with
  | some scene =>
    let defines := defines.addAll scene.sceneDefines
    let defines := defines.add "USE_ENV_LIGHT" (if scene.useEnvLight then "1" else "0")
    let defines := defines.add "USE_ANALYTIC_LIGHTS" (if scene.useAnalyticLights then "1" else "0")
    defines.add "USE_EMISSIVE_LIGHTS" (if scene.useEmissiveLights then "1" else "0")
  | none => defines

/-! ## User interface -/

/-- Modelled from the spec: the GUI controls (`Gui::Widgets`) are an external
collaborator whose code is not part of the pass.  This record is what the user
did to each control during one UI pass: `none` when the control was not
touched, otherwise the value entered or the dropdown entry picked. -/
structure Widgets where
  maxBounces : Option Nat
  candidateCount : Option Nat
  restirMode : Option Nat
  biasedMode : Option Nat
  spatialReuseIteration : Option Nat
  spatialReuseNeighbors : Option Nat
  useImportanceSampling : Option Bool
deriving DecidableEq, Repr

/-- Modelled from the spec: `widget.var(label, var, minVal, maxVal)`.  An edited
value is clamped to the documented range; the result reports whether the
variable changed. -/
def Widgets.var (input : Option Nat) (cur minVal maxVal : Nat) : Bool × Nat :=
  match input with
  | none => (false, cur)
  | some v =>
    let v := max minVal (min v maxVal)
    (v != cur, v)

/-- Modelled from the spec: `widget.dropdown(label, list, var)`.  Only a value
of the list can be picked; the result reports whether the variable changed. -/
def Widgets.dropdown (input : Option Nat) (list : List Nat) (cur : Nat) : Bool × Nat :=
  match input with
  | none => (false, cur)
  | some v => if list.contains v then (v != cur, v) else (false, cur)

/-- Modelled from the spec: `widget.checkbox(label, var)`. -/
def Widgets.checkbox (input : Option Bool) (cur : Bool) : Bool × Bool :=
  match input with
  | none => (false, cur)
  | some b => (b != cur, b)

/-- The function `ReSTIRDIPass::renderUI`. -/
def renderUI (s : ReSTIRDIPass) (widget : Widgets) : ReSTIRDIPass :=
  let dirty := false
  let r := Widgets.var widget.maxBounces s.mMaxBounces 0 (2 ^ 16)
  let dirty := dirty || r.1
  let s := { s with mMaxBounces := r.2 }
  let r := Widgets.var widget.candidateCount s.mStaticParams.candidateCount 1 64
  let dirty := dirty || r.1
  let s := { s with mStaticParams := { s.mStaticParams with candidateCount := r.2 } }
  let r := Widgets.dropdown widget.restirMode kRestirModeList s.mStaticParams.restirMode
  let dirty := dirty || r.1
  let s := { s with mStaticParams := { s.mStaticParams with restirMode := r.2 } }
  let r := Widgets.dropdown widget.biasedMode kBiasedModeList s.mStaticParams.biasedMode
  let dirty := dirty || r.1
  let s := { s with mStaticParams := { s.mStaticParams with biasedMode := r.2 } }
  let r := Widgets.var widget.spatialReuseIteration s.mStaticParams.spatialReuseIteration 1 16
  let dirty := dirty || r.1
  let s := { s with mStaticParams := { s.mStaticParams with spatialReuseIteration := r.2 } }
  let r := Widgets.var widget.spatialReuseNeighbors s.mStaticParams.spatialReuseNeighbors 1 64
  let dirty := dirty || r.1
  let s := { s with mStaticParams := { s.mStaticParams with spatialReuseNeighbors := r.2 } }
  let r := Widgets.checkbox widget.useImportanceSampling s.mUseImportanceSampling
  let dirty := dirty || r.1
  let s := { s with mUseImportanceSampling := r.2 }
  if dirty then { s with mRecompile := true, mOptionsChanged := true } else s

/-! ## Scene and programs -/

/-- The function `ReSTIRDIPass::resetPrograms`. -/
def resetPrograms (s : ReSTIRDIPass) : ReSTIRDIPass :=
  { s with
    mpLoadSurfaceDataPass := none
    mpSpatialResamplingPass := none
    mpTemporalResamplingPass := none
    mpComputeDirectLightingPass := none
    mpReflectTypesPass := none
    mRecompile := true }

/-- The function `ReSTIRDIPass::resetLighting`. -/
def resetLighting (s : ReSTIRDIPass) : ReSTIRDIPass :=
  { s with mpEmissiveSampler := none, mpEnvMapSampler := none, mRecompile := true }

/-- The function `ReSTIRDIPass::setScene`. -/
def setScene (s : ReSTIRDIPass) (pScene : Option Scene) : ReSTIRDIPass :=
  let s := { s with mpScene := pScene }
  let s := { s with mFrameCount := 0, mFrameDim := { x := 0, y := 0 } }
  let s := resetPrograms s
  let s := resetLighting s
  match s.mpScene with
  | some scene =>
    let s :=
      if scene.hasCustomGeometry then
        { s with log := s.log ++
          [LogMsg.warning "ReSTIRDIPass: This render pass does not support custom primitives."] }
      else s
    { s with mRecompile := true }
  | none => s

/-- One of the five blocks `if (!mpX) mpX = ComputePass::create(...)` of
`updatePrograms`. -/
def createIfNull (pass : Option ComputePass) (file : String) (defines : DefineList) : ComputePass :=
  match pass with
  | some p => p
  | none => ComputePass.create file defines

/-- The function `ReSTIRDIPass::updatePrograms`; `none` when `FALCOR_ASSERT(mpScene)`
is violated. -/
def updatePrograms (s : ReSTIRDIPass) : Option ReSTIRDIPass :=
  match s.mpScene with
  | none => none
  | some _ =>
    if s.mRecompile == false then some s
    else
      let defines := s.mStaticParams.getDefines s
      let pLoad := createIfNull s.mpLoadSurfaceDataPass kLoadSurfaceDataPassFile defines
      let pSpatial := createIfNull s.mpSpatialResamplingPass kSpatialReuseFile defines
      let pTemporal := createIfNull s.mpTemporalResamplingPass kTemporalReuseFile defines
      let pDirect := createIfNull s.mpComputeDirectLightingPass kComputeDirectLightingFile defines
      let pReflect := createIfNull s.mpReflectTypesPass kReflectTypesFile defines
      some { s with
        mpLoadSurfaceDataPass := some (pLoad.preparePass defines)
        mpSpatialResamplingPass := some (pSpatial.preparePass defines)
        mpTemporalResamplingPass := some (pTemporal.preparePass defines)
        mpComputeDirectLightingPass := some (pDirect.preparePass defines)
        mpReflectTypesPass := some (pReflect.preparePass defines)
        mVarsChanged := true
        mRecompile := false }

/-- The function `ReSTIRDIPass::prepareMaterials`; `scene` is `*mpScene`, the one
call site being behind the null check of `beginFrame`. -/
def prepareMaterials (s : ReSTIRDIPass) (scene : Scene) : ReSTIRDIPass :=
  if scene.updates.materialsChanged then { s with mRecompile := true } else s

/-- The three scene-update tests at the head of `prepareLighting`
(`RenderSettingsChanged`, `EnvMapChanged`, `SDFGridConfigChanged`). -/
def prepareLightingUpdates (lightingChanged : Bool) (s : ReSTIRDIPass) (scene : Scene) :
    Bool × ReSTIRDIPass :=
  let (lightingChanged, s) :=
    if scene.updates.renderSettingsChanged then (true, { s with mRecompile := true })
    else (lightingChanged, s)
  let (lightingChanged, s) :=
    if scene.updates.envMapChanged then
      (true, { s with mpEnvMapSampler := none, mRecompile := true })
    else (lightingChanged, s)
  let s := if scene.updates.sdfGridConfigChanged then { s with mRecompile := true } else s
  (lightingChanged, s)

/-- The block `if (mpScene->useEnvLight()) ... else ...` of `prepareLighting`. -/
def prepareEnvMapSampler (lightingChanged : Bool) (s : ReSTIRDIPass) (scene : Scene) :
    Bool × ReSTIRDIPass :=
  if scene.useEnvLight then
    if s.mpEnvMapSampler.isNone then
      (true, { s with mpEnvMapSampler := some (), mRecompile := true })
    else (lightingChanged, s)
  else
    if s.mpEnvMapSampler.isSome then
      (true, { s with mpEnvMapSampler := none, mRecompile := true })
    else (lightingChanged, s)

/-- The block `if (mpScene->useEmissiveLights()) ... else ...` of `prepareLighting`. -/
def prepareEmissiveSampler (lightingChanged : Bool) (s : ReSTIRDIPass) (scene : Scene) :
    Bool × ReSTIRDIPass :=
  if scene.useEmissiveLights then
    if s.mpEmissiveSampler.isNone then
      (true, { s with
        mpEmissiveSampler :=
          some (EmissiveLightSampler.create s.mStaticParams.emissiveSampler s.mLightBVHOptions)
        mRecompile := true })
    else (lightingChanged, s)
  else
    match s.mpEmissiveSampler with
    | some sampler =>
      let s :=
        if sampler.type = EmissiveLightSamplerType.LightBVH then
          { s with mLightBVHOptions := sampler.options }
        else s
      (true, { s with mpEmissiveSampler := none, mRecompile := true })
    | none => (lightingChanged, s)

/-- The function `ReSTIRDIPass::prepareLighting`; `scene` is `*mpScene`.  Returns
`lightingChanged` and the new state. -/
def prepareLighting (s : ReSTIRDIPass) (scene : Scene) : Bool × ReSTIRDIPass :=
  let lightingChanged := false
  let r := prepareLightingUpdates lightingChanged s scene
  let r := prepareEnvMapSampler r.1 r.2 scene
  let r := prepareEmissiveSampler r.1 r.2 scene
  match r.2.mpEmissiveSampler with
  | some _ => (r.1 || scene.emissiveSamplerUpdated, r.2)
  | none => r

/-! ## Frame resources -/

/-- The test `!pBuffer || pBuffer->getElementCount() < screenPixelCount`. -/
def needsAllocation (pBuffer : Option Buffer) (screenPixelCount : Nat) : Bool :=
  match pBuffer with
  | none => true
  | some b => b.elementCount < screenPixelCount

/-- The first block of `prepareResources`: (re)allocation of `mpSurfaceData`. -/
def prepareSurfaceData (s : ReSTIRDIPass) (screenPixelCount : Nat) : ReSTIRDIPass :=
  if needsAllocation s.mpSurfaceData screenPixelCount then
    let r := s.mpDevice.createStructuredBuffer "surfaceData" screenPixelCount
    { s with mpSurfaceData := some r.1, mpDevice := r.2, mVarsChanged := true }
  else s

/-- The second block of `prepareResources`: (re)allocation of `mpReservoirs`. -/
def prepareReservoirs (s : ReSTIRDIPass) (screenPixelCount : Nat) : ReSTIRDIPass :=
  if needsAllocation s.mpReservoirs screenPixelCount then
    let r := s.mpDevice.createStructuredBuffer "reservoirs" screenPixelCount
    { s with mpReservoirs := some r.1, mpDevice := r.2, mVarsChanged := true }
  else s

/-- The third block of `prepareResources`: (re)allocation of `mpPrevSurfaceData`. -/
def preparePrevSurfaceData (s : ReSTIRDIPass) (screenPixelCount : Nat) : ReSTIRDIPass :=
  if needsAllocation s.mpPrevSurfaceData screenPixelCount then
    let r := s.mpDevice.createStructuredBuffer "prevSurfaceData" screenPixelCount
    { s with mpPrevSurfaceData := some r.1, mpDevice := r.2, mVarsChanged := true }
  else s

/-- The fourth block of `prepareResources`: (re)allocation of `mpPrevReservoirs`. -/
def preparePrevReservoirs (s : ReSTIRDIPass) (screenPixelCount : Nat) : ReSTIRDIPass :=
  if needsAllocation s.mpPrevReservoirs screenPixelCount then
    let r := s.mpDevice.createStructuredBuffer "prevReservoirs" screenPixelCount
    { s with mpPrevReservoirs := some r.1, mpDevice := r.2, mVarsChanged := true }
  else s

/-- The function `ReSTIRDIPass::prepareResources`; `none` when `mpReflectTypesPass`
or its program vars are null at `mpReflectTypesPass->getRootVar()`. -/
def prepareResources (s : ReSTIRDIPass) : Option ReSTIRDIPass :=
  match s.mpReflectTypesPass with
  | none => none
  | some reflectTypes =>
    match reflectTypes.vars with
    | none => none
    | some _ =>
      let screenPixelCount := (s.mFrameDim.x * s.mFrameDim.y) % 2 ^ 32
      let s := prepareSurfaceData s screenPixelCount
      let s := prepareReservoirs s screenPixelCount
      let s := preparePrevSurfaceData s screenPixelCount
      let s := preparePrevReservoirs s screenPixelCount
      some s

/-! ## The four dispatching passes -/

/-- A conditional binding `if (cond) x->bindShaderData(var[name])`. -/
def bindShaderDataIf (cond : Bool) (vars : ShaderVars) (name owner : String) : ShaderVars :=
  if cond then vars.set name (.shaderData owner) else vars

/-- The function `ReSTIRDIPass::loadSurfaceDataPass`; `none` when the program vars
of the pass or `mpScene` are null where the source dereferences them. -/
def loadSurfaceDataPass (s : ReSTIRDIPass) (renderData : RenderData) : Option ReSTIRDIPass :=
  match s.mpLoadSurfaceDataPass with
  | none => some { s with log := s.log ++ [LogMsg.error "Failed to create LoadSurfaceDataPass"] }
  | some pass =>
    match pass.vars, s.mpScene with
    | some var, some _ =>
      let pass := pass.addDefine "CANDIDATE_COUNT" (toString s.mStaticParams.candidateCount)
      let var := var.set "gFrameDim" (.uint2 s.mFrameDim)
      let var := var.set "gFrameCount" (.uint s.mFrameCount)
      let var := bindShaderDataIf s.mVarsChanged var "sampleGenerator" "SampleGenerator"
      let var := bindShaderDataIf s.mpEnvMapSampler.isSome var "envMapSampler" "EnvMapSampler"
      let var := bindShaderDataIf s.mpEmissiveSampler.isSome var "emissiveSampler" "EmissiveLightSampler"
      let var := var.set "gVBuffer" (.texture (renderData.getTexture kInputVBuffer))
      let var := var.set "gMotionVectors" (.texture (renderData.getTexture kInputMotionVectors))
      let var := var.set "gSurfaceData" (.buffer s.mpSurfaceData)
      let var := var.set "gReservoirs" (.buffer s.mpReservoirs)
      let var := var.set "gOutputColor" (.texture (renderData.getTexture kOutputColor))
      let var := var.set "gScene" (.shaderData "Scene")
      some { s with
        mpLoadSurfaceDataPass := some { pass with vars := some var }
        ctx := s.ctx ++ [Command.dispatch
          { kernel := .LoadSurfaceData, vars := var, threads := (s.mFrameDim.x, s.mFrameDim.y, 1) }] }
    | _, _ => none

/-- The body of the loop of `ReSTIRDIPass::spatialReusePass`: one iteration. -/
def spatialReuseIterationBody (s : ReSTIRDIPass) : Option ReSTIRDIPass :=
  match s.mpSpatialResamplingPass with
  | none => none
  | some pass =>
    match pass.vars, s.mpScene with
    | some var, some _ =>
      let var := var.set "gFrameDim" (.uint2 s.mFrameDim)
      let var := var.set "gFrameCount" (.uint s.mFrameCount)
      let s := { s with mpReservoirs := s.mpPrevReservoirs, mpPrevReservoirs := s.mpReservoirs }
      let var := bindShaderDataIf s.mVarsChanged var "sampleGenerator" "SampleGenerator"
      let var := bindShaderDataIf s.mpEnvMapSampler.isSome var "envMapSampler" "EnvMapSampler"
      let var := var.set "gSurfaceData" (.buffer s.mpSurfaceData)
      let var := var.set "gReservoirs" (.buffer s.mpPrevReservoirs)
      let var := var.set "gOutReservoirs" (.buffer s.mpReservoirs)
      let var := var.set "gScene" (.shaderData "Scene")
      some { s with
        mpSpatialResamplingPass := some { pass with vars := some var }
        ctx := s.ctx ++ [Command.dispatch
          { kernel := .SpatialReuse, vars := var, threads := (s.mFrameDim.x, s.mFrameDim.y, 1) }] }
    | _, _ => none

/-- The loop `for (size_t i = 0; i < n; i++)` of `spatialReusePass` with `n`
iterations left. -/
def spatialReuseLoop : Nat → ReSTIRDIPass → Option ReSTIRDIPass
  | 0, s => some s
  | n + 1, s => (spatialReuseIterationBody s).bind (spatialReuseLoop n)

/-- The function `ReSTIRDIPass::spatialReusePass`. -/
def spatialReusePass (s : ReSTIRDIPass) (_renderData : RenderData) : Option ReSTIRDIPass :=
  match s.mpSpatialResamplingPass with
  | none => some { s with log := s.log ++ [LogMsg.error "Failed to create SpatialResamplingPass"] }
  | some _ => spatialReuseLoop s.mStaticParams.spatialReuseIteration s

/-- The function `ReSTIRDIPass::temporalReusePass`. -/
def temporalReusePass (s : ReSTIRDIPass) (_renderData : RenderData) : Option ReSTIRDIPass :=
  match s.mpTemporalResamplingPass with
  | none => some { s with log := s.log ++ [LogMsg.error "Failed to create TemporalResamplingPass"] }
  | some pass =>
    match pass.vars, s.mpScene with
    | some var, some _ =>
      let var := var.set "gFrameDim" (.uint2 s.mFrameDim)
      let var := var.set "gFrameCount" (.uint s.mFrameCount)
      let var := bindShaderDataIf s.mVarsChanged var "sampleGenerator" "SampleGenerator"
      let var := bindShaderDataIf s.mpEnvMapSampler.isSome var "envMapSampler" "EnvMapSampler"
      let var := var.set "gSurfaceData" (.buffer s.mpSurfaceData)
      let var := var.set "gPrevSurfaceData" (.buffer s.mpPrevSurfaceData)
      let var := var.set "gReservoirs" (.buffer s.mpReservoirs)
      let var := var.set "gPrevReservoirs" (.buffer s.mpPrevReservoirs)
      let var := var.set "gScene" (.shaderData "Scene")
      some { s with
        mpTemporalResamplingPass := some { pass with vars := some var }
        ctx := s.ctx ++ [Command.dispatch
          { kernel := .TemporalReuse, vars := var, threads := (s.mFrameDim.x, s.mFrameDim.y, 1) }] }
    | _, _ => none

/-- The function `ReSTIRDIPass::computeDirectLightingPass`. -/
def computeDirectLightingPass (s : ReSTIRDIPass) (renderData : RenderData) : Option ReSTIRDIPass :=
  match s.mpComputeDirectLightingPass with
  | none =>
    some { s with log := s.log ++ [LogMsg.error "Failed to create ComputeDirectLightingPass"] }
  | some pass =>
    match pass.vars, s.mpScene with
    | some var, some _ =>
      let var := var.set "gFrameDim" (.uint2 s.mFrameDim)
      let var := var.set "gFrameCount" (.uint s.mFrameCount)
      let var := bindShaderDataIf s.mpEnvMapSampler.isSome var "envMapSampler" "EnvMapSampler"
      let var := var.set "gVBuffer" (.texture (renderData.getTexture kInputVBuffer))
      let var := var.set "gReservoirs" (.buffer s.mpReservoirs)
      let var := var.set "gOutputColor" (.texture (renderData.getTexture kOutputColor))
      let var := var.set "gScene" (.shaderData "Scene")
      some { s with
        mpComputeDirectLightingPass := some { pass with vars := some var }
        ctx := s.ctx ++ [Command.dispatch
          { kernel := .DirectLighting, vars := var, threads := (s.mFrameDim.x, s.mFrameDim.y, 1) }] }
    | _, _ => none

/-! ## Frame begin, frame end and `execute` -/

/-- The lambda `validateChannels` of `beginFrame`: the value of `resolutionMismatch`
after visiting `channels`, starting from `resolutionMismatch`. -/
def validateChannels (s : ReSTIRDIPass) (renderData : RenderData) (resolutionMismatch : Bool) :
    List String → Bool
  | [] => resolutionMismatch
  | channel :: rest =>
    let resolutionMismatch :=
      match renderData.getTexture channel with
      | some pTexture =>
        if pTexture.width != s.mFrameDim.x || pTexture.height != s.mFrameDim.y then true
        else resolutionMismatch
      | none => resolutionMismatch
    validateChannels s renderData resolutionMismatch rest

/-- The body of `if (mpScene == nullptr || !mEnabled)` in `beginFrame`: the output
colour is cleared and the refresh flag is raised when options changed. -/
def beginFrameDisabled (s : ReSTIRDIPass) (pOutputColor : Texture) : ReSTIRDIPass :=
  let s := { s with ctx := s.ctx ++ [Command.clearUAV pOutputColor (0, 0, 0, 0)] }
  if s.mOptionsChanged then
    let flags := s.dict.getD RenderPassRefreshFlags.None
    { s with dict := some { flags with renderOptionsChanged := true } }
  else s

/-- The tail of `beginFrame` once the pass is known to run: materials, lighting
and refresh flags.  `scene` is `*mpScene`. -/
def beginFrameEnabled (s : ReSTIRDIPass) (scene : Scene) : ReSTIRDIPass :=
  let s := prepareMaterials s scene
  let r := prepareLighting s scene
  let lightingChanged := r.1
  let s := r.2
  if s.mOptionsChanged || lightingChanged then
    let flags := s.dict.getD RenderPassRefreshFlags.None
    let flags := if s.mOptionsChanged then { flags with renderOptionsChanged := true } else flags
    let flags := if lightingChanged then { flags with lightingChanged := true } else flags
    { s with dict := some flags, mOptionsChanged := false }
  else s

/-- The part of `beginFrame` that follows the two `validateChannels` calls. -/
def beginFrameValidated (s : ReSTIRDIPass) (resolutionMismatch : Bool) (pOutputColor : Texture) :
    Bool × ReSTIRDIPass :=
  let s :=
    if s.mEnabled && resolutionMismatch then
      { s with
        log := s.log ++
          [LogMsg.error "PathTracer I/O sizes do not match. The pass will be disabled."]
        mEnabled := false }
    else s
  match s.mpScene with
  | none => (false, beginFrameDisabled s pOutputColor)
  | some scene =>
    if !s.mEnabled then (false, beginFrameDisabled s pOutputColor)
    else (true, beginFrameEnabled s scene)

/-- The function `ReSTIRDIPass::beginFrame`; `none` when `FALCOR_ASSERT(pOutputColor)`
is violated. -/
def beginFrame (s : ReSTIRDIPass) (renderData : RenderData) : Option (Bool × ReSTIRDIPass) :=
  match renderData.getTexture kOutputColor with
  | none => none
  | some pOutputColor =>
    let s := setFrameDim s { x := pOutputColor.width, y := pOutputColor.height }
    let resolutionMismatch := false
    let resolutionMismatch := validateChannels s renderData resolutionMismatch kInputChannels
    let resolutionMismatch := validateChannels s renderData resolutionMismatch kOutputChannels
    some (beginFrameValidated s resolutionMismatch pOutputColor)

/-- The function `ReSTIRDIPass::endFrame`. -/
def endFrame (s : ReSTIRDIPass) : ReSTIRDIPass :=
  let s := { s with mpReservoirs := s.mpPrevReservoirs, mpPrevReservoirs := s.mpReservoirs }
  let s := { s with mpSurfaceData := s.mpPrevSurfaceData, mpPrevSurfaceData := s.mpSurfaceData }
  { s with mVarsChanged := false, mFrameCount := (s.mFrameCount + 1) % 2 ^ 32 }

/-- The statement `switch (mStaticParams.restirMode)` of `execute`. -/
def restirModeSwitch (s : ReSTIRDIPass) (renderData : RenderData) : Option ReSTIRDIPass :=
  match s.mStaticParams.restirMode with
  | 0 => some s
  | 1 => spatialReusePass s renderData
  | 2 => temporalReusePass s renderData
  | 3 => (temporalReusePass s renderData).bind (fun s => spatialReusePass s renderData)
  | _ => some s

/-- The part of `execute` after `beginFrame` returned `true`. -/
def executeFrame (s : ReSTIRDIPass) (renderData : RenderData) : Option ReSTIRDIPass :=
  (updatePrograms s).bind fun s =>
  (prepareResources s).bind fun s =>
  (loadSurfaceDataPass s renderData).bind fun s =>
  (restirModeSwitch s renderData).bind fun s =>
  (computeDirectLightingPass s renderData).bind fun s =>
  some (endFrame s)

/-- The function `ReSTIRDIPass::execute`. -/
def execute (s : ReSTIRDIPass) (renderData : RenderData) : Option ReSTIRDIPass :=
  match beginFrame s renderData with
  | none => none
  | some (false, s) => some s
  | some (true, s) => executeFrame s renderData

/-! ## Runs of the pass -/

/-- The calls the host makes on a constructed pass.  `hostUpdate` is the host
changing the shared scene object and the render-graph dictionary between calls. -/
inductive Op where
  | setScene (pScene : Option Scene)
  | renderUI (widget : Widgets)
  | execute (renderData : RenderData)
  | hostUpdate (scene : Scene) (dict : Option RenderPassRefreshFlags)
deriving DecidableEq, Repr

/-- Effect of one host call. -/
def Op.apply (s : ReSTIRDIPass) : Op → Option ReSTIRDIPass
  | .setScene pScene => some (Falcor.setScene s pScene)
  | .renderUI widget => some (Falcor.renderUI s widget)
  | .execute renderData => Falcor.execute s renderData
  | .hostUpdate scene dict =>
    some { s with mpScene := s.mpScene.map (fun _ => scene), dict := dict }

/-- Effect of a sequence of host calls. -/
def runOps (s : ReSTIRDIPass) : List Op → Option ReSTIRDIPass
  | [] => some s
  | op :: rest => (op.apply s).bind (fun t => runOps t rest)

/-- States reachable from construction through `setScene`, `renderUI` and `execute`. -/
def Reachable (s : ReSTIRDIPass) : Prop :=
  ∃ (pDevice : Device) (props : Properties) (ops : List Op),
    (ReSTIRDIPass.create pDevice props).bind (fun s0 => runOps s0 ops) = some s

/-! ## Vocabulary of the statements -/

/-- The buffer bound to the shader variable `name` at a dispatch; `none` when the
variable is unbound or bound to a null buffer. -/
def Dispatch.buffer (d : Dispatch) (name : String) : Option Buffer :=
  match d.vars.lookup name with
  | some (.buffer b) => b
  | _ => none

/-- The value bound to `gFrameCount` at a dispatch. -/
def Dispatch.frameCount (d : Dispatch) : Option Nat :=
  match d.vars.lookup "gFrameCount" with
  | some (.uint v) => some v
  | _ => none

/-- The dispatches among a list of commands, in issue order. -/
def dispatchesOf : List Command → List Dispatch
  | [] => []
  | .dispatch d :: rest => d :: dispatchesOf rest
  | .clearUAV _ _ :: rest => dispatchesOf rest

/-- Modelled from the spec: the kernel sources are not part of the host code.  The
reservoir buffer a dispatch reads as its input is the one bound to `gReservoirs`
(Temporal Reuse, Spatial Reuse, Direct Lighting Resolver); the Generator reads
no reservoir. -/
def Dispatch.inReservoirs (d : Dispatch) : Option Buffer :=
  match d.kernel with
  | .TemporalReuse => d.buffer "gReservoirs"
  | .SpatialReuse => d.buffer "gReservoirs"
  | .DirectLighting => d.buffer "gReservoirs"
  | .LoadSurfaceData => none
  | .ReflectTypes => none

/-- Modelled from the spec: the kernel sources are not part of the host code.  The
reservoir buffer a dispatch writes is `gReservoirs` for the Generator and for
Temporal Reuse (which updates the current reservoir) and `gOutReservoirs` for
Spatial Reuse; the Resolver writes no reservoir. -/
def Dispatch.outReservoirs (d : Dispatch) : Option Buffer :=
  match d.kernel with
  | .LoadSurfaceData => d.buffer "gReservoirs"
  | .TemporalReuse => d.buffer "gReservoirs"
  | .SpatialReuse => d.buffer "gOutReservoirs"
  | .DirectLighting => none
  | .ReflectTypes => none

/-- The channels whose sizes `beginFrame` validates. -/
def kValidatedChannels : List String := kInputChannels ++ kOutputChannels

/-- Every present input or output texture has the size of the output colour `c`. -/
def SizesMatch (renderData : RenderData) (c : Texture) : Prop :=
  ∀ name ∈ kValidatedChannels, ∀ t, renderData.getTexture name = some t →
    t.width = c.width ∧ t.height = c.height

/-- Some present input or output texture differs in width or height from the
output colour `c`. -/
def SizeMismatch (renderData : RenderData) (c : Texture) : Prop :=
  ∃ name ∈ kValidatedChannels, ∃ t, renderData.getTexture name = some t ∧
    (t.width ≠ c.width ∨ t.height ≠ c.height)

/-- The frame handed to `execute` in state `s` is executed: a scene is set, the
pass is enabled, the output colour is connected and no I/O size mismatches. -/
def FrameExecuted (s : ReSTIRDIPass) (renderData : RenderData) : Prop :=
  s.mpScene.isSome = true ∧ s.mEnabled = true ∧
    ∃ c, renderData.getTexture kOutputColor = some c ∧ SizesMatch renderData c

/-- The kernel order of one executed frame for resampling mode `m` and `k`
spatial iterations. -/
def dispatchOrder (m k : Nat) : List Kernel :=
  [Kernel.LoadSurfaceData]
    ++ (if m = 2 ∨ m = 3 then [Kernel.TemporalReuse] else [])
    ++ (if m = 1 ∨ m = 3 then List.replicate k Kernel.SpatialReuse else [])
    ++ [Kernel.DirectLighting]

/-- A compute pass handle is non-null and has program vars. -/
def passReady (pass : Option ComputePass) : Bool :=
  match pass with
  | some p => p.vars.isSome
  | none => false

/-- All five kernels exist and have program vars. -/
def KernelsReady (s : ReSTIRDIPass) : Prop :=
  passReady s.mpLoadSurfaceDataPass = true ∧ passReady s.mpSpatialResamplingPass = true ∧
  passReady s.mpTemporalResamplingPass = true ∧ passReady s.mpComputeDirectLightingPass = true ∧
  passReady s.mpReflectTypesPass = true

/-- The four frame buffers are allocated, are four different allocations made by
the device, and have one common element count. -/
def BuffersAllocated (s : ReSTIRDIPass) : Prop :=
  ∃ sd r psd pr : Buffer,
    s.mpSurfaceData = some sd ∧ s.mpReservoirs = some r ∧
    s.mpPrevSurfaceData = some psd ∧ s.mpPrevReservoirs = some pr ∧
    sd.id ≠ r.id ∧ sd.id ≠ psd.id ∧ sd.id ≠ pr.id ∧ r.id ≠ psd.id ∧ r.id ≠ pr.id ∧ psd.id ≠ pr.id ∧
    sd.id < s.mpDevice.nextBufferId ∧ r.id < s.mpDevice.nextBufferId ∧
    psd.id < s.mpDevice.nextBufferId ∧ pr.id < s.mpDevice.nextBufferId ∧
    r.elementCount = sd.elementCount ∧ psd.elementCount = sd.elementCount ∧
    pr.elementCount = sd.elementCount

/-- No frame buffer has been allocated yet. -/
def BuffersNull (s : ReSTIRDIPass) : Prop :=
  s.mpSurfaceData = none ∧ s.mpReservoirs = none ∧
  s.mpPrevSurfaceData = none ∧ s.mpPrevReservoirs = none

/-- A spatial dispatch reads and writes two different allocations. -/
def Dispatch.spatialDoubleBuffered (d : Dispatch) : Prop :=
  ∃ a b : Buffer, d.buffer "gReservoirs" = some a ∧ d.buffer "gOutReservoirs" = some b ∧ a.id ≠ b.id

/-- The invariant of the reachable states. -/
structure Invariant (s : ReSTIRDIPass) : Prop where
  kernels : s.mpScene.isSome = true → s.mRecompile = false → KernelsReady s
  buffers : BuffersNull s ∨ BuffersAllocated s
  spatial : ∀ d, Command.dispatch d ∈ s.ctx → d.kernel = Kernel.SpatialReuse →
    d.spatialDoubleBuffered

/-- The element count of a buffer slot, a null slot counting as zero. -/
def slotCount (pBuffer : Option Buffer) : Nat :=
  match pBuffer with
  | some b => b.elementCount
  | none => 0

/-- The current and previous reservoir handles after `n` exchanges. -/
def swapIter : Nat → Option Buffer × Option Buffer → Option Buffer × Option Buffer
  | 0, x => x
  | n + 1, (a, b) => swapIter n (b, a)

/-- The dispatch `d` is a generator dispatch bound to the buffers and frame
counter of state `s`. -/
def IsLoadDispatch (s : ReSTIRDIPass) (d : Dispatch) : Prop :=
  d.kernel = Kernel.LoadSurfaceData ∧ d.buffer "gSurfaceData" = s.mpSurfaceData ∧
  d.buffer "gReservoirs" = s.mpReservoirs ∧ d.frameCount = some s.mFrameCount

/-- The dispatch `d` is a temporal-reuse dispatch bound to the buffers and frame
counter of state `s`. -/
def IsTemporalDispatch (s : ReSTIRDIPass) (d : Dispatch) : Prop :=
  d.kernel = Kernel.TemporalReuse ∧ d.buffer "gSurfaceData" = s.mpSurfaceData ∧
  d.buffer "gPrevSurfaceData" = s.mpPrevSurfaceData ∧
  d.buffer "gReservoirs" = s.mpReservoirs ∧ d.buffer "gPrevReservoirs" = s.mpPrevReservoirs ∧
  d.frameCount = some s.mFrameCount

/-- The dispatch `d` is a resolver dispatch bound to the current reservoirs and
frame counter of state `s`. -/
def IsDirectDispatch (s : ReSTIRDIPass) (d : Dispatch) : Prop :=
  d.kernel = Kernel.DirectLighting ∧ d.buffer "gReservoirs" = s.mpReservoirs ∧
  d.frameCount = some s.mFrameCount

/-- The dispatches `ds` are consecutive spatial iterations with frame counter `f`
and surface data `sd`, the first reading `r` and writing `p`, each following one
reading what its predecessor wrote and writing what its predecessor read. -/
def SpatialRun (f : Nat) (sd : Option Buffer) :
    Option Buffer → Option Buffer → List Dispatch → Prop
  | _, _, [] => True
  | r, p, d :: ds =>
    (d.kernel = Kernel.SpatialReuse ∧ d.buffer "gReservoirs" = r ∧
      d.buffer "gOutReservoirs" = p ∧ d.buffer "gSurfaceData" = sd ∧ d.frameCount = some f) ∧
    SpatialRun f sd p r ds

/-- The dispatch `b` reads as input reservoir the non-null buffer that dispatch
`a` wrote as output reservoir. -/
def ReadsOutputOf (a b : Dispatch) : Prop :=
  ∃ buf : Buffer, a.outReservoirs = some buf ∧ b.inReservoirs = some buf

/-- One of the four allocation blocks of `prepareResources`, seen from one slot:
the slot after the block, the device after the block and whether the block
allocated. -/
def allocSlot (pBuffer : Option Buffer) (dev : Device) (structName : String)
    (screenPixelCount : Nat) : Option Buffer × Device × Bool :=
  if needsAllocation pBuffer screenPixelCount then
    (some (dev.createStructuredBuffer structName screenPixelCount).1,
     (dev.createStructuredBuffer structName screenPixelCount).2, true)
  else (pBuffer, dev, false)

/-- State `t` differs from `s` at most in the lighting samplers, the retained
light-BVH options and the recompile flag, which is not cleared. -/
def LightingStep (s t : ReSTIRDIPass) : Prop :=
  ∃ rc lbvh env emis,
    t = { s with mRecompile := rc, mLightBVHOptions := lbvh, mpEnvMapSampler := env,
                 mpEmissiveSampler := emis } ∧
    (rc = false → s.mRecompile = false)

/-- The dispatches of one frame issued from state `a` (the state after
`prepareResources`): the generator dispatch `dL`, the temporal dispatches `tl`
(at most one), the spatial dispatches `sl` and the resolver dispatch `dD`. -/
structure FrameDispatches (a : ReSTIRDIPass) (dL : Dispatch) (tl sl : List Dispatch)
    (dD : Dispatch) : Prop where
  load : IsLoadDispatch a dL
  temporal :
    if a.mStaticParams.restirMode = 2 ∨ a.mStaticParams.restirMode = 3 then
      ∃ dT, tl = [dT] ∧ IsTemporalDispatch a dT
    else tl = []
  spatialLength :
    if a.mStaticParams.restirMode = 1 ∨ a.mStaticParams.restirMode = 3 then
      sl.length = a.mStaticParams.spatialReuseIteration
    else sl = []
  spatial : SpatialRun a.mFrameCount a.mpSurfaceData a.mpReservoirs a.mpPrevReservoirs sl
  direct :
    dD.kernel = Kernel.DirectLighting ∧
    dD.buffer "gReservoirs" = (swapIter sl.length (a.mpReservoirs, a.mpPrevReservoirs)).1 ∧
    dD.frameCount = some a.mFrameCount

/-- Summary of one executed frame: `execute s renderData` returns `t`; `a` is
the state after `beginFrame`, `updatePrograms` and `prepareResources`, from which
the dispatches `dL`, `tl`, `sl`, `dD` are issued before `endFrame` yields `t`. -/
structure ExecutedFrame (s : ReSTIRDIPass) (renderData : RenderData) (t a : ReSTIRDIPass)
    (dL : Dispatch) (tl sl : List Dispatch) (dD : Dispatch) : Prop where
  result : execute s renderData = some t
  allocation : ∃ u c, renderData.getTexture kOutputColor = some c ∧
    prepareResources u = some a ∧
    u.mpSurfaceData = s.mpSurfaceData ∧ u.mpReservoirs = s.mpReservoirs ∧
    u.mpPrevSurfaceData = s.mpPrevSurfaceData ∧ u.mpPrevReservoirs = s.mpPrevReservoirs ∧
    u.mpDevice = s.mpDevice ∧ u.mFrameDim = { x := c.width, y := c.height }
  before :
    a = { s with
      mFrameDim := a.mFrameDim, mRecompile := false, mLightBVHOptions := a.mLightBVHOptions,
      mpEnvMapSampler := a.mpEnvMapSampler, mpEmissiveSampler := a.mpEmissiveSampler,
      dict := a.dict, mOptionsChanged := a.mOptionsChanged,
      mpLoadSurfaceDataPass := a.mpLoadSurfaceDataPass,
      mpSpatialResamplingPass := a.mpSpatialResamplingPass,
      mpTemporalResamplingPass := a.mpTemporalResamplingPass,
      mpComputeDirectLightingPass := a.mpComputeDirectLightingPass,
      mpReflectTypesPass := a.mpReflectTypesPass,
      mpSurfaceData := a.mpSurfaceData, mpReservoirs := a.mpReservoirs,
      mpPrevSurfaceData := a.mpPrevSurfaceData, mpPrevReservoirs := a.mpPrevReservoirs,
      mpDevice := a.mpDevice, mVarsChanged := a.mVarsChanged }
  after :
    t = { a with
      mpLoadSurfaceDataPass := t.mpLoadSurfaceDataPass,
      mpSpatialResamplingPass := t.mpSpatialResamplingPass,
      mpTemporalResamplingPass := t.mpTemporalResamplingPass,
      mpComputeDirectLightingPass := t.mpComputeDirectLightingPass,
      mpReservoirs := (swapIter sl.length (a.mpReservoirs, a.mpPrevReservoirs)).2,
      mpPrevReservoirs := (swapIter sl.length (a.mpReservoirs, a.mpPrevReservoirs)).1,
      mpSurfaceData := a.mpPrevSurfaceData, mpPrevSurfaceData := a.mpSurfaceData,
      mVarsChanged := false, mFrameCount := (a.mFrameCount + 1) % 2 ^ 32,
      ctx := a.ctx ++ (dL :: (tl ++ sl ++ [dD])).map Command.dispatch }
  ready : KernelsReady t
  dispatches : FrameDispatches a dL tl sl dD

/-! ## Concrete runs used to instantiate the statements -/

/-- A device that supports the required features. -/
def exampleDevice : Device :=
  { shaderModel6_5 := true, raytracingTier1_1 := true, nextBufferId := 0 }

/-- A scene with analytic lights only. -/
def exampleScene : Scene :=
  { updates := { materialsChanged := false, renderSettingsChanged := false,
                 envMapChanged := false, sdfGridConfigChanged := false }
    hasCustomGeometry := false
    useEnvLight := false
    useAnalyticLights := true
    useEmissiveLights := false
    renderSettingsUseEmissiveLights := false
    emissiveSamplerUpdated := false
    sceneDefines := [] }

/-- The output colour texture of the example frames, 4 by 2 pixels. -/
def exampleColor : Texture := { id := 0, width := 4, height := 2 }

/-- Render data whose visibility buffer has the size of the output colour. -/
def exampleRenderData : RenderData :=
  { textures := [("color", exampleColor), ("vbuffer", { id := 1, width := 4, height := 2 })] }

/-- Render data whose visibility buffer is larger than the output colour. -/
def exampleMismatchedRenderData : RenderData :=
  { textures := [("color", exampleColor), ("vbuffer", { id := 1, width := 8, height := 8 })] }

/-- The pass after construction with default properties and `setScene`. -/
def exampleStart : ReSTIRDIPass :=
  setScene { ReSTIRDIPass.initial exampleDevice with mpSampleGenerator := SampleGenerator.create }
    (some exampleScene)

/-- The pass after one executed frame in the default (spatiotemporal) mode. -/
def exampleAfterFrame : ReSTIRDIPass :=
  (execute exampleStart exampleRenderData).getD exampleStart

/-- A UI pass in which the user picks `No Resampling` and touches nothing else. -/
def exampleNoResamplingWidgets : Widgets :=
  { maxBounces := none, candidateCount := none, restirMode := some 0, biasedMode := none,
    spatialReuseIteration := none, spatialReuseNeighbors := none, useImportanceSampling := none }

/-- The pass with a scene set and `No Resampling` selected. -/
def exampleNoResampling : ReSTIRDIPass :=
  renderUI exampleStart exampleNoResamplingWidgets

/-- The pass after a frame with mismatched I/O sizes. -/
def exampleDisabled : ReSTIRDIPass :=
  (execute exampleStart exampleMismatchedRenderData).getD exampleStart

/-- The first spatial dispatch of the example frame (the third dispatch). -/
def exampleSpatialDispatch : Dispatch :=
  ((dispatchesOf exampleAfterFrame.ctx).get? 2).getD
    { kernel := Kernel.ReflectTypes, vars := [], threads := (0, 0, 0) }

/-- The state `prepareResources` receives when the example pass, after its first
frame, is handed a 65536 by 65536 output. -/
def exampleOverflow : ReSTIRDIPass :=
  { exampleAfterFrame with mFrameDim := { x := 65536, y := 65536 } }

/-- Render data with an 8 by 8 output colour and visibility buffer. -/
def exampleLargeRenderData : RenderData :=
  { textures := [("color", { id := 0, width := 8, height := 8 }),
                 ("vbuffer", { id := 1, width := 8, height := 8 })] }

/-- Two frames, the second at a larger resolution. -/
def exampleResizeOps : List Op :=
  [Op.execute exampleRenderData, Op.execute exampleLargeRenderData]

/-- The pass after the two frames of `exampleResizeOps`. -/
def exampleAfterResize : ReSTIRDIPass :=
  (runOps exampleStart exampleResizeOps).getD exampleStart

/-! ## Vocabulary of the configuration statements -/

/-- The seven configuration values of the pass: max bounces, candidate count,
resampling mode, bias mode, spatial iteration count, spatial neighbor count and
the importance-sampling toggle. -/
def configuration (s : ReSTIRDIPass) : Nat × Nat × Nat × Nat × Nat × Nat × Bool :=
  (s.mMaxBounces, s.mStaticParams.candidateCount, s.mStaticParams.restirMode,
   s.mStaticParams.biasedMode, s.mStaticParams.spatialReuseIteration,
   s.mStaticParams.spatialReuseNeighbors, s.mUseImportanceSampling)

/-- The value of `dirty` at the end of `renderUI`: some widget reported a change. -/
def renderUIDirty (s : ReSTIRDIPass) (widget : Widgets) : Bool :=
  (Widgets.var widget.maxBounces s.mMaxBounces 0 (2 ^ 16)).1
  || (Widgets.var widget.candidateCount s.mStaticParams.candidateCount 1 64).1
  || (Widgets.dropdown widget.restirMode kRestirModeList s.mStaticParams.restirMode).1
  || (Widgets.dropdown widget.biasedMode kBiasedModeList s.mStaticParams.biasedMode).1
  || (Widgets.var widget.spatialReuseIteration s.mStaticParams.spatialReuseIteration 1 16).1
  || (Widgets.var widget.spatialReuseNeighbors s.mStaticParams.spatialReuseNeighbors 1 64).1
  || (Widgets.checkbox widget.useImportanceSampling s.mUseImportanceSampling).1

/-- A property list that sets the candidate count to 32. -/
def exampleCandidateProps : Properties := [(kCandidateCount, PropValue.uint 32)]

/-- The seven keys `parseProperties` recognises. -/
def recognisedKeys : List String :=
  [kMaxBounces, kCandidateCount, kUseImportanceSampling, kSelectRestirMode, kBiasedMode,
   kSpatialReuseIteration, kSpatialReuseNeighbors]

/-- A property list without the entries whose key is not recognised. -/
def recognisedOnly (props : Properties) : Properties :=
  props.filter (fun p => decide (p.1 ∈ recognisedKeys))

/-- The state with its log emptied, for comparing states up to log lines. -/
def withoutLog (s : ReSTIRDIPass) : ReSTIRDIPass := { s with log := [] }

/-- The documented ranges of the configuration: candidate count 1..64, spatial
iteration count 1..16, spatial neighbor count 1..64, one of the four modes and
one of the three bias modes. -/
def ConfigurationInRange (s : ReSTIRDIPass) : Prop :=
  (1 ≤ s.mStaticParams.candidateCount ∧ s.mStaticParams.candidateCount ≤ 64) ∧
  (1 ≤ s.mStaticParams.spatialReuseIteration ∧ s.mStaticParams.spatialReuseIteration ≤ 16) ∧
  (1 ≤ s.mStaticParams.spatialReuseNeighbors ∧ s.mStaticParams.spatialReuseNeighbors ≤ 64) ∧
  s.mStaticParams.restirMode ≤ 3 ∧ s.mStaticParams.biasedMode ≤ 2

/-- A property entry carries a value inside the documented range of its key
(entries of other keys and entries that are not unsigned carry no constraint). -/
def propertyInRange (p : String × PropValue) : Bool :=
  match p.2 with
  | .uint v =>
    if p.1 = kCandidateCount then decide (1 ≤ v ∧ v ≤ 64)
    else if p.1 = kSpatialReuseIteration then decide (1 ≤ v ∧ v ≤ 16)
    else if p.1 = kSpatialReuseNeighbors then decide (1 ≤ v ∧ v ≤ 64)
    else if p.1 = kSelectRestirMode then decide (v ≤ 3)
    else if p.1 = kBiasedMode then decide (v ≤ 2)
    else true
  | .bool _ => true

/-- A property list that sets the candidate count to 1000 and the mode to 7. -/
def exampleOutOfRangeProps : Properties :=
  [(kCandidateCount, PropValue.uint 1000), (kSelectRestirMode, PropValue.uint 7)]

/-! ## Reservoir combination law -/

/-- Modelled from the spec: the per-pixel reservoir value, holding a selected
sample identifier, the running weight sum `wSum`, the count `M` of samples
considered and the output weight `W`. -/
structure Reservoir where
  sample : Nat
  wSum : ℚ
  M : Nat
  W : ℚ
deriving DecidableEq

/-- Modelled from the spec: the streaming merge of reservoirs `r1` (weight
`r1.wSum`) and `r2` (weight `r2.wSum`).  The merged reservoir picks the sample of
`r1` with probability `w1 / (w1 + w2)`, else that of `r2`; the `M` fields are
summed and the `wSum` fields are summed.  The random choice is the number `u`
drawn uniformly from `[0, 1)`: the sample of `r1` is picked when
`u * (w1 + w2) < w1`.  The output weight is `wSum / (M * p sample)` for the
target density `p`. -/
def merge (p : Nat → ℚ) (u : ℚ) (r1 r2 : Reservoir) : Reservoir :=
  let sample := if u * (r1.wSum + r2.wSum) < r1.wSum then r1.sample else r2.sample
  let wSum := r1.wSum + r2.wSum
  let M := r1.M + r2.M
  { sample := sample, wSum := wSum, M := M, W := wSum / (M * p sample) }

/-- Two reservoirs used to instantiate the merge law. -/
def exampleReservoir1 : Reservoir := { sample := 1, wSum := 2, M := 3, W := 1 }

/-- The second example reservoir. -/
def exampleReservoir2 : Reservoir := { sample := 2, wSum := 1, M := 1, W := 1 }

/-! ## Counting executed frames -/

/-- Whether `execute` in state `s` gets past `beginFrame` (it returned `true`). -/
def passesBeginFrame (s : ReSTIRDIPass) (renderData : RenderData) : Bool :=
  match beginFrame s renderData with
  | some (true, _) => true
  | _ => false

/-- Whether the host call is `setScene`. -/
def Op.isSetScene : Op → Bool
  | .setScene _ => true
  | _ => false

/-- Whether the host call `op`, made in state `s`, is an executed frame. -/
def Op.isExecutedFrame (s : ReSTIRDIPass) : Op → Bool
  | .execute renderData => passesBeginFrame s renderData
  | _ => false

/-- The number of executed frames when the host calls `ops` are made from state `s`. -/
def executedFrames (s : ReSTIRDIPass) : List Op → Nat
  | [] => 0
  | op :: rest =>
    match op.apply s with
    | none => 0
    | some t => (if op.isExecutedFrame s then 1 else 0) + executedFrames t rest

/-- The pass after construction with default properties, before any `setScene`. -/
def exampleConstructed : ReSTIRDIPass :=
  { ReSTIRDIPass.initial exampleDevice with mpSampleGenerator := SampleGenerator.create }

/-- The constructed pass, no scene set, after a UI pass that selected `No Resampling`. -/
def exampleNoSceneUI : ReSTIRDIPass :=
  renderUI exampleConstructed exampleNoResamplingWidgets

/-- Properties that select a resampling mode outside `0..3`. -/
def exampleUnknownModeProps : Properties := [(kSelectRestirMode, PropValue.uint 7)]

/-- The pass constructed with `exampleUnknownModeProps`, with a scene set. -/
def exampleUnknownMode : ReSTIRDIPass :=
  setScene ((ReSTIRDIPass.create exampleDevice exampleUnknownModeProps).getD exampleConstructed)
    (some exampleScene)

/-! ## Shader variable bindings -/

theorem ShaderVars.lookup_filter_ne (vars : ShaderVars) (k name : String) (h : k ≠ name) :
    List.lookup k (vars.filter (fun p => p.1 != name)) = List.lookup k vars := by
  induction vars with
  | nil => rfl
  | cons p rest ih =>
    obtain ⟨a, b⟩ := p
    by_cases ha : a = name
    · subst ha
      have hk : (k == a) = false := by simpa using h
      simp [List.filter, List.lookup, hk, ih]
    · have : ((a, b).1 != name) = true := by simpa using ha
      simp only [List.filter, this, List.lookup, ih]

theorem ShaderVars.lookup_set_self (vars : ShaderVars) (name : String) (v : VarValue) :
    List.lookup name (ShaderVars.set vars name v) = some v := by
  simp [ShaderVars.set, List.lookup]

theorem ShaderVars.lookup_set_ne (vars : ShaderVars) (k name : String) (v : VarValue)
    (h : k ≠ name) : List.lookup k (ShaderVars.set vars name v) = List.lookup k vars := by
  have hk : (k == name) = false := by simpa using h
  simp [ShaderVars.set, List.lookup, hk, ShaderVars.lookup_filter_ne vars k name h]

theorem bindShaderDataIf_lookup_ne (c : Bool) (vars : ShaderVars) (k name owner : String)
    (h : k ≠ name) : List.lookup k (bindShaderDataIf c vars name owner) = List.lookup k vars := by
  unfold bindShaderDataIf
  split
  · exact ShaderVars.lookup_set_ne vars k name _ h
  · rfl
theorem passReady_iff (pass : Option ComputePass) :
    passReady pass = true ↔ ∃ p v, pass = some p ∧ p.vars = some v := by
  cases pass with
  | none => simp [passReady]
  | some p =>
    cases hv : p.vars with
    | none => simp [passReady, hv]
    | some v => simp [passReady, hv]

theorem loadSurfaceDataPass_spec (s : ReSTIRDIPass) (rd : RenderData)
    (h : passReady s.mpLoadSurfaceDataPass = true) (hs : s.mpScene.isSome = true) :
    ∃ p d, loadSurfaceDataPass s rd =
        some { s with mpLoadSurfaceDataPass := some p, ctx := s.ctx ++ [Command.dispatch d] } ∧
      passReady (some p) = true ∧ IsLoadDispatch s d := by
  obtain ⟨p, v, hp, hv⟩ := (passReady_iff _).1 h
  obtain ⟨sc, hsc⟩ := Option.isSome_iff_exists.1 hs
  simp only [loadSurfaceDataPass, hp, hv, hsc]
  exact ⟨_, _, rfl, by simp [passReady], rfl,
    by simp [Dispatch.buffer, ShaderVars.lookup_set_self, ShaderVars.lookup_set_ne],
    by simp [Dispatch.buffer, ShaderVars.lookup_set_self, ShaderVars.lookup_set_ne],
    by simp [Dispatch.frameCount, ShaderVars.lookup_set_self, ShaderVars.lookup_set_ne,
      bindShaderDataIf_lookup_ne]⟩

theorem temporalReusePass_spec (s : ReSTIRDIPass) (rd : RenderData)
    (h : passReady s.mpTemporalResamplingPass = true) (hs : s.mpScene.isSome = true) :
    ∃ p d, temporalReusePass s rd =
        some { s with mpTemporalResamplingPass := some p, ctx := s.ctx ++ [Command.dispatch d] } ∧
      passReady (some p) = true ∧ IsTemporalDispatch s d := by
  obtain ⟨p, v, hp, hv⟩ := (passReady_iff _).1 h
  obtain ⟨sc, hsc⟩ := Option.isSome_iff_exists.1 hs
  simp only [temporalReusePass, hp, hv, hsc]
  exact ⟨_, _, rfl, by simp [passReady], rfl,
    by simp [Dispatch.buffer, ShaderVars.lookup_set_self, ShaderVars.lookup_set_ne],
    by simp [Dispatch.buffer, ShaderVars.lookup_set_self, ShaderVars.lookup_set_ne],
    by simp [Dispatch.buffer, ShaderVars.lookup_set_self, ShaderVars.lookup_set_ne],
    by simp [Dispatch.buffer, ShaderVars.lookup_set_self, ShaderVars.lookup_set_ne],
    by simp [Dispatch.frameCount, ShaderVars.lookup_set_self, ShaderVars.lookup_set_ne,
      bindShaderDataIf_lookup_ne]⟩

theorem computeDirectLightingPass_spec (s : ReSTIRDIPass) (rd : RenderData)
    (h : passReady s.mpComputeDirectLightingPass = true) (hs : s.mpScene.isSome = true) :
    ∃ p d, computeDirectLightingPass s rd =
        some { s with mpComputeDirectLightingPass := some p,
                      ctx := s.ctx ++ [Command.dispatch d] } ∧
      passReady (some p) = true ∧ IsDirectDispatch s d := by
  obtain ⟨p, v, hp, hv⟩ := (passReady_iff _).1 h
  obtain ⟨sc, hsc⟩ := Option.isSome_iff_exists.1 hs
  simp only [computeDirectLightingPass, hp, hv, hsc]
  exact ⟨_, _, rfl, by simp [passReady], rfl,
    by simp [Dispatch.buffer, ShaderVars.lookup_set_self, ShaderVars.lookup_set_ne],
    by simp [Dispatch.frameCount, ShaderVars.lookup_set_self, ShaderVars.lookup_set_ne,
      bindShaderDataIf_lookup_ne]⟩

theorem spatialReuseIterationBody_spec (s : ReSTIRDIPass)
    (h : passReady s.mpSpatialResamplingPass = true) (hs : s.mpScene.isSome = true) :
    ∃ p d, spatialReuseIterationBody s =
        some { s with mpSpatialResamplingPass := some p,
                      mpReservoirs := s.mpPrevReservoirs, mpPrevReservoirs := s.mpReservoirs,
                      ctx := s.ctx ++ [Command.dispatch d] } ∧
      passReady (some p) = true ∧
      SpatialRun s.mFrameCount s.mpSurfaceData s.mpReservoirs s.mpPrevReservoirs [d] := by
  obtain ⟨p, v, hp, hv⟩ := (passReady_iff _).1 h
  obtain ⟨sc, hsc⟩ := Option.isSome_iff_exists.1 hs
  simp only [spatialReuseIterationBody, hp, hv, hsc]
  exact ⟨_, _, rfl, by simp [passReady], ⟨rfl,
    by simp [Dispatch.buffer, ShaderVars.lookup_set_self, ShaderVars.lookup_set_ne],
    by simp [Dispatch.buffer, ShaderVars.lookup_set_self, ShaderVars.lookup_set_ne],
    by simp [Dispatch.buffer, ShaderVars.lookup_set_self, ShaderVars.lookup_set_ne],
    by simp [Dispatch.frameCount, ShaderVars.lookup_set_self, ShaderVars.lookup_set_ne,
      bindShaderDataIf_lookup_ne]⟩, trivial⟩

theorem spatialReuseLoop_spec (n : Nat) : ∀ (s : ReSTIRDIPass),
    passReady s.mpSpatialResamplingPass = true → s.mpScene.isSome = true →
    ∃ p ds, spatialReuseLoop n s =
        some { s with mpSpatialResamplingPass := some p,
                      mpReservoirs := (swapIter n (s.mpReservoirs, s.mpPrevReservoirs)).1,
                      mpPrevReservoirs := (swapIter n (s.mpReservoirs, s.mpPrevReservoirs)).2,
                      ctx := s.ctx ++ ds.map Command.dispatch } ∧
      passReady (some p) = true ∧ ds.length = n ∧
      SpatialRun s.mFrameCount s.mpSurfaceData s.mpReservoirs s.mpPrevReservoirs ds := by
  induction n with
  | zero =>
    intro s h _
    obtain ⟨p, v, hp, hv⟩ := (passReady_iff _).1 h
    refine ⟨p, [], ?_, by simp [passReady, hv], rfl, trivial⟩
    cases s
    simp_all [spatialReuseLoop, swapIter]
  | succ n ih =>
    intro s h hs
    obtain ⟨p1, d1, hb, hp1, hd1⟩ := spatialReuseIterationBody_spec s h hs
    obtain ⟨p2, ds, hl, hp2, hlen, hrun⟩ :=
      ih { s with mpSpatialResamplingPass := some p1,
                  mpReservoirs := s.mpPrevReservoirs, mpPrevReservoirs := s.mpReservoirs,
                  ctx := s.ctx ++ [Command.dispatch d1] } hp1 hs
    refine ⟨p2, d1 :: ds, ?_, hp2, by simp [hlen], ⟨hd1.1, hrun⟩⟩
    simp only [spatialReuseLoop, hb, Option.bind_some]
    refine hl.trans ?_
    simp [swapIter]
theorem updatePrograms_spec (s : ReSTIRDIPass) (hs : s.mpScene.isSome = true)
    (hk : s.mRecompile = false → KernelsReady s) :
    ∃ l sp t d r vc, updatePrograms s =
        some { s with mpLoadSurfaceDataPass := some l, mpSpatialResamplingPass := some sp,
                      mpTemporalResamplingPass := some t, mpComputeDirectLightingPass := some d,
                      mpReflectTypesPass := some r, mVarsChanged := vc, mRecompile := false } ∧
      passReady (some l) = true ∧ passReady (some sp) = true ∧ passReady (some t) = true ∧
      passReady (some d) = true ∧ passReady (some r) = true := by
  obtain ⟨sc, hsc⟩ := Option.isSome_iff_exists.1 hs
  by_cases hr : s.mRecompile = false
  · obtain ⟨h1, h2, h3, h4, h5⟩ := hk hr
    obtain ⟨p1, v1, hp1, hv1⟩ := (passReady_iff _).1 h1
    obtain ⟨p2, v2, hp2, hv2⟩ := (passReady_iff _).1 h2
    obtain ⟨p3, v3, hp3, hv3⟩ := (passReady_iff _).1 h3
    obtain ⟨p4, v4, hp4, hv4⟩ := (passReady_iff _).1 h4
    obtain ⟨p5, v5, hp5, hv5⟩ := (passReady_iff _).1 h5
    refine ⟨p1, p2, p3, p4, p5, s.mVarsChanged, ?_, by simp [passReady, hv1],
      by simp [passReady, hv2], by simp [passReady, hv3], by simp [passReady, hv4],
      by simp [passReady, hv5]⟩
    cases s
    simp_all [updatePrograms]
  · have hr2 : s.mRecompile = true := by simpa using hr
    simp only [updatePrograms, hsc, hr2]
    exact ⟨_, _, _, _, _, _, rfl, rfl, rfl, rfl, rfl, rfl⟩

theorem prepareSurfaceData_eq (s : ReSTIRDIPass) (n : Nat) :
    prepareSurfaceData s n =
      { s with mpSurfaceData := (allocSlot s.mpSurfaceData s.mpDevice "surfaceData" n).1
               mpDevice := (allocSlot s.mpSurfaceData s.mpDevice "surfaceData" n).2.1
               mVarsChanged := s.mVarsChanged || needsAllocation s.mpSurfaceData n } := by
  by_cases h : needsAllocation s.mpSurfaceData n = true
  · simp [prepareSurfaceData, allocSlot, h]
  · cases s
    simp_all [prepareSurfaceData, allocSlot]

theorem prepareReservoirs_eq (s : ReSTIRDIPass) (n : Nat) :
    prepareReservoirs s n =
      { s with mpReservoirs := (allocSlot s.mpReservoirs s.mpDevice "reservoirs" n).1
               mpDevice := (allocSlot s.mpReservoirs s.mpDevice "reservoirs" n).2.1
               mVarsChanged := s.mVarsChanged || needsAllocation s.mpReservoirs n } := by
  by_cases h : needsAllocation s.mpReservoirs n = true
  · simp [prepareReservoirs, allocSlot, h]
  · cases s
    simp_all [prepareReservoirs, allocSlot]

theorem preparePrevSurfaceData_eq (s : ReSTIRDIPass) (n : Nat) :
    preparePrevSurfaceData s n =
      { s with mpPrevSurfaceData := (allocSlot s.mpPrevSurfaceData s.mpDevice "prevSurfaceData" n).1
               mpDevice := (allocSlot s.mpPrevSurfaceData s.mpDevice "prevSurfaceData" n).2.1
               mVarsChanged := s.mVarsChanged || needsAllocation s.mpPrevSurfaceData n } := by
  by_cases h : needsAllocation s.mpPrevSurfaceData n = true
  · simp [preparePrevSurfaceData, allocSlot, h]
  · cases s
    simp_all [preparePrevSurfaceData, allocSlot]

theorem preparePrevReservoirs_eq (s : ReSTIRDIPass) (n : Nat) :
    preparePrevReservoirs s n =
      { s with mpPrevReservoirs := (allocSlot s.mpPrevReservoirs s.mpDevice "prevReservoirs" n).1
               mpDevice := (allocSlot s.mpPrevReservoirs s.mpDevice "prevReservoirs" n).2.1
               mVarsChanged := s.mVarsChanged || needsAllocation s.mpPrevReservoirs n } := by
  by_cases h : needsAllocation s.mpPrevReservoirs n = true
  · simp [preparePrevReservoirs, allocSlot, h]
  · cases s
    simp_all [preparePrevReservoirs, allocSlot]

/-- The devices between the four allocation blocks and the four resulting slots. -/
theorem prepareResources_eq (s : ReSTIRDIPass) (h : passReady s.mpReflectTypesPass = true)
    (n : Nat) (hn : n = (s.mFrameDim.x * s.mFrameDim.y) % 2 ^ 32)
    (a1 a2 a3 a4 : Option Buffer × Device × Bool)
    (h1 : a1 = allocSlot s.mpSurfaceData s.mpDevice "surfaceData" n)
    (h2 : a2 = allocSlot s.mpReservoirs a1.2.1 "reservoirs" n)
    (h3 : a3 = allocSlot s.mpPrevSurfaceData a2.2.1 "prevSurfaceData" n)
    (h4 : a4 = allocSlot s.mpPrevReservoirs a3.2.1 "prevReservoirs" n) :
    prepareResources s =
      some { s with
        mpSurfaceData := a1.1, mpReservoirs := a2.1, mpPrevSurfaceData := a3.1,
        mpPrevReservoirs := a4.1, mpDevice := a4.2.1,
        mVarsChanged := s.mVarsChanged || needsAllocation s.mpSurfaceData n
          || needsAllocation s.mpReservoirs n || needsAllocation s.mpPrevSurfaceData n
          || needsAllocation s.mpPrevReservoirs n } := by
  obtain ⟨p, v, hp, hv⟩ := (passReady_iff _).1 h
  subst hn h1 h2 h3 h4
  simp only [prepareResources, hp, hv, prepareSurfaceData_eq, prepareReservoirs_eq,
    preparePrevSurfaceData_eq, preparePrevReservoirs_eq]
theorem prepareResources_ready (s t : ReSTIRDIPass) (h : prepareResources s = some t) :
    passReady s.mpReflectTypesPass = true := by
  unfold prepareResources at h
  cases hp : s.mpReflectTypesPass with
  | none => simp [hp] at h
  | some p =>
    cases hv : p.vars with
    | none => simp [hp, hv] at h
    | some v => simp [passReady, hv]

theorem allocSlot_of_needed (p : Option Buffer) (dev : Device) (name : String) (n : Nat)
    (h : needsAllocation p n = true) :
    allocSlot p dev name n =
      (some { id := dev.nextBufferId, structName := name, elementCount := n },
       { dev with nextBufferId := dev.nextBufferId + 1 }, true) := by
  simp [allocSlot, h, Device.createStructuredBuffer]

theorem allocSlot_of_not_needed (p : Option Buffer) (dev : Device) (name : String) (n : Nat)
    (h : needsAllocation p n = false) : allocSlot p dev name n = (p, dev, false) := by
  simp [allocSlot, h]

theorem needsAllocation_none (n : Nat) : needsAllocation none n = true := rfl

theorem needsAllocation_some (b : Buffer) (n : Nat) :
    needsAllocation (some b) n = decide (b.elementCount < n) := rfl

theorem allocSlot_count (p : Option Buffer) (dev : Device) (name : String) (n : Nat) :
    ∃ b, (allocSlot p dev name n).1 = some b ∧ n ≤ b.elementCount := by
  cases p with
  | none => exact ⟨_, by rw [allocSlot_of_needed _ _ _ _ (needsAllocation_none n)], le_refl n⟩
  | some b =>
    by_cases hlt : b.elementCount < n
    · exact ⟨_, by rw [allocSlot_of_needed _ _ _ _ (by simp [needsAllocation_some, hlt])],
        le_refl n⟩
    · exact ⟨b, by rw [allocSlot_of_not_needed _ _ _ _ (by simp [needsAllocation_some, hlt])],
        Nat.le_of_not_lt hlt⟩

theorem allocSlot_kept_or_grown (b : Buffer) (dev : Device) (name : String) (n : Nat) :
    (allocSlot (some b) dev name n).1 = some b ∨
      ∃ c, (allocSlot (some b) dev name n).1 = some c ∧ b.elementCount < c.elementCount := by
  by_cases hlt : b.elementCount < n
  · exact Or.inr ⟨_, by rw [allocSlot_of_needed _ _ _ _ (by simp [needsAllocation_some, hlt])],
      hlt⟩
  · exact Or.inl (by rw [allocSlot_of_not_needed _ _ _ _ (by simp [needsAllocation_some, hlt])])

theorem prepareResources_buffers (s t : ReSTIRDIPass) (h : prepareResources s = some t)
    (hb : BuffersNull s ∨ BuffersAllocated s) : BuffersAllocated t := by
  have hr := prepareResources_ready s t h
  rw [prepareResources_eq s hr _ rfl _ _ _ _ rfl rfl rfl rfl] at h
  injection h with h
  subst h
  generalize (s.mFrameDim.x * s.mFrameDim.y) % 2 ^ 32 = n
  rcases hb with ⟨h1, h2, h3, h4⟩ | ⟨sd, r, psd, pr, h1, h2, h3, h4, hc⟩
  · simp only [h1, h2, h3, h4, allocSlot_of_needed _ _ _ _ (needsAllocation_none n)]
    exact ⟨_, _, _, _, rfl, rfl, rfl, rfl, by simp; omega⟩
  · obtain ⟨hc1, hc2, hc3⟩ := hc.2.2.2.2.2.2.2.2.2.2
    by_cases hn : sd.elementCount < n
    · have e1 : needsAllocation (some sd) n = true := by simp [needsAllocation_some, hn]
      have e2 : needsAllocation (some r) n = true := by simp [needsAllocation_some, hc1, hn]
      have e3 : needsAllocation (some psd) n = true := by simp [needsAllocation_some, hc2, hn]
      have e4 : needsAllocation (some pr) n = true := by simp [needsAllocation_some, hc3, hn]
      simp only [h1, h2, h3, h4, allocSlot_of_needed _ _ _ _ e1, allocSlot_of_needed _ _ _ _ e2,
        allocSlot_of_needed _ _ _ _ e3, allocSlot_of_needed _ _ _ _ e4]
      exact ⟨_, _, _, _, rfl, rfl, rfl, rfl, by simp; omega⟩
    · have e1 : needsAllocation (some sd) n = false := by simp [needsAllocation_some, hn]
      have e2 : needsAllocation (some r) n = false := by simp [needsAllocation_some, hc1, hn]
      have e3 : needsAllocation (some psd) n = false := by simp [needsAllocation_some, hc2, hn]
      have e4 : needsAllocation (some pr) n = false := by simp [needsAllocation_some, hc3, hn]
      simp only [h1, h2, h3, h4, allocSlot_of_not_needed _ _ _ _ e1,
        allocSlot_of_not_needed _ _ _ _ e2, allocSlot_of_not_needed _ _ _ _ e3,
        allocSlot_of_not_needed _ _ _ _ e4]
      exact ⟨sd, r, psd, pr, rfl, rfl, rfl, rfl, hc⟩
theorem setFrameDim_eq (s : ReSTIRDIPass) (d : UInt2) :
    setFrameDim s d = { s with mFrameDim := d } := by
  simp [setFrameDim]

theorem LightingStep.refl (s : ReSTIRDIPass) : LightingStep s s :=
  ⟨s.mRecompile, s.mLightBVHOptions, s.mpEnvMapSampler, s.mpEmissiveSampler, rfl, id⟩

theorem LightingStep.trans {s t u : ReSTIRDIPass} (h1 : LightingStep s t)
    (h2 : LightingStep t u) : LightingStep s u := by
  obtain ⟨rc1, l1, e1, m1, rfl, hr1⟩ := h1
  obtain ⟨rc2, l2, e2, m2, rfl, hr2⟩ := h2
  exact ⟨rc2, l2, e2, m2, rfl, fun h => hr1 (hr2 h)⟩

theorem prepareMaterials_step (s : ReSTIRDIPass) (sc : Scene) :
    LightingStep s (prepareMaterials s sc) := by
  unfold prepareMaterials
  split
  · exact ⟨true, _, _, _, rfl, by simp⟩
  · exact LightingStep.refl s

theorem prepareLightingUpdates_step (lc : Bool) (s : ReSTIRDIPass) (sc : Scene) :
    LightingStep s (prepareLightingUpdates lc s sc).2 := by
  unfold prepareLightingUpdates
  by_cases h1 : sc.updates.renderSettingsChanged = true <;>
  by_cases h2 : sc.updates.envMapChanged = true <;>
  by_cases h3 : sc.updates.sdfGridConfigChanged = true <;>
  simp only [h1, h2, h3, if_true, if_false] <;>
  first
  | exact LightingStep.refl s
  | exact ⟨true, _, _, _, rfl, by simp⟩

theorem prepareEnvMapSampler_step (lc : Bool) (s : ReSTIRDIPass) (sc : Scene) :
    LightingStep s (prepareEnvMapSampler lc s sc).2 := by
  unfold prepareEnvMapSampler
  split_ifs
  · exact ⟨true, _, _, _, rfl, by simp⟩
  · exact LightingStep.refl s
  · exact ⟨true, _, _, _, rfl, by simp⟩
  · exact LightingStep.refl s

theorem prepareEmissiveSampler_step (lc : Bool) (s : ReSTIRDIPass) (sc : Scene) :
    LightingStep s (prepareEmissiveSampler lc s sc).2 := by
  unfold prepareEmissiveSampler
  split_ifs
  · exact ⟨true, _, _, _, rfl, by simp⟩
  · exact LightingStep.refl s
  · cases hm : s.mpEmissiveSampler with
    | none => exact LightingStep.refl s
    | some sampler =>
      dsimp only
      split_ifs
      · exact ⟨true, _, _, _, rfl, by simp⟩
      · exact ⟨true, _, _, _, rfl, by simp⟩

theorem prepareLighting_step (s : ReSTIRDIPass) (sc : Scene) :
    LightingStep s (prepareLighting s sc).2 := by
  have h1 := prepareLightingUpdates_step false s sc
  have h2 := prepareEnvMapSampler_step (prepareLightingUpdates false s sc).1
    (prepareLightingUpdates false s sc).2 sc
  have h3 := prepareEmissiveSampler_step
    (prepareEnvMapSampler (prepareLightingUpdates false s sc).1
      (prepareLightingUpdates false s sc).2 sc).1
    (prepareEnvMapSampler (prepareLightingUpdates false s sc).1
      (prepareLightingUpdates false s sc).2 sc).2 sc
  have h := (h1.trans h2).trans h3
  unfold prepareLighting
  dsimp only
  split <;> exact h
theorem validateChannels_eq (s : ReSTIRDIPass) (rd : RenderData) (names : List String) :
    ∀ acc : Bool, validateChannels s rd acc names =
      (acc || names.any (fun name =>
        match rd.getTexture name with
        | some t => t.width != s.mFrameDim.x || t.height != s.mFrameDim.y
        | none => false)) := by
  induction names with
  | nil => intro acc; simp [validateChannels]
  | cons name rest ih =>
    intro acc
    simp only [validateChannels, ih, List.any_cons]
    cases hg : rd.getTexture name with
    | none => simp
    | some t =>
      dsimp only
      by_cases hc : (t.width != s.mFrameDim.x || t.height != s.mFrameDim.y) = true
      · simp [hc]
      · have hc2 : (t.width != s.mFrameDim.x || t.height != s.mFrameDim.y) = false := by
          simpa using hc
        simp [hc2]

theorem validate_true_iff (s : ReSTIRDIPass) (rd : RenderData) (c : Texture)
    (hd : s.mFrameDim = { x := c.width, y := c.height }) :
    validateChannels s rd (validateChannels s rd false kInputChannels) kOutputChannels = true ↔
      SizeMismatch rd c := by
  rw [validateChannels_eq, validateChannels_eq, Bool.false_or, ← List.any_append]
  simp only [List.any_eq_true, SizeMismatch, kValidatedChannels, hd]
  constructor
  · rintro ⟨name, hn, h⟩
    cases hg : rd.getTexture name with
    | none => simp [hg] at h
    | some t =>
      refine ⟨name, hn, t, hg, ?_⟩
      simpa [hg] using h
  · rintro ⟨name, hn, t, hg, h⟩
    refine ⟨name, hn, ?_⟩
    simpa [hg] using h

theorem sizesMatch_iff_not_mismatch (rd : RenderData) (c : Texture) :
    SizesMatch rd c ↔ ¬ SizeMismatch rd c := by
  unfold SizesMatch SizeMismatch
  constructor
  · rintro h ⟨name, hn, t, hg, hne⟩
    have := h name hn t hg
    omega
  · intro h name hn t hg
    by_contra hc
    exact h ⟨name, hn, t, hg, by omega⟩

theorem validate_false_of_match (s : ReSTIRDIPass) (rd : RenderData) (c : Texture)
    (hd : s.mFrameDim = { x := c.width, y := c.height }) (hm : SizesMatch rd c) :
    validateChannels s rd (validateChannels s rd false kInputChannels) kOutputChannels = false := by
  have := (validate_true_iff s rd c hd).not.2 ((sizesMatch_iff_not_mismatch rd c).1 hm)
  simpa using this

theorem beginFrameEnabled_form (t : ReSTIRDIPass) (sc : Scene) :
    ∃ rc lbvh env emis dict oc, beginFrameEnabled t sc =
        { t with mRecompile := rc, mLightBVHOptions := lbvh, mpEnvMapSampler := env,
                 mpEmissiveSampler := emis, dict := dict, mOptionsChanged := oc } ∧
      (rc = false → t.mRecompile = false) := by
  obtain ⟨rc, l, e, m, hstep, hrc⟩ :=
    (prepareMaterials_step t sc).trans (prepareLighting_step _ sc)
  unfold beginFrameEnabled
  simp only [hstep]
  split_ifs
  all_goals exact ⟨rc, l, e, m, _, _, rfl, hrc⟩

theorem beginFrameDisabled_form (t : ReSTIRDIPass) (c : Texture) :
    ∃ dict, beginFrameDisabled t c =
      { t with ctx := t.ctx ++ [Command.clearUAV c (0, 0, 0, 0)], dict := dict } := by
  unfold beginFrameDisabled
  dsimp only
  split_ifs
  · exact ⟨_, rfl⟩
  · exact ⟨_, rfl⟩

theorem beginFrameValidated_executed (t : ReSTIRDIPass) (sc : Scene) (c : Texture)
    (hs : t.mpScene = some sc) (he : t.mEnabled = true) :
    beginFrameValidated t false c = (true, beginFrameEnabled t sc) := by
  simp [beginFrameValidated, hs, he]

theorem beginFrame_executed (s : ReSTIRDIPass) (rd : RenderData) (sc : Scene) (c : Texture)
    (hs : s.mpScene = some sc) (he : s.mEnabled = true)
    (hc : rd.getTexture kOutputColor = some c) (hm : SizesMatch rd c) :
    ∃ rc lbvh env emis dict oc, beginFrame s rd =
        some (true, { s with mFrameDim := { x := c.width, y := c.height }, mRecompile := rc,
                             mLightBVHOptions := lbvh, mpEnvMapSampler := env,
                             mpEmissiveSampler := emis, dict := dict, mOptionsChanged := oc }) ∧
      (rc = false → s.mRecompile = false) := by
  have hv := validate_false_of_match { s with mFrameDim := { x := c.width, y := c.height } }
    rd c rfl hm
  obtain ⟨rc, l, e, m, d, oc, hform, hrc⟩ :=
    beginFrameEnabled_form { s with mFrameDim := { x := c.width, y := c.height } } sc
  unfold beginFrame
  simp only [hc, setFrameDim_eq, hv]
  rw [beginFrameValidated_executed { s with mFrameDim := { x := c.width, y := c.height } } sc c
    hs he, hform]
  exact ⟨rc, l, e, m, d, oc, rfl, hrc⟩
theorem beginFrameDisabled_eq (t : ReSTIRDIPass) (c : Texture) :
    beginFrameDisabled t c =
      { t with ctx := t.ctx ++ [Command.clearUAV c (0, 0, 0, 0)]
               dict := if t.mOptionsChanged then
                   some { t.dict.getD RenderPassRefreshFlags.None with renderOptionsChanged := true }
                 else t.dict } := by
  unfold beginFrameDisabled
  dsimp only
  split_ifs <;> rfl

theorem beginFrameValidated_disabled (t : ReSTIRDIPass) (mm : Bool) (c : Texture)
    (h : t.mpScene = none ∨ t.mEnabled = false ∨ mm = true) :
    ∃ en log dict, beginFrameValidated t mm c =
        (false, { t with mEnabled := en, log := log, dict := dict,
                         ctx := t.ctx ++ [Command.clearUAV c (0, 0, 0, 0)] }) ∧
      (t.mEnabled = false ∨ mm = true → en = false) ∧ (en = true → t.mEnabled = true) := by
  cases he : t.mEnabled <;> cases hmm : mm <;> cases hsc : t.mpScene <;>
    simp only [he, hmm, hsc] at h <;>
    simp only [beginFrameValidated, he, hmm, hsc, beginFrameDisabled_eq, Bool.and_true,
      Bool.and_false, Bool.false_eq_true, if_false, if_true, Bool.not_false, Bool.not_true] <;>
    first
    | exact ⟨_, _, _, rfl, by simp, by simp⟩
    | simp at h

theorem beginFrame_not_executed (s : ReSTIRDIPass) (rd : RenderData) (c : Texture)
    (hc : rd.getTexture kOutputColor = some c)
    (h : s.mpScene = none ∨ s.mEnabled = false ∨ SizeMismatch rd c) :
    ∃ en log dict, beginFrame s rd =
        some (false, { s with mFrameDim := { x := c.width, y := c.height }, mEnabled := en,
                              log := log, dict := dict,
                              ctx := s.ctx ++ [Command.clearUAV c (0, 0, 0, 0)] }) ∧
      (s.mEnabled = false ∨ SizeMismatch rd c → en = false) ∧ (en = true → s.mEnabled = true) := by
  have hv := validate_true_iff { s with mFrameDim := { x := c.width, y := c.height } } rd c rfl
  obtain ⟨en, log, d, hform, h1, h2⟩ :=
    beginFrameValidated_disabled { s with mFrameDim := { x := c.width, y := c.height } }
      (validateChannels { s with mFrameDim := { x := c.width, y := c.height } } rd
        (validateChannels { s with mFrameDim := { x := c.width, y := c.height } } rd false
          kInputChannels) kOutputChannels) c
      (by
        rcases h with h | h | h
        · exact Or.inl h
        · exact Or.inr (Or.inl h)
        · exact Or.inr (Or.inr (hv.2 h)))
  unfold beginFrame
  simp only [hc, setFrameDim_eq]
  rw [hform]
  refine ⟨en, log, d, rfl, ?_, h2⟩
  rintro (h3 | h3)
  · exact h1 (Or.inl h3)
  · exact h1 (Or.inr (hv.2 h3))
theorem spatialReusePass_spec (s : ReSTIRDIPass) (rd : RenderData)
    (h : passReady s.mpSpatialResamplingPass = true) (hs : s.mpScene.isSome = true) :
    ∃ p ds, spatialReusePass s rd =
        some { s with mpSpatialResamplingPass := some p,
                      mpReservoirs := (swapIter ds.length (s.mpReservoirs, s.mpPrevReservoirs)).1,
                      mpPrevReservoirs := (swapIter ds.length (s.mpReservoirs, s.mpPrevReservoirs)).2,
                      ctx := s.ctx ++ ds.map Command.dispatch } ∧
      passReady (some p) = true ∧ ds.length = s.mStaticParams.spatialReuseIteration ∧
      SpatialRun s.mFrameCount s.mpSurfaceData s.mpReservoirs s.mpPrevReservoirs ds := by
  obtain ⟨p0, v0, hp0, _⟩ := (passReady_iff _).1 h
  obtain ⟨p, ds, hl, hp, hlen, hrun⟩ :=
    spatialReuseLoop_spec s.mStaticParams.spatialReuseIteration s h hs
  refine ⟨p, ds, ?_, hp, hlen, hrun⟩
  simp only [spatialReusePass, hp0, hl, hlen]

theorem restirModeSwitch_spec (s : ReSTIRDIPass) (rd : RenderData)
    (h1 : passReady s.mpSpatialResamplingPass = true)
    (h2 : passReady s.mpTemporalResamplingPass = true) (hs : s.mpScene.isSome = true) :
    ∃ psp ptm tl sl, restirModeSwitch s rd =
        some { s with mpSpatialResamplingPass := some psp, mpTemporalResamplingPass := some ptm,
                      mpReservoirs := (swapIter sl.length (s.mpReservoirs, s.mpPrevReservoirs)).1,
                      mpPrevReservoirs := (swapIter sl.length (s.mpReservoirs, s.mpPrevReservoirs)).2,
                      ctx := s.ctx ++ (tl ++ sl).map Command.dispatch } ∧
      passReady (some psp) = true ∧ passReady (some ptm) = true ∧
      (if s.mStaticParams.restirMode = 2 ∨ s.mStaticParams.restirMode = 3 then
        ∃ dT, tl = [dT] ∧ IsTemporalDispatch s dT else tl = []) ∧
      (if s.mStaticParams.restirMode = 1 ∨ s.mStaticParams.restirMode = 3 then
        sl.length = s.mStaticParams.spatialReuseIteration else sl = []) ∧
      SpatialRun s.mFrameCount s.mpSurfaceData s.mpReservoirs s.mpPrevReservoirs sl := by
  obtain ⟨p1, v1, hp1, hv1⟩ := (passReady_iff _).1 h1
  obtain ⟨p2, v2, hp2, hv2⟩ := (passReady_iff _).1 h2
  have hr1 : passReady (some p1) = true := by simp [passReady, hv1]
  have hr2 : passReady (some p2) = true := by simp [passReady, hv2]
  unfold restirModeSwitch
  split
  · rename_i hm
    refine ⟨p1, p2, [], [], ?_, hr1, hr2, by simp [hm], by simp [hm], trivial⟩
    cases s
    simp_all [swapIter]
  · rename_i hm
    obtain ⟨p, ds, hsp, hp, hlen, hrun⟩ := spatialReusePass_spec s rd h1 hs
    refine ⟨p, p2, [], ds, ?_, hp, hr2, by simp [hm], by simp [hm, hlen], hrun⟩
    rw [hsp]
    cases s
    simp_all
  · rename_i hm
    obtain ⟨p, d, htp, hp, hd⟩ := temporalReusePass_spec s rd h2 hs
    refine ⟨p1, p, [d], [], ?_, hr1, hp, by simp [hm, hd], by simp [hm], trivial⟩
    rw [htp]
    cases s
    simp_all [swapIter]
  · rename_i hm
    obtain ⟨p, d, htp, hp, hd⟩ := temporalReusePass_spec s rd h2 hs
    obtain ⟨q, ds, hsp, hq, hlen, hrun⟩ := spatialReusePass_spec
      { s with mpTemporalResamplingPass := some p, ctx := s.ctx ++ [Command.dispatch d] } rd h1 hs
    refine ⟨q, p, [d], ds, ?_, hq, hp, by simp [hm, hd], by simp [hm]; exact hlen, hrun⟩
    rw [htp, Option.some_bind]
    refine hsp.trans ?_
    simp
  · rename_i hm0 hm1 hm2 hm3
    refine ⟨p1, p2, [], [], ?_, hr1, hr2, ?_, ?_, trivial⟩
    · cases s
      simp_all [swapIter]
    · rw [if_neg]
      rintro (h | h)
      · exact hm2 h
      · exact hm3 h
    · rw [if_neg]
      rintro (h | h)
      · exact hm1 h
      · exact hm3 h
theorem prepareResources_form (u a : ReSTIRDIPass) (h : prepareResources u = some a) :
    a = { u with mpSurfaceData := a.mpSurfaceData, mpReservoirs := a.mpReservoirs,
                 mpPrevSurfaceData := a.mpPrevSurfaceData,
                 mpPrevReservoirs := a.mpPrevReservoirs, mpDevice := a.mpDevice,
                 mVarsChanged := a.mVarsChanged } := by
  have hr := prepareResources_ready u a h
  rw [prepareResources_eq u hr _ rfl _ _ _ _ rfl rfl rfl rfl] at h
  injection h with h
  subst h
  rfl

theorem executeFrame_spec (s : ReSTIRDIPass) (rd : RenderData) (hs : s.mpScene.isSome = true)
    (hk : s.mRecompile = false → KernelsReady s) :
    ∃ u a pl psp ptm pd dL tl sl dD,
      updatePrograms s = some u ∧ prepareResources u = some a ∧
      u.mpSurfaceData = s.mpSurfaceData ∧ u.mpReservoirs = s.mpReservoirs ∧
      u.mpPrevSurfaceData = s.mpPrevSurfaceData ∧ u.mpPrevReservoirs = s.mpPrevReservoirs ∧
      u.mpDevice = s.mpDevice ∧ u.mFrameDim = s.mFrameDim ∧
      a = { s with mpLoadSurfaceDataPass := a.mpLoadSurfaceDataPass,
                   mpSpatialResamplingPass := a.mpSpatialResamplingPass,
                   mpTemporalResamplingPass := a.mpTemporalResamplingPass,
                   mpComputeDirectLightingPass := a.mpComputeDirectLightingPass,
                   mpReflectTypesPass := a.mpReflectTypesPass,
                   mRecompile := false,
                   mpSurfaceData := a.mpSurfaceData, mpReservoirs := a.mpReservoirs,
                   mpPrevSurfaceData := a.mpPrevSurfaceData,
                   mpPrevReservoirs := a.mpPrevReservoirs, mpDevice := a.mpDevice,
                   mVarsChanged := a.mVarsChanged } ∧
      passReady a.mpReflectTypesPass = true ∧
      executeFrame s rd =
        some { a with
          mpLoadSurfaceDataPass := some pl, mpSpatialResamplingPass := some psp,
          mpTemporalResamplingPass := some ptm, mpComputeDirectLightingPass := some pd,
          mpReservoirs := (swapIter sl.length (a.mpReservoirs, a.mpPrevReservoirs)).2,
          mpPrevReservoirs := (swapIter sl.length (a.mpReservoirs, a.mpPrevReservoirs)).1,
          mpSurfaceData := a.mpPrevSurfaceData, mpPrevSurfaceData := a.mpSurfaceData,
          mVarsChanged := false, mFrameCount := (a.mFrameCount + 1) % 2 ^ 32,
          ctx := a.ctx ++ (dL :: (tl ++ sl ++ [dD])).map Command.dispatch } ∧
      passReady (some pl) = true ∧ passReady (some psp) = true ∧
      passReady (some ptm) = true ∧ passReady (some pd) = true ∧
      FrameDispatches a dL tl sl dD := by
  obtain ⟨l, sp, t, d, r, vc, hu, hl, hsp, ht, hd, hr⟩ := updatePrograms_spec s hs hk
  obtain ⟨a, ha⟩ : ∃ a, prepareResources { s with
      mpLoadSurfaceDataPass := some l, mpSpatialResamplingPass := some sp,
      mpTemporalResamplingPass := some t, mpComputeDirectLightingPass := some d,
      mpReflectTypesPass := some r, mVarsChanged := vc, mRecompile := false } = some a :=
    ⟨_, prepareResources_eq _ hr _ rfl _ _ _ _ rfl rfl rfl rfl⟩
  have hform := prepareResources_form _ a ha
  have e1 : a.mpLoadSurfaceDataPass = some l := by rw [hform]
  have e2 : a.mpSpatialResamplingPass = some sp := by rw [hform]
  have e3 : a.mpTemporalResamplingPass = some t := by rw [hform]
  have e4 : a.mpComputeDirectLightingPass = some d := by rw [hform]
  have e5 : a.mpReflectTypesPass = some r := by rw [hform]
  have e6 : a.mpScene = s.mpScene := by rw [hform]
  have hsa : a.mpScene.isSome = true := by rw [e6]; exact hs
  obtain ⟨pl, dL, hload, hpl, hdL⟩ := loadSurfaceDataPass_spec a rd (by rw [e1]; exact hl) hsa
  obtain ⟨psp, ptm, tl, sl, hsw, hpsp, hptm, htl, hsl, hrun⟩ := restirModeSwitch_spec
    { a with mpLoadSurfaceDataPass := some pl, ctx := a.ctx ++ [Command.dispatch dL] } rd
    (by show passReady a.mpSpatialResamplingPass = true; rw [e2]; exact hsp)
    (by show passReady a.mpTemporalResamplingPass = true; rw [e3]; exact ht) hsa
  obtain ⟨pd, dD, hdir, hpd, hdD⟩ := computeDirectLightingPass_spec
    { a with
      mpLoadSurfaceDataPass := some pl, mpSpatialResamplingPass := some psp,
      mpTemporalResamplingPass := some ptm,
      mpReservoirs := (swapIter sl.length (a.mpReservoirs, a.mpPrevReservoirs)).1,
      mpPrevReservoirs := (swapIter sl.length (a.mpReservoirs, a.mpPrevReservoirs)).2,
      ctx := a.ctx ++ [Command.dispatch dL] ++ (tl ++ sl).map Command.dispatch } rd
    (by show passReady a.mpComputeDirectLightingPass = true; rw [e4]; exact hd) hsa
  refine ⟨_, a, pl, psp, ptm, pd, dL, tl, sl, dD, hu, ha, rfl, rfl, rfl, rfl, rfl, rfl, ?_,
    by rw [e5]; exact hr, ?_, hpl, hpsp, hptm, hpd, ⟨hdL, htl, hsl, hrun, hdD⟩⟩
  · conv_lhs => rw [hform]
    rw [e1, e2, e3, e4, e5]
  · unfold executeFrame
    rw [hu, Option.some_bind, ha, Option.some_bind, hload, Option.some_bind, hsw,
      Option.some_bind]
    refine (congrArg (fun o => Option.bind o fun s => some (endFrame s)) hdir).trans ?_
    simp [endFrame]
theorem execute_executed (s : ReSTIRDIPass) (rd : RenderData) (hx : FrameExecuted s rd)
    (hk : s.mRecompile = false → KernelsReady s) :
    ∃ t a dL tl sl dD, ExecutedFrame s rd t a dL tl sl dD := by
  obtain ⟨hs, he, c, hc, hm⟩ := hx
  obtain ⟨sc, hsc⟩ := Option.isSome_iff_exists.1 hs
  obtain ⟨rc, lb, env, emis, dict, oc, hb, hrc⟩ := beginFrame_executed s rd sc c hsc he hc hm
  obtain ⟨u, a, pl, psp, ptm, pd, dL, tl, sl, dD, hu, ha, b1, b2, b3, b4, b5, b6, hform, hrf,
      hex, hpl, hpsp, hptm, hpd, hdisp⟩ :=
    executeFrame_spec
      { s with mFrameDim := { x := c.width, y := c.height }, mRecompile := rc,
               mLightBVHOptions := lb, mpEnvMapSampler := env, mpEmissiveSampler := emis,
               dict := dict, mOptionsChanged := oc } rd hs
      (fun h => by
        obtain ⟨k1, k2, k3, k4, k5⟩ := hk (hrc h)
        exact ⟨k1, k2, k3, k4, k5⟩)
  have hres := hex
  rw [show executeFrame _ rd = execute s rd from by unfold execute; rw [hb]] at hres
  exact ⟨_, a, dL, tl, sl, dD, ⟨hres, ⟨u, c, hc, ha, b1, b2, b3, b4, b5, b6⟩,
    by rw [hform], rfl, ⟨hpl, hpsp, hptm, hpd, hrf⟩, hdisp⟩⟩
theorem execute_not_executed (s : ReSTIRDIPass) (rd : RenderData) (c : Texture)
    (hc : rd.getTexture kOutputColor = some c)
    (h : s.mpScene = none ∨ s.mEnabled = false ∨ SizeMismatch rd c) :
    ∃ en log dict, execute s rd =
        some { s with mFrameDim := { x := c.width, y := c.height }, mEnabled := en,
                      log := log, dict := dict,
                      ctx := s.ctx ++ [Command.clearUAV c (0, 0, 0, 0)] } ∧
      (s.mEnabled = false ∨ SizeMismatch rd c → en = false) ∧ (en = true → s.mEnabled = true) := by
  obtain ⟨en, log, dict, hb, h1, h2⟩ := beginFrame_not_executed s rd c hc h
  refine ⟨en, log, dict, ?_, h1, h2⟩
  unfold execute
  rw [hb]

theorem execute_eq_none_of_no_color (s : ReSTIRDIPass) (rd : RenderData)
    (h : rd.getTexture kOutputColor = none) : execute s rd = none := by
  simp [execute, beginFrame, h]

theorem frameExecuted_or_not (s : ReSTIRDIPass) (rd : RenderData) (c : Texture)
    (hc : rd.getTexture kOutputColor = some c) :
    FrameExecuted s rd ∨ (s.mpScene = none ∨ s.mEnabled = false ∨ SizeMismatch rd c) := by
  by_cases hm : SizeMismatch rd c
  · exact Or.inr (Or.inr (Or.inr hm))
  · cases he : s.mEnabled with
    | false => exact Or.inr (Or.inr (Or.inl rfl))
    | true =>
      cases hs : s.mpScene with
      | none => exact Or.inr (Or.inl rfl)
      | some sc =>
        exact Or.inl ⟨by simp [hs], he, c, hc, (sizesMatch_iff_not_mismatch rd c).2 hm⟩

theorem swapIter_cases (n : Nat) : ∀ x y : Option Buffer,
    swapIter n (x, y) = (x, y) ∨ swapIter n (x, y) = (y, x) := by
  induction n with
  | zero => intro x y; exact Or.inl rfl
  | succ n ih =>
    intro x y
    rcases ih y x with h | h
    · exact Or.inr h
    · exact Or.inl h

theorem spatialRun_kernel (f : Nat) (sd : Option Buffer) (ds : List Dispatch) :
    ∀ r p, SpatialRun f sd r p ds → ∀ d ∈ ds, d.kernel = Kernel.SpatialReuse := by
  induction ds with
  | nil => intro r p _ d hd; cases hd
  | cons d0 rest ih =>
    intro r p h d hd
    rcases List.mem_cons.1 hd with rfl | hd
    · exact h.1.1
    · exact ih p r h.2 d hd

theorem spatialRun_doubleBuffered (f : Nat) (sd : Option Buffer) (ds : List Dispatch) :
    ∀ r p : Buffer, r.id ≠ p.id → SpatialRun f sd (some r) (some p) ds →
      ∀ d ∈ ds, d.spatialDoubleBuffered := by
  induction ds with
  | nil => intro r p _ _ d hd; cases hd
  | cons d0 rest ih =>
    intro r p hne h d hd
    rcases List.mem_cons.1 hd with rfl | hd
    · exact ⟨r, p, h.1.2.1, h.1.2.2.1, hne⟩
    · exact ih p r (Ne.symm hne) h.2 d hd

theorem spatialRun_frameCount (f : Nat) (sd : Option Buffer) (ds : List Dispatch) :
    ∀ r p, SpatialRun f sd r p ds → ∀ d ∈ ds, d.frameCount = some f := by
  induction ds with
  | nil => intro r p _ d hd; cases hd
  | cons d0 rest ih =>
    intro r p h d hd
    rcases List.mem_cons.1 hd with rfl | hd
    · exact h.1.2.2.2.2
    · exact ih p r h.2 d hd
theorem renderUI_form (s : ReSTIRDIPass) (w : Widgets) :
    ∃ mb sp uis rc oc, renderUI s w =
        { s with mMaxBounces := mb, mStaticParams := sp, mUseImportanceSampling := uis,
                 mRecompile := rc, mOptionsChanged := oc } ∧
      (rc = false → s.mRecompile = false) := by
  unfold renderUI
  dsimp only
  split_ifs
  · exact ⟨_, _, _, true, _, rfl, by simp⟩
  · exact ⟨_, _, _, s.mRecompile, _, rfl, id⟩

theorem setScene_form (s : ReSTIRDIPass) (pScene : Option Scene) :
    ∃ log, setScene s pScene =
      { s with mpScene := pScene, mFrameCount := 0, mFrameDim := { x := 0, y := 0 },
               mpLoadSurfaceDataPass := none, mpSpatialResamplingPass := none,
               mpTemporalResamplingPass := none, mpComputeDirectLightingPass := none,
               mpReflectTypesPass := none, mRecompile := true, mpEmissiveSampler := none,
               mpEnvMapSampler := none, log := log } := by
  unfold setScene resetLighting resetPrograms
  cases pScene with
  | none => exact ⟨_, rfl⟩
  | some sc =>
    dsimp only
    split_ifs
    · exact ⟨_, rfl⟩
    · exact ⟨_, rfl⟩

theorem parseProperty_form (s t : ReSTIRDIPass) (key : String) (value : PropValue)
    (h : parseProperty s key value = some t) :
    ∃ mb sp uis log, t = { s with mMaxBounces := mb, mStaticParams := sp,
                                  mUseImportanceSampling := uis, log := log } := by
  unfold parseProperty at h
  split_ifs at h
  all_goals
    first
    | (injection h with h; subst h; exact ⟨_, _, _, _, rfl⟩)
    | (cases value <;> simp only [PropValue.asUInt, PropValue.asBool, Option.map_some',
        Option.map_none', Option.some.injEq, reduceCtorEq] at h
       all_goals (subst h; exact ⟨_, _, _, _, rfl⟩))

theorem parseProperties_form (props : Properties) : ∀ (s t : ReSTIRDIPass),
    parseProperties s props = some t →
    ∃ mb sp uis log, t = { s with mMaxBounces := mb, mStaticParams := sp,
                                  mUseImportanceSampling := uis, log := log } := by
  induction props with
  | nil =>
    intro s t h
    simp only [parseProperties, Option.some.injEq] at h
    subst h
    exact ⟨_, _, _, _, rfl⟩
  | cons p rest ih =>
    intro s t h
    obtain ⟨key, value⟩ := p
    simp only [parseProperties] at h
    cases h1 : parseProperty s key value with
    | none => simp [h1] at h
    | some m =>
      rw [h1, Option.some_bind] at h
      obtain ⟨mb, sp, uis, log, rfl⟩ := parseProperty_form s m key value h1
      obtain ⟨mb2, sp2, uis2, log2, rfl⟩ := ih _ t h
      exact ⟨_, _, _, _, rfl⟩

theorem create_form (pDevice : Device) (props : Properties) (t : ReSTIRDIPass)
    (h : ReSTIRDIPass.create pDevice props = some t) :
    ∃ mb sp uis log, t = { ReSTIRDIPass.initial pDevice with
      mMaxBounces := mb, mStaticParams := sp, mUseImportanceSampling := uis, log := log } := by
  unfold ReSTIRDIPass.create at h
  split_ifs at h
  cases h1 : parseProperties (ReSTIRDIPass.initial pDevice) props with
  | none => simp [h1] at h
  | some m =>
    obtain ⟨mb, sp, uis, log, rfl⟩ := parseProperties_form props _ m h1
    simp only [h1, Option.map_some', Option.some.injEq] at h
    subst h
    exact ⟨_, _, _, _, rfl⟩
theorem invariant_create (pDevice : Device) (props : Properties) (t : ReSTIRDIPass)
    (h : ReSTIRDIPass.create pDevice props = some t) : Invariant t := by
  obtain ⟨mb, sp, uis, log, rfl⟩ := create_form pDevice props t h
  exact ⟨fun hs => by simp [ReSTIRDIPass.initial] at hs, Or.inl ⟨rfl, rfl, rfl, rfl⟩,
    fun d hd => by simp [ReSTIRDIPass.initial] at hd⟩

theorem invariant_setScene (s : ReSTIRDIPass) (pScene : Option Scene) (hi : Invariant s) :
    Invariant (setScene s pScene) := by
  obtain ⟨log, h⟩ := setScene_form s pScene
  rw [h]
  exact ⟨fun _ hr => by simp at hr, hi.buffers, hi.spatial⟩

theorem invariant_renderUI (s : ReSTIRDIPass) (w : Widgets) (hi : Invariant s) :
    Invariant (renderUI s w) := by
  obtain ⟨mb, sp, uis, rc, oc, h, hrc⟩ := renderUI_form s w
  rw [h]
  exact ⟨fun hs hr => hi.kernels hs (hrc hr), hi.buffers, hi.spatial⟩

theorem invariant_hostUpdate (s : ReSTIRDIPass) (scene : Scene)
    (dict : Option RenderPassRefreshFlags) (hi : Invariant s) :
    Invariant { s with mpScene := s.mpScene.map (fun _ => scene), dict := dict } := by
  refine ⟨fun hs hr => hi.kernels ?_ hr, hi.buffers, hi.spatial⟩
  cases hsc : s.mpScene with
  | none => simp [hsc] at hs
  | some sc => rfl

theorem buffersAllocated_swap (s : ReSTIRDIPass) (n : Nat) (hb : BuffersAllocated s)
    (t : ReSTIRDIPass)
    (h1 : t.mpReservoirs = (swapIter n (s.mpReservoirs, s.mpPrevReservoirs)).2)
    (h2 : t.mpPrevReservoirs = (swapIter n (s.mpReservoirs, s.mpPrevReservoirs)).1)
    (h3 : t.mpSurfaceData = s.mpPrevSurfaceData) (h4 : t.mpPrevSurfaceData = s.mpSurfaceData)
    (h5 : t.mpDevice = s.mpDevice) : BuffersAllocated t := by
  obtain ⟨sd, r, psd, pr, e1, e2, e3, e4, d1, d2, d3, d4, d5, d6, l1, l2, l3, l4, c1, c2, c3⟩ := hb
  rcases swapIter_cases n s.mpReservoirs s.mpPrevReservoirs with hsw | hsw
  · rw [hsw] at h1 h2
    exact ⟨psd, pr, sd, r, h3.trans e3, h1.trans e4, h4.trans e1, h2.trans e2,
      by rw [h5]; omega⟩
  · rw [hsw] at h1 h2
    exact ⟨psd, r, sd, pr, h3.trans e3, h1.trans e2, h4.trans e1, h2.trans e4,
      by rw [h5]; omega⟩

theorem executedFrame_buffers {s : ReSTIRDIPass} {rd : RenderData} {t a : ReSTIRDIPass}
    {dL : Dispatch} {tl sl : List Dispatch} {dD : Dispatch}
    (hf : ExecutedFrame s rd t a dL tl sl dD) (hb : BuffersNull s ∨ BuffersAllocated s) :
    BuffersAllocated a := by
  obtain ⟨u, c, _, ha, b1, b2, b3, b4, b5, _⟩ := hf.allocation
  refine prepareResources_buffers u a ha ?_
  rcases hb with ⟨h1, h2, h3, h4⟩ | ⟨sd, r, psd, pr, h1, h2, h3, h4, hrest⟩
  · exact Or.inl ⟨b1.trans h1, b2.trans h2, b3.trans h3, b4.trans h4⟩
  · exact Or.inr ⟨sd, r, psd, pr, b1.trans h1, b2.trans h2, b3.trans h3, b4.trans h4,
      by rw [b5]; exact hrest⟩
section ExecutedFrameFacts

variable {s : ReSTIRDIPass} {rd : RenderData} {t a : ReSTIRDIPass}
  {dL : Dispatch} {tl sl : List Dispatch} {dD : Dispatch}

theorem ExecutedFrame.ctx_before (hf : ExecutedFrame s rd t a dL tl sl dD) : a.ctx = s.ctx := by
  rw [hf.before]

theorem ExecutedFrame.ctx_after (hf : ExecutedFrame s rd t a dL tl sl dD) :
    t.ctx = s.ctx ++ (dL :: (tl ++ sl ++ [dD])).map Command.dispatch := by
  rw [← hf.ctx_before, hf.after]

theorem ExecutedFrame.staticParams_before (hf : ExecutedFrame s rd t a dL tl sl dD) :
    a.mStaticParams = s.mStaticParams := by
  rw [hf.before]

theorem ExecutedFrame.frameCount_before (hf : ExecutedFrame s rd t a dL tl sl dD) :
    a.mFrameCount = s.mFrameCount := by
  rw [hf.before]

theorem ExecutedFrame.temporal_mem (hf : ExecutedFrame s rd t a dL tl sl dD) :
    ∀ d ∈ tl, IsTemporalDispatch a d := by
  intro d hd
  have h := hf.dispatches.temporal
  split_ifs at h
  · obtain ⟨dT, rfl, hT⟩ := h
    rw [List.mem_singleton.1 hd]
    exact hT
  · rw [h] at hd
    cases hd

theorem ExecutedFrame.res_after (hf : ExecutedFrame s rd t a dL tl sl dD) :
    t.mpReservoirs = (swapIter sl.length (a.mpReservoirs, a.mpPrevReservoirs)).2 := by
  rw [hf.after]

theorem ExecutedFrame.prevRes_after (hf : ExecutedFrame s rd t a dL tl sl dD) :
    t.mpPrevReservoirs = (swapIter sl.length (a.mpReservoirs, a.mpPrevReservoirs)).1 := by
  rw [hf.after]

theorem ExecutedFrame.surface_after (hf : ExecutedFrame s rd t a dL tl sl dD) :
    t.mpSurfaceData = a.mpPrevSurfaceData := by
  rw [hf.after]

theorem ExecutedFrame.prevSurface_after (hf : ExecutedFrame s rd t a dL tl sl dD) :
    t.mpPrevSurfaceData = a.mpSurfaceData := by
  rw [hf.after]

theorem ExecutedFrame.device_after (hf : ExecutedFrame s rd t a dL tl sl dD) :
    t.mpDevice = a.mpDevice := by
  rw [hf.after]

theorem ExecutedFrame.invariant (hf : ExecutedFrame s rd t a dL tl sl dD) (hi : Invariant s) :
    Invariant t := by
  have hba := executedFrame_buffers hf hi.buffers
  refine ⟨fun _ _ => hf.ready, Or.inr ?_, ?_⟩
  · exact buffersAllocated_swap a sl.length hba t hf.res_after hf.prevRes_after
      hf.surface_after hf.prevSurface_after hf.device_after
  · intro d hd hk
    rw [hf.ctx_after, List.mem_append] at hd
    rcases hd with hd | hd
    · exact hi.spatial d hd hk
    · have hd2 : d ∈ dL :: (tl ++ sl ++ [dD]) := by
        obtain ⟨x, hx, hxe⟩ := List.mem_map.1 hd
        injection hxe with hxe
        rw [← hxe]
        exact hx
      simp only [List.mem_cons, List.mem_append, List.not_mem_nil, or_false] at hd2
      rcases hd2 with rfl | (hd2 | hd2) | rfl
      · rw [hf.dispatches.load.1] at hk
        cases hk
      · rw [(hf.temporal_mem d hd2).1] at hk
        cases hk
      · obtain ⟨sd, r, psd, pr, _, e2, _, e4, _, _, _, _, d5, _⟩ := hba
        have hrun := hf.dispatches.spatial
        rw [e2, e4] at hrun
        exact spatialRun_doubleBuffered _ _ sl r pr d5 hrun d hd2
      · rw [hf.dispatches.direct.1] at hk
        cases hk

end ExecutedFrameFacts

theorem invariant_execute (s : ReSTIRDIPass) (rd : RenderData) (t : ReSTIRDIPass)
    (hi : Invariant s) (h : execute s rd = some t) : Invariant t := by
  cases hc : rd.getTexture kOutputColor with
  | none => rw [execute_eq_none_of_no_color s rd hc] at h; cases h
  | some c =>
    rcases frameExecuted_or_not s rd c hc with hx | hx
    · have hk : s.mRecompile = false → KernelsReady s := hi.kernels hx.1
      obtain ⟨t2, a, dL, tl, sl, dD, hf⟩ := execute_executed s rd hx hk
      have : t2 = t := by
        have := hf.result
        rw [h] at this
        injection this with this
        exact this.symm
      subst this
      exact hf.invariant hi
    · obtain ⟨en, log, dict, he, h1, h2⟩ := execute_not_executed s rd c hc hx
      rw [h] at he
      injection he with he
      subst he
      refine ⟨fun hs hr => hi.kernels hs hr, hi.buffers, ?_⟩
      intro d hd hk
      simp only [List.mem_append, List.mem_singleton] at hd
      rcases hd with hd | hd
      · exact hi.spatial d hd hk
      · cases hd

theorem invariant_apply (s t : ReSTIRDIPass) (op : Op) (hi : Invariant s)
    (h : op.apply s = some t) : Invariant t := by
  cases op with
  | setScene p =>
    simp only [Op.apply, Option.some.injEq] at h
    subst h
    exact invariant_setScene s p hi
  | renderUI w =>
    simp only [Op.apply, Option.some.injEq] at h
    subst h
    exact invariant_renderUI s w hi
  | execute rd => exact invariant_execute s rd t hi h
  | hostUpdate scene dict =>
    simp only [Op.apply, Option.some.injEq] at h
    subst h
    exact invariant_hostUpdate s scene dict hi

theorem invariant_runOps (ops : List Op) : ∀ (s t : ReSTIRDIPass), Invariant s →
    runOps s ops = some t → Invariant t := by
  induction ops with
  | nil =>
    intro s t hi h
    simp only [runOps, Option.some.injEq] at h
    subst h
    exact hi
  | cons op rest ih =>
    intro s t hi h
    simp only [runOps] at h
    cases h1 : op.apply s with
    | none => simp [h1] at h
    | some m =>
      rw [h1, Option.some_bind] at h
      exact ih m t (invariant_apply s m op hi h1) h

theorem reachable_invariant (s : ReSTIRDIPass) (h : Reachable s) : Invariant s := by
  obtain ⟨pDevice, props, ops, h⟩ := h
  cases h0 : ReSTIRDIPass.create pDevice props with
  | none => simp [h0] at h
  | some s0 =>
    rw [h0, Option.some_bind] at h
    exact invariant_runOps ops s0 s (invariant_create pDevice props s0 h0) h
theorem runOps_append (ops1 ops2 : List Op) : ∀ s : ReSTIRDIPass,
    runOps s (ops1 ++ ops2) = (runOps s ops1).bind (fun t => runOps t ops2) := by
  induction ops1 with
  | nil => intro s; simp [runOps]
  | cons o rest ih =>
    intro s
    simp only [runOps, List.cons_append]
    cases h1 : o.apply s with
    | none => simp
    | some m => simp [ih]

theorem Reachable.runOps {s t : ReSTIRDIPass} (h : Reachable s) (ops : List Op)
    (ht : runOps s ops = some t) : Reachable t := by
  obtain ⟨pDevice, props, ops0, h⟩ := h
  refine ⟨pDevice, props, ops0 ++ ops, ?_⟩
  cases h0 : ReSTIRDIPass.create pDevice props with
  | none => simp [h0] at h
  | some s0 =>
    rw [h0, Option.some_bind] at h
    rw [Option.some_bind, runOps_append, h, Option.some_bind, ht]

theorem Reachable.apply {s t : ReSTIRDIPass} (h : Reachable s) (op : Op)
    (ht : op.apply s = some t) : Reachable t :=
  h.runOps [op] (by simp [Falcor.runOps, ht])

theorem sizesMatch_of_validate (s : ReSTIRDIPass) (rd : RenderData) (c : Texture)
    (hd : s.mFrameDim = { x := c.width, y := c.height })
    (h : validateChannels s rd (validateChannels s rd false kInputChannels) kOutputChannels
      = false) : SizesMatch rd c := by
  rw [sizesMatch_iff_not_mismatch, ← validate_true_iff s rd c hd, h]
  simp

theorem exampleStart_reachable : Reachable exampleStart :=
  ⟨exampleDevice, [], [Op.setScene (some exampleScene)], rfl⟩

theorem exampleRenderData_sizesMatch : SizesMatch exampleRenderData exampleColor :=
  sizesMatch_of_validate { exampleStart with mFrameDim := { x := 4, y := 2 } }
    exampleRenderData exampleColor rfl (by decide)

theorem exampleStart_frameExecuted : FrameExecuted exampleStart exampleRenderData :=
  ⟨rfl, rfl, exampleColor, rfl, exampleRenderData_sizesMatch⟩

theorem exampleAfterFrame_eq :
    execute exampleStart exampleRenderData = some exampleAfterFrame := by
  have h : (execute exampleStart exampleRenderData).isSome = true := by decide
  obtain ⟨t, ht⟩ := Option.isSome_iff_exists.1 h
  simp [exampleAfterFrame, ht]

theorem exampleAfterFrame_reachable : Reachable exampleAfterFrame :=
  exampleStart_reachable.apply (Op.execute exampleRenderData) exampleAfterFrame_eq

theorem spatialRun_map_kernel (f : Nat) (sd : Option Buffer) (ds : List Dispatch) :
    ∀ r p, SpatialRun f sd r p ds →
      ds.map Dispatch.kernel = List.replicate ds.length Kernel.SpatialReuse := by
  induction ds with
  | nil => intro r p _; rfl
  | cons d0 rest ih =>
    intro r p h
    simp only [List.map_cons, List.length_cons, List.replicate_succ, h.1.1, ih p r h.2]

theorem frameDispatches_kernels {a : ReSTIRDIPass} {dL : Dispatch} {tl sl : List Dispatch}
    {dD : Dispatch} (h : FrameDispatches a dL tl sl dD) :
    (dL :: (tl ++ sl ++ [dD])).map Dispatch.kernel =
      dispatchOrder a.mStaticParams.restirMode a.mStaticParams.spatialReuseIteration := by
  have h1 : tl.map Dispatch.kernel =
      if a.mStaticParams.restirMode = 2 ∨ a.mStaticParams.restirMode = 3 then
        [Kernel.TemporalReuse] else [] := by
    have ht := h.temporal
    split_ifs at ht ⊢
    · obtain ⟨dT, rfl, hT⟩ := ht
      simp [hT.1]
    · simp [ht]
  have h2 : sl.map Dispatch.kernel =
      if a.mStaticParams.restirMode = 1 ∨ a.mStaticParams.restirMode = 3 then
        List.replicate a.mStaticParams.spatialReuseIteration Kernel.SpatialReuse else [] := by
    have hs := h.spatialLength
    split_ifs at hs ⊢
    · rw [spatialRun_map_kernel _ _ sl _ _ h.spatial, hs]
    · simp [hs]
  simp only [dispatchOrder, List.map_cons, List.map_append, List.map_nil, h.load.1, h1, h2,
    h.direct.1, List.cons_append, List.nil_append, List.append_assoc]

/-- C1: in every reachable state in which a frame is executed (scene set, pass
enabled, output connected, no I/O size mismatch), `execute` issues exactly the
dispatches LoadSurfaceData, then TemporalReuse iff the mode is 2 or 3, then `K`
SpatialReuse dispatches iff the mode is 1 or 3 (`K = spatialReuseIteration`),
then DirectLighting, in this order and nothing else; in mode 3 the temporal
dispatch therefore stands before every spatial dispatch. -/
theorem execute_dispatch_order (s : ReSTIRDIPass) (rd : RenderData) (hr : Reachable s)
    (hx : FrameExecuted s rd) :
    ∃ (t : ReSTIRDIPass) (ds : List Dispatch), execute s rd = some t ∧ t.ctx = s.ctx ++ ds.map Command.dispatch ∧
      ds.map Dispatch.kernel =
        [Kernel.LoadSurfaceData]
          ++ (if s.mStaticParams.restirMode = 2 ∨ s.mStaticParams.restirMode = 3 then
                [Kernel.TemporalReuse] else [])
          ++ (if s.mStaticParams.restirMode = 1 ∨ s.mStaticParams.restirMode = 3 then
                List.replicate s.mStaticParams.spatialReuseIteration Kernel.SpatialReuse
              else [])
          ++ [Kernel.DirectLighting] ∧
      (s.mStaticParams.restirMode = 3 →
        ds.map Dispatch.kernel =
          Kernel.LoadSurfaceData :: Kernel.TemporalReuse ::
            (List.replicate s.mStaticParams.spatialReuseIteration Kernel.SpatialReuse
              ++ [Kernel.DirectLighting])) := by
  obtain ⟨t, a, dL, tl, sl, dD, hf⟩ :=
    execute_executed s rd hx ((reachable_invariant s hr).kernels hx.1)
  have hk := frameDispatches_kernels hf.dispatches
  rw [hf.staticParams_before] at hk
  refine ⟨t, dL :: (tl ++ sl ++ [dD]), hf.result, hf.ctx_after, hk, ?_⟩
  intro h3
  rw [hk]
  simp [dispatchOrder, h3]

/-- Instance of C1: the first frame after `setScene` with default properties
(spatiotemporal mode, three spatial iterations). -/
theorem execute_dispatch_order_witness :
    ∃ (t : ReSTIRDIPass) (ds : List Dispatch), execute exampleStart exampleRenderData = some t ∧
      t.ctx = exampleStart.ctx ++ ds.map Command.dispatch ∧
      ds.map Dispatch.kernel =
        [Kernel.LoadSurfaceData]
          ++ (if exampleStart.mStaticParams.restirMode = 2 ∨
                exampleStart.mStaticParams.restirMode = 3 then [Kernel.TemporalReuse] else [])
          ++ (if exampleStart.mStaticParams.restirMode = 1 ∨
                exampleStart.mStaticParams.restirMode = 3 then
                List.replicate exampleStart.mStaticParams.spatialReuseIteration
                  Kernel.SpatialReuse
              else [])
          ++ [Kernel.DirectLighting] ∧
      (exampleStart.mStaticParams.restirMode = 3 →
        ds.map Dispatch.kernel =
          Kernel.LoadSurfaceData :: Kernel.TemporalReuse ::
            (List.replicate exampleStart.mStaticParams.spatialReuseIteration
                Kernel.SpatialReuse
              ++ [Kernel.DirectLighting])) :=
  execute_dispatch_order exampleStart exampleRenderData exampleStart_reachable
    exampleStart_frameExecuted

theorem restirModeSwitch_noResampling (x : ReSTIRDIPass) (rd : RenderData)
    (h : x.mStaticParams.restirMode = 0) : restirModeSwitch x rd = some x := by
  simp [restirModeSwitch, h]

/-- C2: in every reachable state with `restirMode = 0` in which a frame is
executed, `execute` issues exactly two dispatches, LoadSurfaceData and
DirectLighting (no TemporalReuse, no SpatialReuse); the buffer DirectLighting
reads as `gReservoirs` is the non-null buffer LoadSurfaceData wrote as
`gReservoirs`; and the `switch` between the two passes returns its state
unchanged, so no exchange of current and previous reservoirs happens in between. -/
theorem noResampling_resolver_reads_generator_output (s : ReSTIRDIPass) (rd : RenderData)
    (hr : Reachable s) (hx : FrameExecuted s rd) (hm : s.mStaticParams.restirMode = 0) :
    ∃ (t : ReSTIRDIPass) (dL dD : Dispatch) (buf : Buffer),
      execute s rd = some t ∧
      t.ctx = s.ctx ++ [Command.dispatch dL, Command.dispatch dD] ∧
      dL.kernel = Kernel.LoadSurfaceData ∧ dD.kernel = Kernel.DirectLighting ∧
      dL.buffer "gReservoirs" = some buf ∧ dD.buffer "gReservoirs" = some buf ∧
      dL.outReservoirs = some buf ∧ dD.inReservoirs = some buf ∧
      (∀ x : ReSTIRDIPass, x.mStaticParams.restirMode = 0 → restirModeSwitch x rd = some x) := by
  have hi := reachable_invariant s hr
  obtain ⟨t, a, dL, tl, sl, dD, hf⟩ := execute_executed s rd hx (hi.kernels hx.1)
  obtain ⟨sd, r, psd, pr, _, e2, _⟩ := executedFrame_buffers hf hi.buffers
  have hma : a.mStaticParams.restirMode = 0 := by rw [hf.staticParams_before]; exact hm
  have htl : tl = [] := by
    have h := hf.dispatches.temporal
    rw [if_neg (by rw [hma]; decide)] at h
    exact h
  have hsl : sl = [] := by
    have h := hf.dispatches.spatialLength
    rw [if_neg (by rw [hma]; decide)] at h
    exact h
  have hL : dL.buffer "gReservoirs" = some r := hf.dispatches.load.2.2.1.trans e2
  have hD : dD.buffer "gReservoirs" = some r := by
    have h := hf.dispatches.direct.2.1
    rw [hsl] at h
    exact h.trans e2
  refine ⟨t, dL, dD, r, hf.result, ?_, hf.dispatches.load.1, hf.dispatches.direct.1, hL, hD, ?_,
    ?_, fun x hx0 => restirModeSwitch_noResampling x rd hx0⟩
  · rw [hf.ctx_after, htl, hsl]
    rfl
  · simp only [Dispatch.outReservoirs, hf.dispatches.load.1, hL]
  · simp only [Dispatch.inReservoirs, hf.dispatches.direct.1, hD]

theorem exampleNoResampling_reachable : Reachable exampleNoResampling :=
  exampleStart_reachable.apply (Op.renderUI exampleNoResamplingWidgets) rfl

theorem exampleNoResampling_frameExecuted :
    FrameExecuted exampleNoResampling exampleRenderData :=
  ⟨by decide, by decide, exampleColor, rfl, exampleRenderData_sizesMatch⟩

/-- Instance of C2: a frame after the user picked `No Resampling`. -/
theorem noResampling_resolver_reads_generator_output_witness :
    ∃ (t : ReSTIRDIPass) (dL dD : Dispatch) (buf : Buffer),
      execute exampleNoResampling exampleRenderData = some t ∧
      t.ctx = exampleNoResampling.ctx ++ [Command.dispatch dL, Command.dispatch dD] ∧
      dL.kernel = Kernel.LoadSurfaceData ∧ dD.kernel = Kernel.DirectLighting ∧
      dL.buffer "gReservoirs" = some buf ∧ dD.buffer "gReservoirs" = some buf ∧
      dL.outReservoirs = some buf ∧ dD.inReservoirs = some buf ∧
      (∀ x : ReSTIRDIPass, x.mStaticParams.restirMode = 0 →
        restirModeSwitch x exampleRenderData = some x) :=
  noResampling_resolver_reads_generator_output exampleNoResampling exampleRenderData
    exampleNoResampling_reachable exampleNoResampling_frameExecuted (by decide)

/-- C3: in every state reachable from construction through `setScene`,
`renderUI` and `execute`, the current and previous reservoir buffers, when
allocated, are different allocations, and every SpatialReuse dispatch issued so
far bound as input (`gReservoirs`) and as output (`gOutReservoirs`) two non-null
buffers that are different allocations. -/
theorem spatial_sweep_double_buffered (s : ReSTIRDIPass) (hr : Reachable s) :
    (∀ r p : Buffer, s.mpReservoirs = some r → s.mpPrevReservoirs = some p → r.id ≠ p.id) ∧
    (∀ d : Dispatch, Command.dispatch d ∈ s.ctx → d.kernel = Kernel.SpatialReuse →
      ∃ a b : Buffer, d.buffer "gReservoirs" = some a ∧ d.buffer "gOutReservoirs" = some b ∧
        d.inReservoirs = some a ∧ d.outReservoirs = some b ∧ a.id ≠ b.id ∧ a ≠ b) := by
  have hi := reachable_invariant s hr
  constructor
  · intro r p h1 h2
    rcases hi.buffers with ⟨_, hn, _⟩ | ⟨sd, r2, psd, pr, _, e2, _, e4, _, _, _, _, d5, _⟩
    · rw [hn] at h1
      cases h1
    · rw [e2] at h1
      rw [e4] at h2
      injection h1 with h1
      injection h2 with h2
      rw [← h1, ← h2]
      exact d5
  · intro d hd hk
    obtain ⟨a, b, ha, hb, hne⟩ := hi.spatial d hd hk
    refine ⟨a, b, ha, hb, ?_, ?_, hne, fun h => hne (by rw [h])⟩
    · simp only [Dispatch.inReservoirs, hk, ha]
    · simp only [Dispatch.outReservoirs, hk, hb]

/-- Instance of C3: the state after the first spatiotemporal frame and its first
spatial dispatch. -/
theorem spatial_sweep_double_buffered_witness :
    (Command.dispatch exampleSpatialDispatch ∈ exampleAfterFrame.ctx ∧
      exampleSpatialDispatch.kernel = Kernel.SpatialReuse) ∧
    (∀ r p : Buffer, exampleAfterFrame.mpReservoirs = some r →
      exampleAfterFrame.mpPrevReservoirs = some p → r.id ≠ p.id) ∧
    (∀ d : Dispatch, Command.dispatch d ∈ exampleAfterFrame.ctx →
      d.kernel = Kernel.SpatialReuse →
      ∃ a b : Buffer, d.buffer "gReservoirs" = some a ∧ d.buffer "gOutReservoirs" = some b ∧
        d.inReservoirs = some a ∧ d.outReservoirs = some b ∧ a.id ≠ b.id ∧ a ≠ b) :=
  ⟨⟨by decide, by decide⟩, spatial_sweep_double_buffered exampleAfterFrame exampleAfterFrame_reachable⟩

theorem chain_spatial_then_direct (f : Nat) (sd : Option Buffer) (dD : Dispatch)
    (hk : dD.kernel = Kernel.DirectLighting) (sl : List Dispatch) :
    ∀ (r p : Buffer) (prev : Dispatch), prev.outReservoirs = some r →
      SpatialRun f sd (some r) (some p) sl →
      dD.buffer "gReservoirs" = (swapIter sl.length (some r, some p)).1 →
      List.Chain ReadsOutputOf prev (sl ++ [dD]) := by
  induction sl with
  | nil =>
    intro r p prev hprev _ hD
    refine List.Chain.cons ⟨r, hprev, ?_⟩ List.Chain.nil
    simp only [Dispatch.inReservoirs, hk]
    exact hD
  | cons d rest ih =>
    intro r p prev hprev hrun hD
    refine List.Chain.cons ⟨r, hprev, ?_⟩ (ih p r d ?_ hrun.2 hD)
    · simp only [Dispatch.inReservoirs, hrun.1.1]
      exact hrun.1.2.1
    · simp only [Dispatch.outReservoirs, hrun.1.1]
      exact hrun.1.2.2.1

theorem frameDispatches_chain {a : ReSTIRDIPass} {dL : Dispatch} {tl sl : List Dispatch}
    {dD : Dispatch} (h : FrameDispatches a dL tl sl dD) (hb : BuffersAllocated a) :
    List.Chain' ReadsOutputOf (dL :: (tl ++ sl ++ [dD])) := by
  obtain ⟨sd, r, psd, pr, _, e2, _, e4, _⟩ := hb
  have hL : dL.outReservoirs = some r := by
    simp only [Dispatch.outReservoirs, h.load.1]
    exact h.load.2.2.1.trans e2
  have hrun := h.spatial
  have hD := h.direct.2.1
  rw [e2, e4] at hrun hD
  have ht := h.temporal
  show List.Chain ReadsOutputOf dL (tl ++ sl ++ [dD])
  rw [List.append_assoc]
  split_ifs at ht
  · obtain ⟨dT, rfl, hT⟩ := ht
    have hTin : dT.inReservoirs = some r := by
      simp only [Dispatch.inReservoirs, hT.1]
      exact hT.2.2.2.1.trans e2
    have hTout : dT.outReservoirs = some r := by
      simp only [Dispatch.outReservoirs, hT.1]
      exact hT.2.2.2.1.trans e2
    rw [List.singleton_append]
    exact List.Chain.cons ⟨r, hL, hTin⟩
      (chain_spatial_then_direct _ _ dD h.direct.1 sl r pr dT hTout hrun hD)
  · subst ht
    rw [List.nil_append]
    exact chain_spatial_then_direct _ _ dD h.direct.1 sl r pr dL hL hrun hD

/-- C4: in every reachable state in which a frame is executed, for every mode and
every spatial iteration count, the dispatches of the frame (LoadSurfaceData,
TemporalReuse in modes 2 and 3, the spatial iterations in modes 1 and 3,
DirectLighting) form a chain in which each dispatch after the first reads as its
input reservoir buffer the non-null buffer that the dispatch immediately before
it wrote as its output reservoir buffer. -/
theorem each_dispatch_reads_previous_output (s : ReSTIRDIPass) (rd : RenderData)
    (hr : Reachable s) (hx : FrameExecuted s rd) :
    ∃ (t : ReSTIRDIPass) (ds : List Dispatch),
      execute s rd = some t ∧ t.ctx = s.ctx ++ ds.map Command.dispatch ∧
      ds.map Dispatch.kernel =
        [Kernel.LoadSurfaceData]
          ++ (if s.mStaticParams.restirMode = 2 ∨ s.mStaticParams.restirMode = 3 then
                [Kernel.TemporalReuse] else [])
          ++ (if s.mStaticParams.restirMode = 1 ∨ s.mStaticParams.restirMode = 3 then
                List.replicate s.mStaticParams.spatialReuseIteration Kernel.SpatialReuse
              else [])
          ++ [Kernel.DirectLighting] ∧
      List.Chain' (fun a b : Dispatch =>
        ∃ buf : Buffer, a.outReservoirs = some buf ∧ b.inReservoirs = some buf) ds := by
  have hi := reachable_invariant s hr
  obtain ⟨t, a, dL, tl, sl, dD, hf⟩ := execute_executed s rd hx (hi.kernels hx.1)
  have hk := frameDispatches_kernels hf.dispatches
  rw [hf.staticParams_before] at hk
  exact ⟨t, dL :: (tl ++ sl ++ [dD]), hf.result, hf.ctx_after, hk,
    frameDispatches_chain hf.dispatches (executedFrame_buffers hf hi.buffers)⟩

/-- Instance of C4: the first frame after `setScene` with default properties. -/
theorem each_dispatch_reads_previous_output_witness :
    ∃ (t : ReSTIRDIPass) (ds : List Dispatch),
      execute exampleStart exampleRenderData = some t ∧
      t.ctx = exampleStart.ctx ++ ds.map Command.dispatch ∧
      ds.map Dispatch.kernel =
        [Kernel.LoadSurfaceData]
          ++ (if exampleStart.mStaticParams.restirMode = 2 ∨
                exampleStart.mStaticParams.restirMode = 3 then [Kernel.TemporalReuse] else [])
          ++ (if exampleStart.mStaticParams.restirMode = 1 ∨
                exampleStart.mStaticParams.restirMode = 3 then
                List.replicate exampleStart.mStaticParams.spatialReuseIteration
                  Kernel.SpatialReuse
              else [])
          ++ [Kernel.DirectLighting] ∧
      List.Chain' (fun a b : Dispatch =>
        ∃ buf : Buffer, a.outReservoirs = some buf ∧ b.inReservoirs = some buf) ds :=
  each_dispatch_reads_previous_output exampleStart exampleRenderData exampleStart_reachable
    exampleStart_frameExecuted

theorem dispatchesOf_append (l1 l2 : List Command) :
    dispatchesOf (l1 ++ l2) = dispatchesOf l1 ++ dispatchesOf l2 := by
  induction l1 with
  | nil => rfl
  | cons c rest ih =>
    cases c with
    | dispatch d => simp [dispatchesOf, ih]
    | clearUAV tex v => simp [dispatchesOf, ih]

theorem dispatchesOf_map (ds : List Dispatch) : dispatchesOf (ds.map Command.dispatch) = ds := by
  induction ds with
  | nil => rfl
  | cons d rest ih => simp [dispatchesOf, ih]

/-- One host call leaves the four buffer handles and the dispatch history
unchanged, or it issues at least one dispatch. -/
theorem apply_buffers_or_dispatch (s t : ReSTIRDIPass) (op : Op) (hi : Invariant s)
    (h : op.apply s = some t) :
    (t.mpReservoirs = s.mpReservoirs ∧ t.mpPrevReservoirs = s.mpPrevReservoirs ∧
      t.mpSurfaceData = s.mpSurfaceData ∧ t.mpPrevSurfaceData = s.mpPrevSurfaceData ∧
      dispatchesOf t.ctx = dispatchesOf s.ctx) ∨
    (dispatchesOf s.ctx).length < (dispatchesOf t.ctx).length := by
  cases op with
  | setScene p =>
    simp only [Op.apply, Option.some.injEq] at h
    subst h
    obtain ⟨log, h⟩ := setScene_form s p
    rw [h]
    exact Or.inl ⟨rfl, rfl, rfl, rfl, rfl⟩
  | renderUI w =>
    simp only [Op.apply, Option.some.injEq] at h
    subst h
    obtain ⟨mb, sp, uis, rc, oc, h, _⟩ := renderUI_form s w
    rw [h]
    exact Or.inl ⟨rfl, rfl, rfl, rfl, rfl⟩
  | hostUpdate scene dict =>
    simp only [Op.apply, Option.some.injEq] at h
    subst h
    exact Or.inl ⟨rfl, rfl, rfl, rfl, rfl⟩
  | execute rd =>
    simp only [Op.apply] at h
    cases hc : rd.getTexture kOutputColor with
    | none => rw [execute_eq_none_of_no_color s rd hc] at h; cases h
    | some c =>
      rcases frameExecuted_or_not s rd c hc with hx | hx
      · obtain ⟨t2, a, dL, tl, sl, dD, hf⟩ := execute_executed s rd hx (hi.kernels hx.1)
        have : t2 = t := by
          have := hf.result
          rw [h] at this
          injection this with this
          exact this.symm
        subst this
        right
        rw [hf.ctx_after, dispatchesOf_append, dispatchesOf_map]
        simp
      · obtain ⟨en, log, dict, he, _, _⟩ := execute_not_executed s rd c hc hx
        rw [h] at he
        injection he with he
        subst he
        left
        refine ⟨rfl, rfl, rfl, rfl, ?_⟩
        simp [dispatchesOf_append, dispatchesOf]

theorem runOps_buffers_of_no_dispatch (ops : List Op) : ∀ (s t : ReSTIRDIPass), Invariant s →
    runOps s ops = some t →
    (dispatchesOf s.ctx).length ≤ (dispatchesOf t.ctx).length ∧
    ((dispatchesOf t.ctx).length = (dispatchesOf s.ctx).length →
      t.mpReservoirs = s.mpReservoirs ∧ t.mpPrevReservoirs = s.mpPrevReservoirs ∧
      t.mpSurfaceData = s.mpSurfaceData ∧ t.mpPrevSurfaceData = s.mpPrevSurfaceData) := by
  induction ops with
  | nil =>
    intro s t _ h
    simp only [runOps, Option.some.injEq] at h
    subst h
    exact ⟨le_refl _, fun _ => ⟨rfl, rfl, rfl, rfl⟩⟩
  | cons op rest ih =>
    intro s t hi h
    simp only [runOps] at h
    cases h1 : op.apply s with
    | none => simp [h1] at h
    | some m =>
      rw [h1, Option.some_bind] at h
      obtain ⟨hle, heq⟩ := ih m t (invariant_apply s m op hi h1) h
      rcases apply_buffers_or_dispatch s m op hi h1 with ⟨b1, b2, b3, b4, b5⟩ | hlt
      · rw [b5] at hle heq
        refine ⟨hle, fun hlen => ?_⟩
        obtain ⟨c1, c2, c3, c4⟩ := heq hlen
        exact ⟨c1.trans b1, c2.trans b2, c3.trans b3, c4.trans b4⟩
      · exact ⟨by omega, fun hlen => by omega⟩

theorem prepareResources_no_allocation (u a : ReSTIRDIPass) (h : prepareResources u = some a)
    (h1 : needsAllocation u.mpSurfaceData ((u.mFrameDim.x * u.mFrameDim.y) % 2 ^ 32) = false)
    (h2 : needsAllocation u.mpReservoirs ((u.mFrameDim.x * u.mFrameDim.y) % 2 ^ 32) = false)
    (h3 : needsAllocation u.mpPrevSurfaceData ((u.mFrameDim.x * u.mFrameDim.y) % 2 ^ 32) = false)
    (h4 : needsAllocation u.mpPrevReservoirs ((u.mFrameDim.x * u.mFrameDim.y) % 2 ^ 32) = false) :
    a.mpSurfaceData = u.mpSurfaceData ∧ a.mpReservoirs = u.mpReservoirs ∧
    a.mpPrevSurfaceData = u.mpPrevSurfaceData ∧ a.mpPrevReservoirs = u.mpPrevReservoirs := by
  have hr := prepareResources_ready u a h
  rw [prepareResources_eq u hr _ rfl _ _ _ _ rfl rfl rfl rfl] at h
  injection h with h
  subst h
  simp only [allocSlot_of_not_needed _ _ _ _ h1, allocSlot_of_not_needed _ _ _ _ h2,
    allocSlot_of_not_needed _ _ _ _ h3, allocSlot_of_not_needed _ _ _ _ h4, and_self]

theorem endFrame_swaps (x : ReSTIRDIPass) :
    (endFrame x).mpReservoirs = x.mpPrevReservoirs ∧
    (endFrame x).mpPrevReservoirs = x.mpReservoirs ∧
    (endFrame x).mpSurfaceData = x.mpPrevSurfaceData ∧
    (endFrame x).mpPrevSurfaceData = x.mpSurfaceData ∧ (endFrame x).ctx = x.ctx :=
  ⟨rfl, rfl, rfl, rfl, rfl⟩

/-- The temporal history seen by a frame that needs no reallocation: the first
two dispatches are LoadSurfaceData and TemporalReuse, the temporal dispatch binds
the previous reservoirs and previous surface data of the state the frame started
in, and the generator writes neither of them. -/
theorem next_frame_history (s : ReSTIRDIPass) (rd : RenderData) (c : Texture)
    (hi : Invariant s) (hx : FrameExecuted s rd)
    (hc : rd.getTexture kOutputColor = some c)
    (hm : s.mStaticParams.restirMode = 2 ∨ s.mStaticParams.restirMode = 3)
    (h1 : needsAllocation s.mpSurfaceData ((c.width * c.height) % 2 ^ 32) = false)
    (h2 : needsAllocation s.mpReservoirs ((c.width * c.height) % 2 ^ 32) = false)
    (h3 : needsAllocation s.mpPrevSurfaceData ((c.width * c.height) % 2 ^ 32) = false)
    (h4 : needsAllocation s.mpPrevReservoirs ((c.width * c.height) % 2 ^ 32) = false) :
    ∃ (t : ReSTIRDIPass) (dL dT : Dispatch) (rest : List Dispatch),
      execute s rd = some t ∧
      t.ctx = s.ctx ++ (dL :: dT :: rest).map Command.dispatch ∧
      dL.kernel = Kernel.LoadSurfaceData ∧ dT.kernel = Kernel.TemporalReuse ∧
      dT.buffer "gPrevReservoirs" = s.mpPrevReservoirs ∧
      dT.buffer "gPrevSurfaceData" = s.mpPrevSurfaceData ∧
      dL.buffer "gReservoirs" = s.mpReservoirs ∧ dL.buffer "gSurfaceData" = s.mpSurfaceData := by
  obtain ⟨t, a, dL, tl, sl, dD, hf⟩ := execute_executed s rd hx (hi.kernels hx.1)
  obtain ⟨u, c2, hc2, ha, b1, b2, b3, b4, _, b6⟩ := hf.allocation
  rw [hc] at hc2
  injection hc2 with hc2
  subst hc2
  have hdim : (u.mFrameDim.x * u.mFrameDim.y) % 2 ^ 32 = (c.width * c.height) % 2 ^ 32 := by
    rw [b6]
  obtain ⟨e1, e2, e3, e4⟩ := prepareResources_no_allocation u a ha
    (by rw [hdim, b1]; exact h1) (by rw [hdim, b2]; exact h2)
    (by rw [hdim, b3]; exact h3) (by rw [hdim, b4]; exact h4)
  have ht := hf.dispatches.temporal
  rw [if_pos (by rw [hf.staticParams_before]; exact hm)] at ht
  obtain ⟨dT, rfl, hT⟩ := ht
  refine ⟨t, dL, dT, sl ++ [dD], hf.result, ?_, hf.dispatches.load.1, hT.1, ?_, ?_, ?_, ?_⟩
  · rw [hf.ctx_after]
    simp
  · rw [hT.2.2.2.2.1, e4, b4]
  · rw [hT.2.2.1, e3, b3]
  · rw [hf.dispatches.load.2.2.1, e2, b2]
  · rw [hf.dispatches.load.2.1, e1, b1]

/-- C5: after every executed frame from a reachable state, the previous-reservoir
slot holds the non-null buffer the DirectLighting dispatch of that frame read and
the previous-surface slot holds the non-null buffer LoadSurfaceData wrote; the
frame put only dispatches on the render context and `endFrame` exchanges the
handles without issuing a command (a swap, not a copy).  In the next executed
frame (the next call sequence that issues a dispatch), if it runs in mode 2 or 3
and needs no reallocation, the first two dispatches are LoadSurfaceData and
TemporalReuse, the temporal dispatch binds exactly those two buffers as
`gPrevReservoirs` and `gPrevSurfaceData`, and the buffers the generator writes
before it are different allocations. -/
theorem end_of_frame_history (s : ReSTIRDIPass) (rd : RenderData) (hr : Reachable s)
    (hx : FrameExecuted s rd) :
    ∃ (t : ReSTIRDIPass) (ds : List Dispatch) (dL dD : Dispatch) (res sd : Buffer),
      execute s rd = some t ∧ t.ctx = s.ctx ++ ds.map Command.dispatch ∧
      ds.head? = some dL ∧ ds.getLast? = some dD ∧
      dL.kernel = Kernel.LoadSurfaceData ∧ dD.kernel = Kernel.DirectLighting ∧
      dD.buffer "gReservoirs" = some res ∧ dL.buffer "gSurfaceData" = some sd ∧
      t.mpPrevReservoirs = some res ∧ t.mpPrevSurfaceData = some sd ∧
      (∀ x : ReSTIRDIPass,
        (endFrame x).mpReservoirs = x.mpPrevReservoirs ∧
        (endFrame x).mpPrevReservoirs = x.mpReservoirs ∧
        (endFrame x).mpSurfaceData = x.mpPrevSurfaceData ∧
        (endFrame x).mpPrevSurfaceData = x.mpSurfaceData ∧ (endFrame x).ctx = x.ctx) ∧
      (∀ (mid : List Op) (t1 : ReSTIRDIPass) (rd2 : RenderData) (c2 : Texture),
        runOps t mid = some t1 → dispatchesOf t1.ctx = dispatchesOf t.ctx →
        FrameExecuted t1 rd2 → rd2.getTexture kOutputColor = some c2 →
        (t1.mStaticParams.restirMode = 2 ∨ t1.mStaticParams.restirMode = 3) →
        needsAllocation t1.mpSurfaceData ((c2.width * c2.height) % 2 ^ 32) = false →
        needsAllocation t1.mpReservoirs ((c2.width * c2.height) % 2 ^ 32) = false →
        needsAllocation t1.mpPrevSurfaceData ((c2.width * c2.height) % 2 ^ 32) = false →
        needsAllocation t1.mpPrevReservoirs ((c2.width * c2.height) % 2 ^ 32) = false →
        ∃ (t2 : ReSTIRDIPass) (dL2 dT2 : Dispatch) (rest : List Dispatch),
          execute t1 rd2 = some t2 ∧
          t2.ctx = t1.ctx ++ (dL2 :: dT2 :: rest).map Command.dispatch ∧
          dL2.kernel = Kernel.LoadSurfaceData ∧ dT2.kernel = Kernel.TemporalReuse ∧
          dT2.buffer "gPrevReservoirs" = some res ∧ dT2.buffer "gPrevSurfaceData" = some sd ∧
          (∀ w : Buffer,
            dL2.buffer "gReservoirs" = some w ∨ dL2.buffer "gSurfaceData" = some w →
            w.id ≠ res.id ∧ w.id ≠ sd.id)) := by
  have hi := reachable_invariant s hr
  obtain ⟨t, a, dL, tl, sl, dD, hf⟩ := execute_executed s rd hx (hi.kernels hx.1)
  have hit := hf.invariant hi
  have hba := executedFrame_buffers hf hi.buffers
  have hbt : BuffersAllocated t :=
    buffersAllocated_swap a sl.length hba t hf.res_after hf.prevRes_after hf.surface_after
      hf.prevSurface_after hf.device_after
  obtain ⟨tsd, tr, tpsd, tpr, f1, f2, f3, f4, _, n2, n3, n4, n5, _⟩ := hbt
  have hD : dD.buffer "gReservoirs" = some tpr := by
    rw [hf.dispatches.direct.2.1, ← hf.prevRes_after, f4]
  have hL : dL.buffer "gSurfaceData" = some tpsd := by
    rw [hf.dispatches.load.2.1, ← hf.prevSurface_after, f3]
  refine ⟨t, dL :: (tl ++ sl ++ [dD]), dL, dD, tpr, tpsd, hf.result, hf.ctx_after, rfl, ?_,
    hf.dispatches.load.1, hf.dispatches.direct.1, hD, hL, f4, f3, endFrame_swaps, ?_⟩
  · rw [← List.cons_append, List.getLast?_append]
    rfl
  · intro mid t1 rd2 c2 hrun hno hx2 hc2 hm2 a1 a2 a3 a4
    obtain ⟨_, hsame⟩ := runOps_buffers_of_no_dispatch mid t t1 hit hrun
    obtain ⟨g2, g4, g1, g3⟩ := hsame (by rw [hno])
    have hit1 := invariant_runOps mid t t1 hit hrun
    obtain ⟨t2, dL2, dT2, rest, r1, r2, r3, r4, r5, r6, r7, r8⟩ :=
      next_frame_history t1 rd2 c2 hit1 hx2 hc2 hm2 a1 a2 a3 a4
    refine ⟨t2, dL2, dT2, rest, r1, r2, r3, r4, ?_, ?_, ?_⟩
    · rw [r5, g4, f4]
    · rw [r6, g3, f3]
    · intro w hw
      rw [r7, r8, g2, g1, f2, f1] at hw
      rcases hw with hw | hw
      · injection hw with hw
        subst hw
        exact ⟨n5, n4⟩
      · injection hw with hw
        subst hw
        exact ⟨n3, n2⟩

theorem exampleAfterFrame_frameExecuted : FrameExecuted exampleAfterFrame exampleRenderData :=
  ⟨by decide, by decide, exampleColor, rfl, exampleRenderData_sizesMatch⟩

/-- Instance of C5: two consecutive frames of the same size in the default
(spatiotemporal) mode; the temporal dispatch of the second frame binds the
buffers the first frame left in the previous slots. -/
theorem end_of_frame_history_witness :
    ∃ (res sd : Buffer),
      exampleAfterFrame.mpPrevReservoirs = some res ∧
      exampleAfterFrame.mpPrevSurfaceData = some sd ∧
      ∃ (t2 : ReSTIRDIPass) (dL2 dT2 : Dispatch) (rest : List Dispatch),
        execute exampleAfterFrame exampleRenderData = some t2 ∧
        t2.ctx = exampleAfterFrame.ctx ++ (dL2 :: dT2 :: rest).map Command.dispatch ∧
        dL2.kernel = Kernel.LoadSurfaceData ∧ dT2.kernel = Kernel.TemporalReuse ∧
        dT2.buffer "gPrevReservoirs" = some res ∧ dT2.buffer "gPrevSurfaceData" = some sd ∧
        (∀ w : Buffer,
          dL2.buffer "gReservoirs" = some w ∨ dL2.buffer "gSurfaceData" = some w →
          w.id ≠ res.id ∧ w.id ≠ sd.id) := by
  obtain ⟨t, ds, dL, dD, res, sd, h1, _, _, _, _, _, _, _, h9, h10, _, hnext⟩ :=
    end_of_frame_history exampleStart exampleRenderData exampleStart_reachable
      exampleStart_frameExecuted
  have ht : t = exampleAfterFrame := by
    rw [exampleAfterFrame_eq] at h1
    injection h1 with h1
    exact h1.symm
  subst ht
  exact ⟨res, sd, h9, h10,
    hnext [] exampleAfterFrame exampleRenderData exampleColor rfl rfl
      exampleAfterFrame_frameExecuted rfl (Or.inr (by decide)) (by decide) (by decide)
      (by decide) (by decide)⟩

/-- C6: for every state and every frame whose output colour `c` is connected
and in which some present input or output texture (`vbuffer`, `mvec`, `viewW`,
`color`, `debugTest3`) differs from `c` in width or height, `execute` returns
with the pass disabled, puts exactly one command on the render context, the
clear of `c` to `(0,0,0,0)`, and issues no dispatch. -/
theorem size_mismatch_disables_frame (s : ReSTIRDIPass) (rd : RenderData) (c : Texture)
    (hc : rd.getTexture kOutputColor = some c)
    (hm : ∃ name ∈ [kInputVBuffer, kInputMotionVectors, kInputViewDir, kOutputColor, kDebug],
      ∃ tex, rd.getTexture name = some tex ∧ (tex.width ≠ c.width ∨ tex.height ≠ c.height)) :
    ∃ t : ReSTIRDIPass, execute s rd = some t ∧ t.mEnabled = false ∧
      t.ctx = s.ctx ++ [Command.clearUAV c (0, 0, 0, 0)] ∧
      dispatchesOf t.ctx = dispatchesOf s.ctx := by
  obtain ⟨en, log, dict, he, h1, _⟩ :=
    execute_not_executed s rd c hc (Or.inr (Or.inr hm))
  refine ⟨_, he, h1 (Or.inr hm), rfl, ?_⟩
  simp [dispatchesOf_append, dispatchesOf]

/-- Instance of C6: an 8 by 8 visibility buffer with a 4 by 2 output colour. -/
theorem size_mismatch_disables_frame_witness :
    ∃ t : ReSTIRDIPass, execute exampleStart exampleMismatchedRenderData = some t ∧
      t.mEnabled = false ∧
      t.ctx = exampleStart.ctx ++ [Command.clearUAV exampleColor (0, 0, 0, 0)] ∧
      dispatchesOf t.ctx = dispatchesOf exampleStart.ctx :=
  size_mismatch_disables_frame exampleStart exampleMismatchedRenderData exampleColor rfl
    ⟨kInputVBuffer, by decide, { id := 1, width := 8, height := 8 }, rfl, Or.inl (by decide)⟩

theorem apply_keeps_disabled (s t : ReSTIRDIPass) (op : Op) (hd : s.mEnabled = false)
    (h : op.apply s = some t) : t.mEnabled = false := by
  cases op with
  | setScene p =>
    simp only [Op.apply, Option.some.injEq] at h
    subst h
    obtain ⟨log, h⟩ := setScene_form s p
    rw [h]
    exact hd
  | renderUI w =>
    simp only [Op.apply, Option.some.injEq] at h
    subst h
    obtain ⟨mb, sp, uis, rc, oc, h, _⟩ := renderUI_form s w
    rw [h]
    exact hd
  | hostUpdate scene dict =>
    simp only [Op.apply, Option.some.injEq] at h
    subst h
    exact hd
  | execute rd =>
    simp only [Op.apply] at h
    cases hc : rd.getTexture kOutputColor with
    | none => rw [execute_eq_none_of_no_color s rd hc] at h; cases h
    | some c =>
      obtain ⟨en, log, dict, he, h1, _⟩ :=
        execute_not_executed s rd c hc (Or.inr (Or.inl hd))
      rw [h] at he
      injection he with he
      subst he
      exact h1 (Or.inl hd)

theorem runOps_keeps_disabled (ops : List Op) : ∀ (s t : ReSTIRDIPass),
    s.mEnabled = false → runOps s ops = some t → t.mEnabled = false := by
  induction ops with
  | nil =>
    intro s t hd h
    simp only [runOps, Option.some.injEq] at h
    subst h
    exact hd
  | cons op rest ih =>
    intro s t hd h
    simp only [runOps] at h
    cases h1 : op.apply s with
    | none => simp [h1] at h
    | some m =>
      rw [h1, Option.some_bind] at h
      exact ih m t (apply_keeps_disabled s m op hd h1) h

theorem beginFrame_disabled_returns_false (s : ReSTIRDIPass) (rd : RenderData) (c : Texture)
    (hc : rd.getTexture kOutputColor = some c) (hd : s.mEnabled = false) :
    (beginFrame s rd).map Prod.fst = some false := by
  obtain ⟨en, log, dict, hb, _, _⟩ := beginFrame_not_executed s rd c hc (Or.inr (Or.inl hd))
  rw [hb]
  rfl

/-- C7, as the code behaves: once a frame with mismatched I/O sizes has run, the
pass is disabled and stays disabled under every later sequence of `setScene`,
`renderUI`, `execute` and host updates; every later frame with a connected
output, whatever its sizes and scene, has `beginFrame` return `false`, clears
the output colour and issues no dispatch. -/
theorem disabled_pass_stays_disabled (s : ReSTIRDIPass) (rd0 : RenderData) (c0 : Texture)
    (hc0 : rd0.getTexture kOutputColor = some c0)
    (hm0 : ∃ name ∈ [kInputVBuffer, kInputMotionVectors, kInputViewDir, kOutputColor, kDebug],
      ∃ tex, rd0.getTexture name = some tex ∧
        (tex.width ≠ c0.width ∨ tex.height ≠ c0.height)) :
    ∃ t0 : ReSTIRDIPass, execute s rd0 = some t0 ∧
      ∀ (ops : List Op) (t : ReSTIRDIPass), runOps t0 ops = some t →
        t.mEnabled = false ∧
        ∀ (rd : RenderData) (c : Texture), rd.getTexture kOutputColor = some c →
          (beginFrame t rd).map Prod.fst = some false ∧
          ∃ t2 : ReSTIRDIPass, execute t rd = some t2 ∧ t2.mEnabled = false ∧
            t2.ctx = t.ctx ++ [Command.clearUAV c (0, 0, 0, 0)] ∧
            dispatchesOf t2.ctx = dispatchesOf t.ctx := by
  obtain ⟨en, log, dict, he, h1, _⟩ :=
    execute_not_executed s rd0 c0 hc0 (Or.inr (Or.inr hm0))
  refine ⟨_, he, ?_⟩
  intro ops t hrun
  have hd : t.mEnabled = false := runOps_keeps_disabled ops _ t (h1 (Or.inr hm0)) hrun
  refine ⟨hd, fun rd c hc => ⟨beginFrame_disabled_returns_false t rd c hc hd, ?_⟩⟩
  obtain ⟨en2, log2, dict2, he2, h2, _⟩ :=
    execute_not_executed t rd c hc (Or.inr (Or.inl hd))
  refine ⟨_, he2, h2 (Or.inl hd), rfl, ?_⟩
  simp [dispatchesOf_append, dispatchesOf]

/-- Instance of the amended C7: the example pass after a mismatched frame. -/
theorem disabled_pass_stays_disabled_witness :
    ∃ t0 : ReSTIRDIPass, execute exampleStart exampleMismatchedRenderData = some t0 ∧
      ∀ (ops : List Op) (t : ReSTIRDIPass), runOps t0 ops = some t →
        t.mEnabled = false ∧
        ∀ (rd : RenderData) (c : Texture), rd.getTexture kOutputColor = some c →
          (beginFrame t rd).map Prod.fst = some false ∧
          ∃ t2 : ReSTIRDIPass, execute t rd = some t2 ∧ t2.mEnabled = false ∧
            t2.ctx = t.ctx ++ [Command.clearUAV c (0, 0, 0, 0)] ∧
            dispatchesOf t2.ctx = dispatchesOf t.ctx :=
  disabled_pass_stays_disabled exampleStart exampleMismatchedRenderData exampleColor rfl
    ⟨kInputVBuffer, by decide, { id := 1, width := 8, height := 8 }, rfl, Or.inl (by decide)⟩

/-- Counterexample to C7 as stated: from the reachable example state, a frame
with a mismatched visibility buffer disables the pass; the following frame has a
scene set and all sizes matching, yet `beginFrame` returns `false`, the output is
cleared and no dispatch is issued. -/
theorem pass_does_not_reenable_counterexample :
    Reachable exampleStart ∧
    execute exampleStart exampleMismatchedRenderData = some exampleDisabled ∧
    exampleDisabled.mpScene.isSome = true ∧
    exampleRenderData.getTexture kOutputColor = some exampleColor ∧
    SizesMatch exampleRenderData exampleColor ∧
    beginFrame exampleDisabled exampleRenderData ≠ none ∧
    (beginFrame exampleDisabled exampleRenderData).map Prod.fst ≠ some true ∧
    ∃ t : ReSTIRDIPass, execute exampleDisabled exampleRenderData = some t ∧
      t.ctx = exampleDisabled.ctx ++ [Command.clearUAV exampleColor (0, 0, 0, 0)] ∧
      dispatchesOf t.ctx = [] := by
  have h0 : execute exampleStart exampleMismatchedRenderData = some exampleDisabled := by
    have h : (execute exampleStart exampleMismatchedRenderData).isSome = true := by decide
    obtain ⟨t, ht⟩ := Option.isSome_iff_exists.1 h
    simp [exampleDisabled, ht]
  have hd : exampleDisabled.mEnabled = false := by decide
  have hb := beginFrame_disabled_returns_false exampleDisabled exampleRenderData exampleColor
    rfl hd
  obtain ⟨en, log, dict, he, _, _⟩ :=
    execute_not_executed exampleDisabled exampleRenderData exampleColor rfl (Or.inr (Or.inl hd))
  refine ⟨exampleStart_reachable, h0, by decide, rfl, exampleRenderData_sizesMatch, ?_, ?_,
    _, he, rfl, ?_⟩
  · intro hn
    rw [hn] at hb
    cases hb
  · rw [hb]
    decide
  · have hctx : dispatchesOf exampleDisabled.ctx = [] := by decide
    simp [dispatchesOf_append, dispatchesOf, hctx]

/-- C8, as the code behaves: for every state in which `mpReflectTypesPass` can
be dereferenced, `prepareResources` returns and each of the four frame buffers
is then allocated with at least `(width * height) mod 2^32` elements, the 32-bit
product the code computes; so with at least `width * height` elements whenever
that product is below `2^32`. -/
theorem prepareResources_capacity (s : ReSTIRDIPass)
    (hr : passReady s.mpReflectTypesPass = true) :
    ∃ (t : ReSTIRDIPass) (sd r psd pr : Buffer),
      prepareResources s = some t ∧
      t.mpSurfaceData = some sd ∧ t.mpReservoirs = some r ∧
      t.mpPrevSurfaceData = some psd ∧ t.mpPrevReservoirs = some pr ∧
      (s.mFrameDim.x * s.mFrameDim.y) % 2 ^ 32 ≤ sd.elementCount ∧
      (s.mFrameDim.x * s.mFrameDim.y) % 2 ^ 32 ≤ r.elementCount ∧
      (s.mFrameDim.x * s.mFrameDim.y) % 2 ^ 32 ≤ psd.elementCount ∧
      (s.mFrameDim.x * s.mFrameDim.y) % 2 ^ 32 ≤ pr.elementCount ∧
      (s.mFrameDim.x * s.mFrameDim.y < 2 ^ 32 →
        s.mFrameDim.x * s.mFrameDim.y ≤ sd.elementCount ∧
        s.mFrameDim.x * s.mFrameDim.y ≤ r.elementCount ∧
        s.mFrameDim.x * s.mFrameDim.y ≤ psd.elementCount ∧
        s.mFrameDim.x * s.mFrameDim.y ≤ pr.elementCount) := by
  have h := prepareResources_eq s hr _ rfl _ _ _ _ rfl rfl rfl rfl
  obtain ⟨b1, e1, c1⟩ := allocSlot_count s.mpSurfaceData s.mpDevice "surfaceData"
    ((s.mFrameDim.x * s.mFrameDim.y) % 2 ^ 32)
  obtain ⟨b2, e2, c2⟩ := allocSlot_count s.mpReservoirs
    (allocSlot s.mpSurfaceData s.mpDevice "surfaceData"
      ((s.mFrameDim.x * s.mFrameDim.y) % 2 ^ 32)).2.1 "reservoirs"
    ((s.mFrameDim.x * s.mFrameDim.y) % 2 ^ 32)
  obtain ⟨b3, e3, c3⟩ := allocSlot_count s.mpPrevSurfaceData
    (allocSlot s.mpReservoirs
      (allocSlot s.mpSurfaceData s.mpDevice "surfaceData"
        ((s.mFrameDim.x * s.mFrameDim.y) % 2 ^ 32)).2.1 "reservoirs"
      ((s.mFrameDim.x * s.mFrameDim.y) % 2 ^ 32)).2.1 "prevSurfaceData"
    ((s.mFrameDim.x * s.mFrameDim.y) % 2 ^ 32)
  obtain ⟨b4, e4, c4⟩ := allocSlot_count s.mpPrevReservoirs
    (allocSlot s.mpPrevSurfaceData
      (allocSlot s.mpReservoirs
        (allocSlot s.mpSurfaceData s.mpDevice "surfaceData"
          ((s.mFrameDim.x * s.mFrameDim.y) % 2 ^ 32)).2.1 "reservoirs"
        ((s.mFrameDim.x * s.mFrameDim.y) % 2 ^ 32)).2.1 "prevSurfaceData"
      ((s.mFrameDim.x * s.mFrameDim.y) % 2 ^ 32)).2.1 "prevReservoirs"
    ((s.mFrameDim.x * s.mFrameDim.y) % 2 ^ 32)
  refine ⟨_, b1, b2, b3, b4, h, e1, e2, e3, e4, c1, c2, c3, c4, ?_⟩
  intro hlt
  rw [Nat.mod_eq_of_lt hlt] at c1 c2 c3 c4
  exact ⟨c1, c2, c3, c4⟩

/-- Instance of the amended C8: the example pass after its first frame (4 by 2
pixels, kernels created). -/
theorem prepareResources_capacity_witness :
    ∃ (t : ReSTIRDIPass) (sd r psd pr : Buffer),
      prepareResources exampleAfterFrame = some t ∧
      t.mpSurfaceData = some sd ∧ t.mpReservoirs = some r ∧
      t.mpPrevSurfaceData = some psd ∧ t.mpPrevReservoirs = some pr ∧
      (exampleAfterFrame.mFrameDim.x * exampleAfterFrame.mFrameDim.y) % 2 ^ 32
        ≤ sd.elementCount ∧
      (exampleAfterFrame.mFrameDim.x * exampleAfterFrame.mFrameDim.y) % 2 ^ 32
        ≤ r.elementCount ∧
      (exampleAfterFrame.mFrameDim.x * exampleAfterFrame.mFrameDim.y) % 2 ^ 32
        ≤ psd.elementCount ∧
      (exampleAfterFrame.mFrameDim.x * exampleAfterFrame.mFrameDim.y) % 2 ^ 32
        ≤ pr.elementCount ∧
      (exampleAfterFrame.mFrameDim.x * exampleAfterFrame.mFrameDim.y < 2 ^ 32 →
        exampleAfterFrame.mFrameDim.x * exampleAfterFrame.mFrameDim.y ≤ sd.elementCount ∧
        exampleAfterFrame.mFrameDim.x * exampleAfterFrame.mFrameDim.y ≤ r.elementCount ∧
        exampleAfterFrame.mFrameDim.x * exampleAfterFrame.mFrameDim.y ≤ psd.elementCount ∧
        exampleAfterFrame.mFrameDim.x * exampleAfterFrame.mFrameDim.y ≤ pr.elementCount) :=
  prepareResources_capacity exampleAfterFrame (by decide)

/-- Counterexample to C8 as stated: both components of the frame dimension are
unsigned 32-bit values (65536), the pixel count is `2^32`, the code computes the
product as 0, keeps the four 8-element buffers and so leaves every buffer
smaller than the pixel count. -/
theorem prepareResources_overflow_counterexample :
    exampleOverflow.mFrameDim.x < 2 ^ 32 ∧ exampleOverflow.mFrameDim.y < 2 ^ 32 ∧
    passReady exampleOverflow.mpReflectTypesPass = true ∧
    (prepareResources exampleOverflow).map
        (fun t => (slotCount t.mpSurfaceData, slotCount t.mpReservoirs,
          slotCount t.mpPrevSurfaceData, slotCount t.mpPrevReservoirs))
      = some (8, 8, 8, 8) ∧
    8 < exampleOverflow.mFrameDim.x * exampleOverflow.mFrameDim.y := by
  decide

theorem slotCount_allocSlot (p : Option Buffer) (dev : Device) (name : String) (n : Nat) :
    slotCount p ≤ slotCount (allocSlot p dev name n).1 := by
  cases p with
  | none => exact Nat.zero_le _
  | some b =>
    rcases allocSlot_kept_or_grown b dev name n with h | ⟨c, h, hlt⟩
    · rw [h]
    · rw [h]
      exact Nat.le_of_lt hlt

theorem prepareResources_slotCount (u a : ReSTIRDIPass) (h : prepareResources u = some a) :
    slotCount u.mpSurfaceData ≤ slotCount a.mpSurfaceData ∧
    slotCount u.mpReservoirs ≤ slotCount a.mpReservoirs ∧
    slotCount u.mpPrevSurfaceData ≤ slotCount a.mpPrevSurfaceData ∧
    slotCount u.mpPrevReservoirs ≤ slotCount a.mpPrevReservoirs := by
  have hr := prepareResources_ready u a h
  rw [prepareResources_eq u hr _ rfl _ _ _ _ rfl rfl rfl rfl] at h
  injection h with h
  subst h
  exact ⟨slotCount_allocSlot _ _ _ _, slotCount_allocSlot _ _ _ _, slotCount_allocSlot _ _ _ _,
    slotCount_allocSlot _ _ _ _⟩

theorem apply_slotCount_mono (s t : ReSTIRDIPass) (op : Op) (hi : Invariant s)
    (h : op.apply s = some t) :
    slotCount s.mpSurfaceData ≤ slotCount t.mpSurfaceData ∧
    slotCount s.mpReservoirs ≤ slotCount t.mpReservoirs ∧
    slotCount s.mpPrevSurfaceData ≤ slotCount t.mpPrevSurfaceData ∧
    slotCount s.mpPrevReservoirs ≤ slotCount t.mpPrevReservoirs := by
  cases op with
  | setScene p =>
    simp only [Op.apply, Option.some.injEq] at h
    subst h
    obtain ⟨log, h⟩ := setScene_form s p
    rw [h]
    exact ⟨le_refl _, le_refl _, le_refl _, le_refl _⟩
  | renderUI w =>
    simp only [Op.apply, Option.some.injEq] at h
    subst h
    obtain ⟨mb, sp, uis, rc, oc, h, _⟩ := renderUI_form s w
    rw [h]
    exact ⟨le_refl _, le_refl _, le_refl _, le_refl _⟩
  | hostUpdate scene dict =>
    simp only [Op.apply, Option.some.injEq] at h
    subst h
    exact ⟨le_refl _, le_refl _, le_refl _, le_refl _⟩
  | execute rd =>
    simp only [Op.apply] at h
    cases hc : rd.getTexture kOutputColor with
    | none => rw [execute_eq_none_of_no_color s rd hc] at h; cases h
    | some c =>
      rcases frameExecuted_or_not s rd c hc with hx | hx
      · obtain ⟨t2, a, dL, tl, sl, dD, hf⟩ := execute_executed s rd hx (hi.kernels hx.1)
        have : t2 = t := by
          have := hf.result
          rw [h] at this
          injection this with this
          exact this.symm
        subst this
        obtain ⟨u, _, _, ha, b1, b2, b3, b4, _, _⟩ := hf.allocation
        obtain ⟨m1, m2, m3, m4⟩ := prepareResources_slotCount u a ha
        rw [b1] at m1
        rw [b2] at m2
        rw [b3] at m3
        rw [b4] at m4
        obtain ⟨sd, r, psd, pr, e1, e2, e3, e4, _, _, _, _, _, _, _, _, _, _, c1, c2, c3⟩ :=
          executedFrame_buffers hf hi.buffers
        rw [e1] at m1
        rw [e2] at m2
        rw [e3] at m3
        rw [e4] at m4
        simp only [slotCount] at m1 m2 m3 m4
        rw [hf.surface_after, hf.prevSurface_after, hf.res_after, hf.prevRes_after, e1, e2, e3,
          e4]
        rcases swapIter_cases sl.length (some r) (some pr) with hsw | hsw
        · rw [hsw]
          simp only [slotCount]
          omega
        · rw [hsw]
          simp only [slotCount]
          omega
      · obtain ⟨en, log, dict, he, _, _⟩ := execute_not_executed s rd c hc hx
        rw [h] at he
        injection he with he
        subst he
        exact ⟨le_refl _, le_refl _, le_refl _, le_refl _⟩

theorem runOps_slotCount_mono (ops : List Op) : ∀ (s t : ReSTIRDIPass), Invariant s →
    runOps s ops = some t →
    slotCount s.mpSurfaceData ≤ slotCount t.mpSurfaceData ∧
    slotCount s.mpReservoirs ≤ slotCount t.mpReservoirs ∧
    slotCount s.mpPrevSurfaceData ≤ slotCount t.mpPrevSurfaceData ∧
    slotCount s.mpPrevReservoirs ≤ slotCount t.mpPrevReservoirs := by
  induction ops with
  | nil =>
    intro s t _ h
    simp only [runOps, Option.some.injEq] at h
    subst h
    exact ⟨le_refl _, le_refl _, le_refl _, le_refl _⟩
  | cons op rest ih =>
    intro s t hi h
    simp only [runOps] at h
    cases h1 : op.apply s with
    | none => simp [h1] at h
    | some m =>
      rw [h1, Option.some_bind] at h
      obtain ⟨a1, a2, a3, a4⟩ := apply_slotCount_mono s m op hi h1
      obtain ⟨b1, b2, b3, b4⟩ := ih m t (invariant_apply s m op hi h1) h
      exact ⟨le_trans a1 b1, le_trans a2 b2, le_trans a3 b3, le_trans a4 b4⟩

/-- C9: `prepareResources` never shrinks a buffer: in every state in which it
is defined it returns, and each already-allocated frame buffer is either kept or
replaced by a buffer with strictly more elements.  Consequently, from every
reachable state and over every sequence of `setScene`, `renderUI`, `execute` and
host updates, the element count of each of the four buffer slots (a null slot
counting as zero) does not decrease, the swaps included. -/
theorem buffers_never_shrink (s : ReSTIRDIPass) (hr : Reachable s) (ops : List Op)
    (t : ReSTIRDIPass) (hrun : runOps s ops = some t) :
    (slotCount s.mpSurfaceData ≤ slotCount t.mpSurfaceData ∧
      slotCount s.mpReservoirs ≤ slotCount t.mpReservoirs ∧
      slotCount s.mpPrevSurfaceData ≤ slotCount t.mpPrevSurfaceData ∧
      slotCount s.mpPrevReservoirs ≤ slotCount t.mpPrevReservoirs) ∧
    (∀ u : ReSTIRDIPass, passReady u.mpReflectTypesPass = true →
      ∃ a : ReSTIRDIPass, prepareResources u = some a ∧
        (∀ b, u.mpSurfaceData = some b → a.mpSurfaceData = some b ∨
          ∃ c, a.mpSurfaceData = some c ∧ b.elementCount < c.elementCount) ∧
        (∀ b, u.mpReservoirs = some b → a.mpReservoirs = some b ∨
          ∃ c, a.mpReservoirs = some c ∧ b.elementCount < c.elementCount) ∧
        (∀ b, u.mpPrevSurfaceData = some b → a.mpPrevSurfaceData = some b ∨
          ∃ c, a.mpPrevSurfaceData = some c ∧ b.elementCount < c.elementCount) ∧
        (∀ b, u.mpPrevReservoirs = some b → a.mpPrevReservoirs = some b ∨
          ∃ c, a.mpPrevReservoirs = some c ∧ b.elementCount < c.elementCount)) := by
  refine ⟨runOps_slotCount_mono ops s t (reachable_invariant s hr) hrun, ?_⟩
  intro u hu
  refine ⟨_, prepareResources_eq u hu _ rfl _ _ _ _ rfl rfl rfl rfl, ?_, ?_, ?_, ?_⟩
  · intro b hb
    simp only [hb]
    exact allocSlot_kept_or_grown b _ _ _
  · intro b hb
    simp only [hb]
    exact allocSlot_kept_or_grown b _ _ _
  · intro b hb
    simp only [hb]
    exact allocSlot_kept_or_grown b _ _ _
  · intro b hb
    simp only [hb]
    exact allocSlot_kept_or_grown b _ _ _

theorem exampleAfterResize_eq : runOps exampleStart exampleResizeOps = some exampleAfterResize := by
  have h : (runOps exampleStart exampleResizeOps).isSome = true := by decide
  obtain ⟨t, ht⟩ := Option.isSome_iff_exists.1 h
  simp [exampleAfterResize, ht]

/-- Instance of C9: a 4 by 2 frame followed by an 8 by 8 frame. -/
theorem buffers_never_shrink_witness :
    (slotCount exampleStart.mpSurfaceData ≤ slotCount exampleAfterResize.mpSurfaceData ∧
      slotCount exampleStart.mpReservoirs ≤ slotCount exampleAfterResize.mpReservoirs ∧
      slotCount exampleStart.mpPrevSurfaceData ≤ slotCount exampleAfterResize.mpPrevSurfaceData ∧
      slotCount exampleStart.mpPrevReservoirs ≤ slotCount exampleAfterResize.mpPrevReservoirs) ∧
    (∀ u : ReSTIRDIPass, passReady u.mpReflectTypesPass = true →
      ∃ a : ReSTIRDIPass, prepareResources u = some a ∧
        (∀ b, u.mpSurfaceData = some b → a.mpSurfaceData = some b ∨
          ∃ c, a.mpSurfaceData = some c ∧ b.elementCount < c.elementCount) ∧
        (∀ b, u.mpReservoirs = some b → a.mpReservoirs = some b ∨
          ∃ c, a.mpReservoirs = some c ∧ b.elementCount < c.elementCount) ∧
        (∀ b, u.mpPrevSurfaceData = some b → a.mpPrevSurfaceData = some b ∨
          ∃ c, a.mpPrevSurfaceData = some c ∧ b.elementCount < c.elementCount) ∧
        (∀ b, u.mpPrevReservoirs = some b → a.mpPrevReservoirs = some b ∨
          ∃ c, a.mpPrevReservoirs = some c ∧ b.elementCount < c.elementCount)) :=
  buffers_never_shrink exampleStart exampleStart_reachable exampleResizeOps exampleAfterResize
    exampleAfterResize_eq

/-- C10, at a failing input: the example pass after its first frame stores the
frame dimension (4, 2) and has `mVarsChanged` clear; `setFrameDim` with the new
dimension (1920, 1080) stores it but leaves `mVarsChanged` clear, because the
comparison is made against the new value itself. -/
theorem setFrameDim_change_not_signalled :
    Reachable exampleAfterFrame ∧
    exampleAfterFrame.mFrameDim = { x := 4, y := 2 } ∧
    exampleAfterFrame.mVarsChanged = false ∧
    (setFrameDim exampleAfterFrame { x := 1920, y := 1080 }).mFrameDim
      = { x := 1920, y := 1080 } ∧
    (setFrameDim exampleAfterFrame { x := 1920, y := 1080 }).mVarsChanged = false ∧
    (∀ (s : ReSTIRDIPass) (d : UInt2),
      (setFrameDim s d).mFrameDim = d ∧ (setFrameDim s d).mVarsChanged = s.mVarsChanged) := by
  refine ⟨exampleAfterFrame_reachable, by decide, by decide, by decide, by decide, ?_⟩
  intro s d
  rw [setFrameDim_eq]
  exact ⟨rfl, rfl⟩

theorem renderUI_eq (s : ReSTIRDIPass) (w : Widgets) :
    renderUI s w =
      if renderUIDirty s w then
        { s with
          mMaxBounces := (Widgets.var w.maxBounces s.mMaxBounces 0 (2 ^ 16)).2
          mStaticParams :=
            { s.mStaticParams with
              candidateCount :=
                (Widgets.var w.candidateCount s.mStaticParams.candidateCount 1 64).2
              restirMode :=
                (Widgets.dropdown w.restirMode kRestirModeList s.mStaticParams.restirMode).2
              biasedMode :=
                (Widgets.dropdown w.biasedMode kBiasedModeList s.mStaticParams.biasedMode).2
              spatialReuseIteration :=
                (Widgets.var w.spatialReuseIteration s.mStaticParams.spatialReuseIteration
                  1 16).2
              spatialReuseNeighbors :=
                (Widgets.var w.spatialReuseNeighbors s.mStaticParams.spatialReuseNeighbors
                  1 64).2 }
          mUseImportanceSampling :=
            (Widgets.checkbox w.useImportanceSampling s.mUseImportanceSampling).2
          mRecompile := true
          mOptionsChanged := true }
      else
        { s with
          mMaxBounces := (Widgets.var w.maxBounces s.mMaxBounces 0 (2 ^ 16)).2
          mStaticParams :=
            { s.mStaticParams with
              candidateCount :=
                (Widgets.var w.candidateCount s.mStaticParams.candidateCount 1 64).2
              restirMode :=
                (Widgets.dropdown w.restirMode kRestirModeList s.mStaticParams.restirMode).2
              biasedMode :=
                (Widgets.dropdown w.biasedMode kBiasedModeList s.mStaticParams.biasedMode).2
              spatialReuseIteration :=
                (Widgets.var w.spatialReuseIteration s.mStaticParams.spatialReuseIteration
                  1 16).2
              spatialReuseNeighbors :=
                (Widgets.var w.spatialReuseNeighbors s.mStaticParams.spatialReuseNeighbors
                  1 64).2 }
          mUseImportanceSampling :=
            (Widgets.checkbox w.useImportanceSampling s.mUseImportanceSampling).2 } := by
  rfl

theorem Widgets.var_unchanged (input : Option Nat) (cur lo hi : Nat)
    (h : (Widgets.var input cur lo hi).1 = false) : (Widgets.var input cur lo hi).2 = cur := by
  cases input with
  | none => rfl
  | some v => simpa [Widgets.var] using h

theorem Widgets.dropdown_unchanged (input : Option Nat) (list : List Nat) (cur : Nat)
    (h : (Widgets.dropdown input list cur).1 = false) :
    (Widgets.dropdown input list cur).2 = cur := by
  cases input with
  | none => rfl
  | some v =>
    unfold Widgets.dropdown at h ⊢
    dsimp only at h ⊢
    split_ifs at h ⊢
    · simpa using h
    · rfl

theorem Widgets.checkbox_unchanged (input : Option Bool) (cur : Bool)
    (h : (Widgets.checkbox input cur).1 = false) : (Widgets.checkbox input cur).2 = cur := by
  cases input with
  | none => rfl
  | some b => simpa [Widgets.checkbox] using h

theorem renderUI_unchanged_of_not_dirty (s : ReSTIRDIPass) (w : Widgets)
    (h : renderUIDirty s w = false) : configuration (renderUI s w) = configuration s := by
  have h' := h
  simp only [renderUIDirty, Bool.or_eq_false_iff] at h'
  obtain ⟨⟨⟨⟨⟨⟨h1, h2⟩, h3⟩, h4⟩, h5⟩, h6⟩, h7⟩ := h'
  rw [renderUI_eq, h]
  simp only [Bool.false_eq_true, if_false, configuration, Widgets.var_unchanged _ _ _ _ h1,
    Widgets.var_unchanged _ _ _ _ h2, Widgets.dropdown_unchanged _ _ _ h3,
    Widgets.dropdown_unchanged _ _ _ h4, Widgets.var_unchanged _ _ _ _ h5,
    Widgets.var_unchanged _ _ _ _ h6, Widgets.checkbox_unchanged _ _ h7]

theorem renderUI_flags_of_dirty (s : ReSTIRDIPass) (w : Widgets)
    (h : renderUIDirty s w = true) :
    (renderUI s w).mRecompile = true ∧ (renderUI s w).mOptionsChanged = true := by
  rw [renderUI_eq, h]
  exact ⟨rfl, rfl⟩

theorem parseProperties_recompile (props : Properties) (s t : ReSTIRDIPass)
    (h : parseProperties s props = some t) : t.mRecompile = s.mRecompile := by
  obtain ⟨mb, sp, uis, log, rfl⟩ := parseProperties_form props s t h
  rfl

theorem setScene_recompile (s : ReSTIRDIPass) (p : Option Scene) :
    (setScene s p).mRecompile = true := by
  obtain ⟨log, h⟩ := setScene_form s p
  rw [h]

/-- C11, as the code behaves: whenever `renderUI` changes the max bounces, the
candidate count, the resampling mode, the bias mode, the spatial iteration
count, the spatial neighbor count or the importance-sampling toggle, and
whenever one of its widgets reports a change, the recompile flag (and the
options-changed flag) is true afterwards.  `parseProperties`, which only the
constructor calls, leaves the recompile flag as it was; `setScene`, without which
no frame is executed, always raises it. -/
theorem configuration_change_and_recompile :
    (∀ (s : ReSTIRDIPass) (w : Widgets),
      configuration (renderUI s w) ≠ configuration s →
        (renderUI s w).mRecompile = true ∧ (renderUI s w).mOptionsChanged = true) ∧
    (∀ (s : ReSTIRDIPass) (w : Widgets), renderUIDirty s w = true →
      (renderUI s w).mRecompile = true ∧ (renderUI s w).mOptionsChanged = true) ∧
    (∀ (s t : ReSTIRDIPass) (props : Properties),
      parseProperties s props = some t → t.mRecompile = s.mRecompile) ∧
    (∀ (s : ReSTIRDIPass) (p : Option Scene), (setScene s p).mRecompile = true) := by
  refine ⟨?_, renderUI_flags_of_dirty, fun s t props h => parseProperties_recompile props s t h,
    setScene_recompile⟩
  intro s w hne
  cases hd : renderUIDirty s w with
  | false => exact absurd (renderUI_unchanged_of_not_dirty s w hd) hne
  | true => exact renderUI_flags_of_dirty s w hd

/-- Counterexample to C11 as stated: constructing the pass with the property
`candidateCount = 32` changes the candidate count from its default 16, and the
recompile flag is false afterwards. -/
theorem parseProperties_no_recompile_counterexample :
    ∃ t : ReSTIRDIPass,
      parseProperties (ReSTIRDIPass.initial exampleDevice) exampleCandidateProps = some t ∧
      ReSTIRDIPass.create exampleDevice exampleCandidateProps = some t ∧
      (ReSTIRDIPass.initial exampleDevice).mStaticParams.candidateCount = 16 ∧
      t.mStaticParams.candidateCount = 32 ∧
      configuration t ≠ configuration (ReSTIRDIPass.initial exampleDevice) ∧
      t.mRecompile = false :=
  ⟨_, rfl, by decide, rfl, rfl, by decide, rfl⟩

theorem parseProperty_unrecognised (s : ReSTIRDIPass) (key : String) (value : PropValue)
    (h : key ∉ recognisedKeys) :
    parseProperty s key value = some { s with log := s.log ++
      [LogMsg.warning ("Unknown property " ++ key ++ " in MinimalPathTracer properties.")] } := by
  simp only [recognisedKeys, List.mem_cons, List.not_mem_nil, or_false, not_or] at h
  obtain ⟨h1, h2, h3, h4, h5, h6, h7⟩ := h
  simp only [parseProperty, h1, h2, h3, h4, h5, h6, h7, if_false]

theorem parseProperty_withoutLog (s s2 : ReSTIRDIPass) (key : String) (value : PropValue)
    (h : withoutLog s = withoutLog s2) (hk : key ∈ recognisedKeys) :
    (parseProperty s key value).map withoutLog = (parseProperty s2 key value).map withoutLog := by
  have e1 : ∀ v, withoutLog { s with mMaxBounces := v } = withoutLog { s2 with mMaxBounces := v } :=
    fun v => congrArg (fun x : ReSTIRDIPass => { x with mMaxBounces := v }) h
  have e2 : ∀ b, withoutLog { s with mUseImportanceSampling := b }
      = withoutLog { s2 with mUseImportanceSampling := b } :=
    fun b => congrArg (fun x : ReSTIRDIPass => { x with mUseImportanceSampling := b }) h
  have hsp : s.mStaticParams = s2.mStaticParams := by
    have h0 := congrArg ReSTIRDIPass.mStaticParams h
    exact h0
  have e3 : ∀ p, withoutLog { s with mStaticParams := p }
      = withoutLog { s2 with mStaticParams := p } :=
    fun p => congrArg (fun x : ReSTIRDIPass => { x with mStaticParams := p }) h
  unfold parseProperty
  split_ifs
  · cases value.asUInt with
    | none => rfl
    | some v => exact congrArg some (e1 v)
  · rw [hsp]
    cases value.asUInt with
    | none => rfl
    | some v => exact congrArg some (e3 _)
  · cases value.asBool with
    | none => rfl
    | some v => exact congrArg some (e2 v)
  · rw [hsp]
    cases value.asUInt with
    | none => rfl
    | some v => exact congrArg some (e3 _)
  · rw [hsp]
    cases value.asUInt with
    | none => rfl
    | some v => exact congrArg some (e3 _)
  · rw [hsp]
    cases value.asUInt with
    | none => rfl
    | some v => exact congrArg some (e3 _)
  · rw [hsp]
    cases value.asUInt with
    | none => rfl
    | some v => exact congrArg some (e3 _)
  · rename_i h1 h2 h3 h4 h5 h6 h7
    simp only [recognisedKeys, List.mem_cons, List.not_mem_nil, or_false] at hk
    rcases hk with hk | hk | hk | hk | hk | hk | hk
    · exact absurd hk h1
    · exact absurd hk h2
    · exact absurd hk h3
    · exact absurd hk h4
    · exact absurd hk h5
    · exact absurd hk h6
    · exact absurd hk h7

theorem parseProperties_withoutLog (props : Properties) : ∀ (s s2 : ReSTIRDIPass),
    withoutLog s = withoutLog s2 →
    (parseProperties s props).map withoutLog
      = (parseProperties s2 (recognisedOnly props)).map withoutLog := by
  induction props with
  | nil =>
    intro s s2 h
    simp [parseProperties, recognisedOnly, h]
  | cons p rest ih =>
    intro s s2 h
    obtain ⟨key, value⟩ := p
    by_cases hk : key ∈ recognisedKeys
    · have hf : recognisedOnly ((key, value) :: rest) = (key, value) :: recognisedOnly rest := by
        simp [recognisedOnly, hk]
      rw [hf]
      simp only [parseProperties]
      have hp := parseProperty_withoutLog s s2 key value h hk
      cases h1 : parseProperty s key value with
      | none =>
        cases h2 : parseProperty s2 key value with
        | none => rfl
        | some m2 => rw [h1, h2] at hp; cases hp
      | some m =>
        cases h2 : parseProperty s2 key value with
        | none => rw [h1, h2] at hp; cases hp
        | some m2 =>
          rw [h1, h2] at hp
          simp only [Option.map_some', Option.some.injEq] at hp
          simp only [Option.some_bind]
          exact ih m m2 hp
    · have hf : recognisedOnly ((key, value) :: rest) = recognisedOnly rest := by
        simp [recognisedOnly, hk]
      rw [hf]
      simp only [parseProperties, parseProperty_unrecognised s key value hk, Option.some_bind]
      exact ih _ s2 h

theorem configuration_withoutLog (s : ReSTIRDIPass) :
    configuration (withoutLog s) = configuration s := rfl

/-- C12: `parseProperties` never fails on an unrecognised key (such an entry
only adds a warning to the log), and the entries whose key is not one of the
seven recognised keys have no effect on the configuration: parsing a property
list and parsing it with those entries removed succeed or fail together and
give the same configuration, in fact the same state up to log lines. -/
theorem unrecognised_properties_ignored (s : ReSTIRDIPass) (props : Properties) :
    (∀ (key : String) (value : PropValue), key ∉ recognisedKeys →
      ∃ t, parseProperty s key value = some t ∧ configuration t = configuration s ∧
        withoutLog t = withoutLog s) ∧
    (parseProperties s props).map configuration
      = (parseProperties s (recognisedOnly props)).map configuration ∧
    (parseProperties s props).map withoutLog
      = (parseProperties s (recognisedOnly props)).map withoutLog ∧
    (parseProperties s props).isSome = (parseProperties s (recognisedOnly props)).isSome := by
  have h := parseProperties_withoutLog props s s rfl
  refine ⟨?_, ?_, h, ?_⟩
  · intro key value hk
    exact ⟨_, parseProperty_unrecognised s key value hk, rfl, rfl⟩
  · have h2 := congrArg (Option.map configuration) h
    simpa only [Option.map_map, Function.comp_def, configuration_withoutLog] using h2
  · have h2 := congrArg Option.isSome h
    simpa only [Option.isSome_map'] using h2

theorem parseProperty_inRange (s t : ReSTIRDIPass) (key : String) (value : PropValue)
    (hs : ConfigurationInRange s) (hp : propertyInRange (key, value) = true)
    (h : parseProperty s key value = some t) : ConfigurationInRange t := by
  by_cases hk : key ∈ recognisedKeys
  · cases value with
    | bool b =>
      simp only [recognisedKeys, List.mem_cons, List.not_mem_nil, or_false] at hk
      rcases hk with rfl | rfl | rfl | rfl | rfl | rfl | rfl <;>
        simp [parseProperty, PropValue.asUInt, PropValue.asBool, kMaxBounces, kCandidateCount,
          kUseImportanceSampling, kSelectRestirMode, kBiasedMode, kSpatialReuseIteration,
          kSpatialReuseNeighbors] at h
      subst h
      exact hs
    | uint v =>
      unfold ConfigurationInRange at hs ⊢
      simp only [recognisedKeys, List.mem_cons, List.not_mem_nil, or_false] at hk
      rcases hk with rfl | rfl | rfl | rfl | rfl | rfl | rfl <;>
        simp [parseProperty, PropValue.asUInt, PropValue.asBool, kMaxBounces, kCandidateCount,
          kUseImportanceSampling, kSelectRestirMode, kBiasedMode, kSpatialReuseIteration,
          kSpatialReuseNeighbors] at h <;>
        simp [propertyInRange, kMaxBounces, kCandidateCount,
          kUseImportanceSampling, kSelectRestirMode, kBiasedMode, kSpatialReuseIteration,
          kSpatialReuseNeighbors] at hp <;>
        subst h <;> dsimp only <;> omega
  · rw [parseProperty_unrecognised s key value hk] at h
    injection h with h
    subst h
    exact hs

theorem parseProperties_inRange (props : Properties) : ∀ (s t : ReSTIRDIPass),
    ConfigurationInRange s → (∀ p ∈ props, propertyInRange p = true) →
    parseProperties s props = some t → ConfigurationInRange t := by
  induction props with
  | nil =>
    intro s t hs _ h
    simp only [parseProperties, Option.some.injEq] at h
    subst h
    exact hs
  | cons p rest ih =>
    intro s t hs hp h
    obtain ⟨key, value⟩ := p
    simp only [parseProperties] at h
    cases h1 : parseProperty s key value with
    | none => simp [h1] at h
    | some m =>
      rw [h1, Option.some_bind] at h
      exact ih m t
        (parseProperty_inRange s m key value hs (hp (key, value) (List.mem_cons_self _ _)) h1)
        (fun q hq => hp q (List.mem_cons_of_mem _ hq)) h

theorem Widgets.var_range (input : Option Nat) (cur lo hi : Nat) (hlh : lo ≤ hi)
    (hc : lo ≤ cur ∧ cur ≤ hi) :
    lo ≤ (Widgets.var input cur lo hi).2 ∧ (Widgets.var input cur lo hi).2 ≤ hi := by
  cases input with
  | none => exact hc
  | some v =>
    simp only [Widgets.var]
    omega

theorem Widgets.dropdown_range (input : Option Nat) (list : List Nat) (cur hi : Nat)
    (hl : ∀ x ∈ list, x ≤ hi) (hc : cur ≤ hi) : (Widgets.dropdown input list cur).2 ≤ hi := by
  cases input with
  | none => exact hc
  | some v =>
    unfold Widgets.dropdown
    dsimp only
    split_ifs with hv
    · exact hl v (by simpa using hv)
    · exact hc

theorem renderUI_inRange (s : ReSTIRDIPass) (w : Widgets) (hs : ConfigurationInRange s) :
    ConfigurationInRange (renderUI s w) := by
  obtain ⟨a, b, c, d, e⟩ := hs
  rw [renderUI_eq]
  have ha := Widgets.var_range w.candidateCount _ 1 64 (by decide) a
  have hb := Widgets.var_range w.spatialReuseIteration _ 1 16 (by decide) b
  have hc := Widgets.var_range w.spatialReuseNeighbors _ 1 64 (by decide) c
  have hd := Widgets.dropdown_range w.restirMode kRestirModeList _ 3 (by decide) d
  have he := Widgets.dropdown_range w.biasedMode kBiasedModeList _ 2 (by decide) e
  split_ifs
  · exact ⟨ha, hb, hc, hd, he⟩
  · exact ⟨ha, hb, hc, hd, he⟩

theorem initial_inRange (pDevice : Device) : ConfigurationInRange (ReSTIRDIPass.initial pDevice) := by
  simp [ConfigurationInRange, ReSTIRDIPass.initial]

/-- C13, as the code behaves: `parseProperties` stores the given values
unchecked, so the configuration of a pass constructed from a property list lies
within the documented ranges (candidate count 1..64, spatial iteration count
1..16, spatial neighbor count 1..64, mode 0..3, bias mode 0..2) whenever every
entry of the list carries a value within the range of its key; the defaults lie
within the ranges, and `renderUI` keeps a configuration within the ranges. -/
theorem configuration_in_range_of_properties_in_range (pDevice : Device) (props : Properties)
    (t : ReSTIRDIPass) (hp : ∀ p ∈ props, propertyInRange p = true)
    (h : ReSTIRDIPass.create pDevice props = some t) :
    ConfigurationInRange t ∧
    (∀ w : Widgets, ConfigurationInRange (renderUI t w)) ∧
    ConfigurationInRange (ReSTIRDIPass.initial pDevice) := by
  have ht : ConfigurationInRange t := by
    unfold ReSTIRDIPass.create at h
    split_ifs at h
    cases h1 : parseProperties (ReSTIRDIPass.initial pDevice) props with
    | none => simp [h1] at h
    | some m =>
      simp only [h1, Option.map_some', Option.some.injEq] at h
      subst h
      exact parseProperties_inRange props _ m (initial_inRange pDevice) hp h1
  exact ⟨ht, fun w => renderUI_inRange t w ht, initial_inRange pDevice⟩

/-- Instance of the amended C13: construction with `candidateCount = 32`. -/
theorem configuration_in_range_of_properties_in_range_witness :
    ConfigurationInRange
        { ReSTIRDIPass.initial exampleDevice with
          mStaticParams := { candidateCount := 32 } } ∧
    (∀ w : Widgets, ConfigurationInRange
      (renderUI { ReSTIRDIPass.initial exampleDevice with
          mStaticParams := { candidateCount := 32 } } w)) ∧
    ConfigurationInRange (ReSTIRDIPass.initial exampleDevice) :=
  configuration_in_range_of_properties_in_range exampleDevice exampleCandidateProps _
    (by decide) (by decide)

/-- Counterexample to C13 as stated: constructing the pass with
`candidateCount = 1000` and `restirMode = 7` succeeds and stores both values,
outside 1..64 and outside 0..3. -/
theorem properties_out_of_range_counterexample :
    ∃ t : ReSTIRDIPass, ReSTIRDIPass.create exampleDevice exampleOutOfRangeProps = some t ∧
      t.mStaticParams.candidateCount = 1000 ∧ ¬ t.mStaticParams.candidateCount ≤ 64 ∧
      t.mStaticParams.restirMode = 7 ∧ ¬ t.mStaticParams.restirMode ≤ 3 ∧
      ¬ ConfigurationInRange t := by
  refine ⟨(ReSTIRDIPass.create exampleDevice exampleOutOfRangeProps).getD
    (ReSTIRDIPass.initial exampleDevice), by decide, by decide, by decide, by decide, by decide,
    ?_⟩
  intro h
  exact absurd h.1.2 (by decide)

/-! ## The merge law of reservoirs -/

/-- C14: for all reservoirs `r1`, `r2` with non-negative weights, every target
density and every value `u` of the random choice, the merged reservoir has
`M = r1.M + r2.M` and `wSum = r1.wSum + r2.wSum`; its sample is that of `r1` or
that of `r2`, and its weight sum is again non-negative. -/
theorem merge_sums_counts_and_weights (p : Nat → ℚ) (u : ℚ) (r1 r2 : Reservoir)
    (h1 : 0 ≤ r1.wSum) (h2 : 0 ≤ r2.wSum) :
    (merge p u r1 r2).M = r1.M + r2.M ∧
    (merge p u r1 r2).wSum = r1.wSum + r2.wSum ∧
    ((merge p u r1 r2).sample = r1.sample ∨ (merge p u r1 r2).sample = r2.sample) ∧
    0 ≤ (merge p u r1 r2).wSum := by
  refine ⟨rfl, rfl, ?_, add_nonneg h1 h2⟩
  by_cases h : u * (r1.wSum + r2.wSum) < r1.wSum
  · exact Or.inl (by simp [merge, h])
  · exact Or.inr (by simp [merge, h])

theorem merge_sums_counts_and_weights_witness :
    (merge (fun _ => 1) (1 / 2) exampleReservoir1 exampleReservoir2).M
      = exampleReservoir1.M + exampleReservoir2.M ∧
    (merge (fun _ => 1) (1 / 2) exampleReservoir1 exampleReservoir2).wSum
      = exampleReservoir1.wSum + exampleReservoir2.wSum ∧
    ((merge (fun _ => 1) (1 / 2) exampleReservoir1 exampleReservoir2).sample
        = exampleReservoir1.sample ∨
      (merge (fun _ => 1) (1 / 2) exampleReservoir1 exampleReservoir2).sample
        = exampleReservoir2.sample) ∧
    0 ≤ (merge (fun _ => 1) (1 / 2) exampleReservoir1 exampleReservoir2).wSum :=
  merge_sums_counts_and_weights (fun _ => 1) (1 / 2) exampleReservoir1 exampleReservoir2
    (by norm_num [exampleReservoir1]) (by norm_num [exampleReservoir2])

/-! ## Respecialisation of the kernels -/

/-- C15: in every state with a scene set, if the recompile flag is set
`updatePrograms` returns the state in which all five kernels exist, each with the
defines `StaticParams::getDefines` yields for the current state and with fresh,
empty program vars, the recompile flag is clear and the vars-changed flag is set,
nothing else being changed; a kernel that existed keeps its shader file and a
missing one is created from its file.  If the recompile flag is clear,
`updatePrograms` returns the state unchanged. -/
theorem updatePrograms_respecialises (s : ReSTIRDIPass) (hs : s.mpScene.isSome = true) :
    (s.mRecompile = true →
      ∃ l sp tm d r : ComputePass,
        updatePrograms s =
          some { s with mpLoadSurfaceDataPass := some l, mpSpatialResamplingPass := some sp,
                        mpTemporalResamplingPass := some tm,
                        mpComputeDirectLightingPass := some d, mpReflectTypesPass := some r,
                        mVarsChanged := true, mRecompile := false } ∧
        (∀ p ∈ [l, sp, tm, d, r],
          p.defines = s.mStaticParams.getDefines s ∧ p.vars = some []) ∧
        l.file = (createIfNull s.mpLoadSurfaceDataPass kLoadSurfaceDataPassFile []).file ∧
        sp.file = (createIfNull s.mpSpatialResamplingPass kSpatialReuseFile []).file ∧
        tm.file = (createIfNull s.mpTemporalResamplingPass kTemporalReuseFile []).file ∧
        d.file =
          (createIfNull s.mpComputeDirectLightingPass kComputeDirectLightingFile []).file ∧
        r.file = (createIfNull s.mpReflectTypesPass kReflectTypesFile []).file) ∧
    (s.mRecompile = false → updatePrograms s = some s) := by
  obtain ⟨sc, hsc⟩ := Option.isSome_iff_exists.1 hs
  constructor
  · intro hr
    simp only [updatePrograms, hsc, hr]
    refine ⟨_, _, _, _, _, rfl, ?_, ?_, ?_, ?_, ?_, ?_⟩
    · intro p hp
      simp only [List.mem_cons, List.not_mem_nil, or_false] at hp
      rcases hp with rfl | rfl | rfl | rfl | rfl <;> exact ⟨rfl, rfl⟩
    all_goals
      simp only [ComputePass.preparePass, createIfNull, ComputePass.create]
      split <;> rfl
  · intro hr
    simp [updatePrograms, hsc, hr]

theorem updatePrograms_respecialises_witness :
    exampleStart.mpScene.isSome = true ∧ exampleStart.mRecompile = true ∧
    (∃ l sp tm d r : ComputePass,
      updatePrograms exampleStart =
        some { exampleStart with
                 mpLoadSurfaceDataPass := some l, mpSpatialResamplingPass := some sp,
                 mpTemporalResamplingPass := some tm,
                 mpComputeDirectLightingPass := some d, mpReflectTypesPass := some r,
                 mVarsChanged := true, mRecompile := false } ∧
      (∀ p ∈ [l, sp, tm, d, r],
        p.defines = exampleStart.mStaticParams.getDefines exampleStart ∧ p.vars = some []) ∧
      l.file =
        (createIfNull exampleStart.mpLoadSurfaceDataPass kLoadSurfaceDataPassFile []).file ∧
      sp.file = (createIfNull exampleStart.mpSpatialResamplingPass kSpatialReuseFile []).file ∧
      tm.file =
        (createIfNull exampleStart.mpTemporalResamplingPass kTemporalReuseFile []).file ∧
      d.file =
        (createIfNull exampleStart.mpComputeDirectLightingPass
          kComputeDirectLightingFile []).file ∧
      r.file = (createIfNull exampleStart.mpReflectTypesPass kReflectTypesFile []).file) :=
  ⟨by decide, by decide, (updatePrograms_respecialises exampleStart (by decide)).1 (by decide)⟩

/-! ## The frame counter -/

theorem frameExecuted_of_beginFrame (s s1 : ReSTIRDIPass) (rd : RenderData)
    (h : beginFrame s rd = some (true, s1)) : FrameExecuted s rd := by
  cases hc : rd.getTexture kOutputColor with
  | none => simp [beginFrame, hc] at h
  | some c =>
    rcases frameExecuted_or_not s rd c hc with hx | hn
    · exact hx
    · obtain ⟨en, log, dict, hb, -, -⟩ := beginFrame_not_executed s rd c hc hn
      rw [hb] at h
      simp at h

theorem beginFrame_of_frameExecuted (s : ReSTIRDIPass) (rd : RenderData)
    (hx : FrameExecuted s rd) : ∃ s1, beginFrame s rd = some (true, s1) := by
  obtain ⟨hs, he, c, hc, hm⟩ := hx
  obtain ⟨sc, hsc⟩ := Option.isSome_iff_exists.1 hs
  obtain ⟨rc, lbvh, env, emis, dict, oc, hb, -⟩ := beginFrame_executed s rd sc c hsc he hc hm
  exact ⟨_, hb⟩

theorem passesBeginFrame_iff (s : ReSTIRDIPass) (rd : RenderData) :
    passesBeginFrame s rd = true ↔ FrameExecuted s rd := by
  constructor
  · intro h
    unfold passesBeginFrame at h
    split at h
    · next s1 hb => exact frameExecuted_of_beginFrame s s1 rd hb
    · exact absurd h (by simp)
  · intro hx
    obtain ⟨s1, hb⟩ := beginFrame_of_frameExecuted s rd hx
    simp [passesBeginFrame, hb]

theorem execute_frameCount_executed (s t : ReSTIRDIPass) (rd : RenderData)
    (hr : Reachable s) (hx : FrameExecuted s rd) (h : execute s rd = some t) :
    t.mFrameCount = (s.mFrameCount + 1) % 2 ^ 32 := by
  obtain ⟨t2, a, dL, tl, sl, dD, hf⟩ :=
    execute_executed s rd hx (fun h0 => (reachable_invariant s hr).kernels hx.1 h0)
  have ht : t = t2 := Option.some.inj (h.symm.trans hf.result)
  subst ht
  have h1 := hf.after
  have h2 := hf.frameCount_before
  rw [h1]
  simp [h2]

theorem execute_frameCount_not_executed (s t : ReSTIRDIPass) (rd : RenderData)
    (hx : ¬ FrameExecuted s rd) (h : execute s rd = some t) :
    t.mFrameCount = s.mFrameCount := by
  cases hc : rd.getTexture kOutputColor with
  | none => rw [execute_eq_none_of_no_color s rd hc] at h; exact absurd h (by simp)
  | some c =>
    rcases frameExecuted_or_not s rd c hc with hx2 | hn
    · exact absurd hx2 hx
    · obtain ⟨en, log, dict, he, -, -⟩ := execute_not_executed s rd c hc hn
      rw [he] at h
      have ht := Option.some.inj h
      rw [← ht]

theorem apply_frameCount (s t : ReSTIRDIPass) (op : Op) (hr : Reachable s)
    (hns : op.isSetScene = false) (h : op.apply s = some t) :
    t.mFrameCount = if op.isExecutedFrame s then (s.mFrameCount + 1) % 2 ^ 32
      else s.mFrameCount := by
  cases op with
  | setScene p => simp [Op.isSetScene] at hns
  | renderUI w =>
    obtain ⟨mb, sp, uis, rc, oc, hw, -⟩ := renderUI_form s w
    simp only [Op.apply, Option.some.injEq] at h
    rw [← h, hw]
    simp [Op.isExecutedFrame]
  | hostUpdate sc dict =>
    simp only [Op.apply, Option.some.injEq] at h
    rw [← h]
    simp [Op.isExecutedFrame]
  | execute rd =>
    simp only [Op.apply] at h
    by_cases hx : FrameExecuted s rd
    · simp only [Op.isExecutedFrame, (passesBeginFrame_iff s rd).2 hx, if_true]
      exact execute_frameCount_executed s t rd hr hx h
    · have hp : passesBeginFrame s rd = false := by
        cases hb : passesBeginFrame s rd with
        | false => rfl
        | true => exact absurd ((passesBeginFrame_iff s rd).1 hb) hx
      simp only [Op.isExecutedFrame, hp]
      exact execute_frameCount_not_executed s t rd hx h

theorem runOps_frameCount (ops : List Op) :
    ∀ (s t : ReSTIRDIPass), Reachable s → s.mFrameCount < 2 ^ 32 →
      (∀ op ∈ ops, op.isSetScene = false) → runOps s ops = some t →
      t.mFrameCount = (s.mFrameCount + executedFrames s ops) % 2 ^ 32 := by
  induction ops with
  | nil =>
    intro s t _ hlt _ h
    simp only [runOps, Option.some.injEq] at h
    subst h
    simp only [executedFrames, Nat.add_zero]
    exact (Nat.mod_eq_of_lt hlt).symm
  | cons op rest ih =>
    intro s t hr hlt hns h
    cases ha : op.apply s with
    | none => simp [runOps, ha] at h
    | some m =>
      simp only [runOps, ha, Option.some_bind] at h
      have hm := apply_frameCount s m op hr (hns op (List.mem_cons_self _ _)) ha
      have hmlt : m.mFrameCount < 2 ^ 32 := by
        rw [hm]
        split
        · exact Nat.mod_lt _ (by norm_num)
        · exact hlt
      have hrest := ih m t (hr.apply op ha) hmlt
        (fun o ho => hns o (List.mem_cons_of_mem _ ho)) h
      rw [hrest, hm]
      simp only [executedFrames, ha]
      split <;> omega

theorem executedFrame_frameCounts {s t a : ReSTIRDIPass} {rd : RenderData} {dL dD : Dispatch}
    {tl sl : List Dispatch} (hf : ExecutedFrame s rd t a dL tl sl dD) :
    ∀ d ∈ dL :: (tl ++ sl ++ [dD]), d.frameCount = some s.mFrameCount := by
  have hc := hf.frameCount_before
  intro d hd
  rw [← hc]
  simp only [List.mem_cons, List.mem_append, List.not_mem_nil, or_false] at hd
  rcases hd with rfl | (hd | hd) | rfl
  · exact hf.dispatches.load.2.2.2
  · exact (hf.temporal_mem d hd).2.2.2.2.2
  · exact spatialRun_frameCount _ _ sl _ _ hf.dispatches.spatial d hd
  · exact hf.dispatches.direct.2.2

theorem executedFrames_append (ops : List Op) (op : Op) :
    ∀ (s t t2 : ReSTIRDIPass), runOps s ops = some t → op.apply t = some t2 →
      executedFrames s (ops ++ [op])
        = executedFrames s ops + (if op.isExecutedFrame t then 1 else 0) := by
  induction ops with
  | nil =>
    intro s t t2 h h2
    simp only [runOps, Option.some.injEq] at h
    subst h
    simp [executedFrames, h2]
  | cons o rest ih =>
    intro s t t2 h h2
    cases ha : o.apply s with
    | none => simp [runOps, ha] at h
    | some m =>
      simp only [runOps, ha, Option.some_bind] at h
      have hi := ih m t t2 h h2
      rw [List.cons_append]
      simp only [executedFrames, ha]
      rw [hi]
      omega

/-- C16: the frame counter is 0 after `setScene`.  For host calls `ops` without
`setScene` made after it, the frame counter equals the number of executed frames
among them modulo 2^32 (calls that are not executed frames leave it unchanged).
A frame executed next returns, issues its dispatches (generator, temporal, spatial
iterations, resolver) all with `gFrameCount` equal to the counter at the start of
the frame, which is (n - 1) mod 2^32 for this n-th executed frame, and ends with
the counter increased by one modulo 2^32; `endFrame` makes that increment together
with the exchange of the buffer handles. -/
theorem frame_counter_counts_executed_frames (s0 : ReSTIRDIPass) (pScene : Option Scene)
    (ops : List Op) (t : ReSTIRDIPass) (h0 : Reachable s0)
    (hops : ∀ op ∈ ops, op.isSetScene = false)
    (ht : runOps (setScene s0 pScene) ops = some t) :
    (setScene s0 pScene).mFrameCount = 0 ∧
    t.mFrameCount = executedFrames (setScene s0 pScene) ops % 2 ^ 32 ∧
    (∀ rd : RenderData, passesBeginFrame t rd = true →
      ∃ (t2 : ReSTIRDIPass) (dL : Dispatch) (tl sl : List Dispatch) (dD : Dispatch),
        execute t rd = some t2 ∧
        t2.ctx = t.ctx ++ (dL :: (tl ++ sl ++ [dD])).map Command.dispatch ∧
        dL.kernel = Kernel.LoadSurfaceData ∧ (∀ d ∈ tl, d.kernel = Kernel.TemporalReuse) ∧
        (∀ d ∈ sl, d.kernel = Kernel.SpatialReuse) ∧ dD.kernel = Kernel.DirectLighting ∧
        (∀ d ∈ dL :: (tl ++ sl ++ [dD]), d.frameCount = some t.mFrameCount) ∧
        executedFrames (setScene s0 pScene) (ops ++ [Op.execute rd])
          = executedFrames (setScene s0 pScene) ops + 1 ∧
        (∀ d ∈ dL :: (tl ++ sl ++ [dD]),
          d.frameCount = some
            ((executedFrames (setScene s0 pScene) (ops ++ [Op.execute rd]) - 1) % 2 ^ 32)) ∧
        t2.mFrameCount = (t.mFrameCount + 1) % 2 ^ 32) ∧
    (∀ b : ReSTIRDIPass,
      (endFrame b).mFrameCount = (b.mFrameCount + 1) % 2 ^ 32 ∧
      (endFrame b).mpReservoirs = b.mpPrevReservoirs ∧
      (endFrame b).mpPrevReservoirs = b.mpReservoirs ∧
      (endFrame b).mpSurfaceData = b.mpPrevSurfaceData ∧
      (endFrame b).mpPrevSurfaceData = b.mpSurfaceData) := by
  have hz : (setScene s0 pScene).mFrameCount = 0 := by
    obtain ⟨log, hl⟩ := setScene_form s0 pScene
    rw [hl]
  have hr1 : Reachable (setScene s0 pScene) := h0.apply (Op.setScene pScene) rfl
  have hcount := runOps_frameCount ops _ t hr1 (by rw [hz]; norm_num) hops ht
  rw [hz, Nat.zero_add] at hcount
  refine ⟨hz, hcount, ?_, fun b => ⟨rfl, rfl, rfl, rfl, rfl⟩⟩
  intro rd hp
  have hx := (passesBeginFrame_iff t rd).1 hp
  have hrt : Reachable t := hr1.runOps ops ht
  obtain ⟨t2, a, dL, tl, sl, dD, hf⟩ :=
    execute_executed t rd hx (fun h => (reachable_invariant t hrt).kernels hx.1 h)
  have happ := executedFrames_append ops (Op.execute rd) _ t t2 ht hf.result
  simp only [Op.isExecutedFrame, hp, if_true] at happ
  have hfc := executedFrame_frameCounts hf
  refine ⟨t2, dL, tl, sl, dD, hf.result, hf.ctx_after, hf.dispatches.load.1, ?_, ?_,
    hf.dispatches.direct.1, hfc, happ, ?_, execute_frameCount_executed t t2 rd hrt hx hf.result⟩
  · intro d hd
    exact (hf.temporal_mem d hd).1
  · exact spatialRun_kernel _ _ sl _ _ hf.dispatches.spatial
  · intro d hd
    rw [happ, Nat.add_sub_cancel, ← hcount]
    exact hfc d hd

theorem frame_counter_counts_executed_frames_witness :
    Reachable exampleConstructed ∧
    runOps (setScene exampleConstructed (some exampleScene)) [Op.execute exampleRenderData]
      = some exampleAfterFrame ∧
    (setScene exampleConstructed (some exampleScene)).mFrameCount = 0 ∧
    exampleAfterFrame.mFrameCount = 1 ∧
    (∃ (t2 : ReSTIRDIPass) (dL : Dispatch) (tl sl : List Dispatch) (dD : Dispatch),
      execute exampleAfterFrame exampleRenderData = some t2 ∧
      (∀ d ∈ dL :: (tl ++ sl ++ [dD]), d.frameCount = some 1) ∧
      t2.mFrameCount = 2) := by
  have hr : Reachable exampleConstructed := ⟨exampleDevice, [], [], rfl⟩
  have hrun : runOps (setScene exampleConstructed (some exampleScene))
      [Op.execute exampleRenderData] = some exampleAfterFrame := by
    have h := exampleAfterFrame_eq
    simp only [runOps, Op.apply]
    exact (congrArg (fun o => Option.bind o (fun t => some t)) h).trans rfl
  have hw := frame_counter_counts_executed_frames exampleConstructed (some exampleScene)
    [Op.execute exampleRenderData] exampleAfterFrame hr (by decide) hrun
  obtain ⟨t2, dL, tl, sl, dD, he, -, -, -, -, -, hfc, -, -, hc2⟩ :=
    hw.2.2.1 exampleRenderData
      ((passesBeginFrame_iff _ _).2 exampleAfterFrame_frameExecuted)
  have h1 : exampleAfterFrame.mFrameCount = 1 := by decide
  refine ⟨hr, hrun, hw.1, h1, t2, dL, tl, sl, dD, he, ?_, ?_⟩
  · intro d hd
    rw [hfc d hd, h1]
  · rw [hc2, h1]
    rfl

/-! ## Frames that are not executed -/

theorem beginFrameValidated_disabled_eq (t : ReSTIRDIPass) (mm : Bool) (c : Texture)
    (h : t.mpScene = none ∨ t.mEnabled = false ∨ mm = true) :
    beginFrameValidated t mm c =
      (false,
       { t with
         mEnabled := t.mEnabled && !mm
         log := if t.mEnabled && mm then
             t.log ++ [LogMsg.error "PathTracer I/O sizes do not match. The pass will be disabled."]
           else t.log
         dict := if t.mOptionsChanged then
             some { t.dict.getD RenderPassRefreshFlags.None with renderOptionsChanged := true }
           else t.dict
         ctx := t.ctx ++ [Command.clearUAV c (0, 0, 0, 0)] }) := by
  cases he : t.mEnabled <;> cases hmm : mm <;> cases hsc : t.mpScene <;>
    simp only [he, hmm, hsc] at h <;>
    (cases t; simp_all [beginFrameValidated, beginFrameDisabled_eq])

theorem execute_not_executed_eq (s : ReSTIRDIPass) (rd : RenderData) (c : Texture)
    (hc : rd.getTexture kOutputColor = some c)
    (h : s.mpScene = none ∨ s.mEnabled = false ∨ SizeMismatch rd c) :
    ∃ mm : Bool, (mm = true ↔ SizeMismatch rd c) ∧
      execute s rd = some
        { s with
          mFrameDim := { x := c.width, y := c.height }
          mEnabled := s.mEnabled && !mm
          log := if s.mEnabled && mm then
              s.log ++ [LogMsg.error "PathTracer I/O sizes do not match. The pass will be disabled."]
            else s.log
          dict := if s.mOptionsChanged then
              some { s.dict.getD RenderPassRefreshFlags.None with renderOptionsChanged := true }
            else s.dict
          ctx := s.ctx ++ [Command.clearUAV c (0, 0, 0, 0)] } := by
  have hv := validate_true_iff { s with mFrameDim := { x := c.width, y := c.height } } rd c rfl
  refine ⟨_, hv, ?_⟩
  have hform := beginFrameValidated_disabled_eq
    { s with mFrameDim := { x := c.width, y := c.height } }
    (validateChannels { s with mFrameDim := { x := c.width, y := c.height } } rd
      (validateChannels { s with mFrameDim := { x := c.width, y := c.height } } rd false
        kInputChannels) kOutputChannels) c
    (by
      rcases h with h | h | h
      · exact Or.inl h
      · exact Or.inr (Or.inl h)
      · exact Or.inr (Or.inr (hv.2 h)))
  unfold execute beginFrame
  simp only [hc, setFrameDim_eq]
  rw [hform]

/-- C17, amended: in every state in which no scene is set, the pass is disabled or
the frame has an I/O size mismatch, `execute` (with the output colour connected)
returns a state that differs from the one it started in only in the stored frame
dimension, the enabled flag, the command list, the render-graph dictionary and the
log; so the frame counter, the four frame-buffer handles, the static parameters
and the recompile, vars-changed and options-changed flags are unchanged.  The
pass stays enabled only if it was enabled and the sizes match.  The one command
issued is the clear of the output colour; the dictionary receives the refresh flag
`RenderOptionsChanged` exactly when the options-changed flag is set, and an error
is logged exactly when an enabled pass meets a size mismatch. -/
theorem skipped_frame_effects (s : ReSTIRDIPass) (rd : RenderData) (c : Texture)
    (hc : rd.getTexture kOutputColor = some c)
    (h : s.mpScene = none ∨ s.mEnabled = false ∨ SizeMismatch rd c) :
    ∃ t : ReSTIRDIPass, execute s rd = some t ∧
      t = { s with mFrameDim := { x := c.width, y := c.height }, mEnabled := t.mEnabled,
                   ctx := t.ctx, dict := t.dict, log := t.log } ∧
      t.mFrameCount = s.mFrameCount ∧
      t.mpReservoirs = s.mpReservoirs ∧ t.mpPrevReservoirs = s.mpPrevReservoirs ∧
      t.mpSurfaceData = s.mpSurfaceData ∧ t.mpPrevSurfaceData = s.mpPrevSurfaceData ∧
      t.mStaticParams = s.mStaticParams ∧ t.mRecompile = s.mRecompile ∧
      t.mVarsChanged = s.mVarsChanged ∧ t.mOptionsChanged = s.mOptionsChanged ∧
      (t.mEnabled = true ↔ s.mEnabled = true ∧ ¬ SizeMismatch rd c) ∧
      t.ctx = s.ctx ++ [Command.clearUAV c (0, 0, 0, 0)] ∧
      t.dict = (if s.mOptionsChanged then
          some { s.dict.getD RenderPassRefreshFlags.None with renderOptionsChanged := true }
        else s.dict) ∧
      (s.mEnabled = true ∧ SizeMismatch rd c →
        t.log = s.log ++
          [LogMsg.error "PathTracer I/O sizes do not match. The pass will be disabled."]) ∧
      (¬ (s.mEnabled = true ∧ SizeMismatch rd c) → t.log = s.log) := by
  obtain ⟨mm, hmm, he⟩ := execute_not_executed_eq s rd c hc h
  refine ⟨_, he, rfl, rfl, rfl, rfl, rfl, rfl, rfl, rfl, rfl, rfl, ?_, rfl, rfl, ?_, ?_⟩
  · rw [← hmm]
    cases s.mEnabled <;> cases mm <;> simp
  · rintro ⟨h1, h2⟩
    have h3 := hmm.2 h2
    simp [h1, h3]
  · intro hn
    rw [← hmm] at hn
    have h4 : (s.mEnabled && mm) = false := by
      cases h5 : s.mEnabled <;> cases h6 : mm <;> simp_all
    simp [h4]

theorem skipped_frame_effects_witness :
    exampleStart.mEnabled = true ∧ SizeMismatch exampleMismatchedRenderData exampleColor ∧
    (∃ t : ReSTIRDIPass, execute exampleStart exampleMismatchedRenderData = some t ∧
      t.mFrameCount = exampleStart.mFrameCount ∧
      t.mpReservoirs = exampleStart.mpReservoirs ∧
      t.mStaticParams = exampleStart.mStaticParams ∧
      t.mEnabled = false ∧
      t.ctx = exampleStart.ctx ++ [Command.clearUAV exampleColor (0, 0, 0, 0)] ∧
      t.dict = exampleStart.dict ∧
      t.log = exampleStart.log ++
        [LogMsg.error "PathTracer I/O sizes do not match. The pass will be disabled."]) := by
  have hm : SizeMismatch exampleMismatchedRenderData exampleColor :=
    ⟨"vbuffer", by decide, { id := 1, width := 8, height := 8 }, rfl, Or.inl (by decide)⟩
  obtain ⟨t, he, -, h1, h2, -, -, -, h3, -, -, -, h4, h5, h6, h7, -⟩ :=
    skipped_frame_effects exampleStart exampleMismatchedRenderData exampleColor rfl
      (Or.inr (Or.inr hm))
  refine ⟨by decide, hm, t, he, h1, h2, h3, ?_, h5, ?_, h7 ⟨by decide, hm⟩⟩
  · cases hen : t.mEnabled with
    | false => rfl
    | true => exact absurd hm (h4.1 hen).2
  · rw [h6]
    decide

/-- C17, counterexample to the claim as stated: the constructed pass with no
scene set, after a UI pass that changed an option, is handed a frame; `execute`
clears the output colour and also writes the refresh flag `RenderOptionsChanged`
into the render-graph dictionary, which held no flags before. -/
theorem skipped_frame_writes_dictionary_counterexample :
    Reachable exampleNoSceneUI ∧ exampleNoSceneUI.mpScene = none ∧
    exampleNoSceneUI.dict = none ∧
    (∃ t : ReSTIRDIPass, execute exampleNoSceneUI exampleRenderData = some t ∧
      t.ctx = exampleNoSceneUI.ctx ++ [Command.clearUAV exampleColor (0, 0, 0, 0)] ∧
      t.dict = some { lightingChanged := false, renderOptionsChanged := true } ∧
      t.dict ≠ exampleNoSceneUI.dict) := by
  refine ⟨⟨exampleDevice, [], [Op.renderUI exampleNoResamplingWidgets], rfl⟩, by decide,
    by decide, ?_⟩
  have h : (execute exampleNoSceneUI exampleRenderData).isSome = true := by decide
  obtain ⟨t, ht⟩ := Option.isSome_iff_exists.1 h
  have h2 : ((execute exampleNoSceneUI exampleRenderData).map (fun x => x.ctx))
      = some (exampleNoSceneUI.ctx ++ [Command.clearUAV exampleColor (0, 0, 0, 0)]) := by decide
  have h3 : ((execute exampleNoSceneUI exampleRenderData).map (fun x => x.dict))
      = some (some { lightingChanged := false, renderOptionsChanged := true }) := by decide
  rw [ht] at h2 h3
  simp only [Option.map_some', Option.some.injEq] at h2 h3
  refine ⟨t, ht, h2, h3, ?_⟩
  rw [h3]
  decide

/-! ## Kernel handles past `beginFrame` -/

theorem executeFrame_handles (s : ReSTIRDIPass) (rd : RenderData) (hs : s.mpScene.isSome = true)
    (hk : s.mRecompile = false → KernelsReady s) :
    ∃ u a b c d : ReSTIRDIPass,
      updatePrograms s = some u ∧ KernelsReady u ∧ prepareResources u = some a ∧
      loadSurfaceDataPass a rd = some b ∧ restirModeSwitch b rd = some c ∧
      computeDirectLightingPass c rd = some d ∧ executeFrame s rd = some (endFrame d) ∧
      passReady a.mpLoadSurfaceDataPass = true ∧
      passReady b.mpSpatialResamplingPass = true ∧
      passReady b.mpTemporalResamplingPass = true ∧
      passReady c.mpComputeDirectLightingPass = true ∧
      (endFrame d).log = s.log := by
  obtain ⟨l, sp, t, d, r, vc, hu, hl, hsp, ht, hd, hr⟩ := updatePrograms_spec s hs hk
  obtain ⟨a, ha⟩ : ∃ a, prepareResources { s with
      mpLoadSurfaceDataPass := some l, mpSpatialResamplingPass := some sp,
      mpTemporalResamplingPass := some t, mpComputeDirectLightingPass := some d,
      mpReflectTypesPass := some r, mVarsChanged := vc, mRecompile := false } = some a :=
    ⟨_, prepareResources_eq _ hr _ rfl _ _ _ _ rfl rfl rfl rfl⟩
  have hform := prepareResources_form _ a ha
  have e1 : a.mpLoadSurfaceDataPass = some l := by rw [hform]
  have e2 : a.mpSpatialResamplingPass = some sp := by rw [hform]
  have e3 : a.mpTemporalResamplingPass = some t := by rw [hform]
  have e4 : a.mpComputeDirectLightingPass = some d := by rw [hform]
  have e6 : a.mpScene = s.mpScene := by rw [hform]
  have e7 : a.log = s.log := by rw [hform]
  have hsa : a.mpScene.isSome = true := by rw [e6]; exact hs
  have hla : passReady a.mpLoadSurfaceDataPass = true := by rw [e1]; exact hl
  obtain ⟨pl, dL, hload, -, -⟩ := loadSurfaceDataPass_spec a rd hla hsa
  have hspb : passReady a.mpSpatialResamplingPass = true := by rw [e2]; exact hsp
  have htb : passReady a.mpTemporalResamplingPass = true := by rw [e3]; exact ht
  obtain ⟨psp, ptm, tl, sl, hsw, -, -, -, -, -⟩ := restirModeSwitch_spec
    { a with mpLoadSurfaceDataPass := some pl, ctx := a.ctx ++ [Command.dispatch dL] } rd
    hspb htb hsa
  have hdc : passReady a.mpComputeDirectLightingPass = true := by rw [e4]; exact hd
  obtain ⟨pd, dD, hdir, -, -⟩ := computeDirectLightingPass_spec
    { a with
      mpLoadSurfaceDataPass := some pl, mpSpatialResamplingPass := some psp,
      mpTemporalResamplingPass := some ptm,
      mpReservoirs := (swapIter sl.length (a.mpReservoirs, a.mpPrevReservoirs)).1,
      mpPrevReservoirs := (swapIter sl.length (a.mpReservoirs, a.mpPrevReservoirs)).2,
      ctx := a.ctx ++ [Command.dispatch dL] ++ (tl ++ sl).map Command.dispatch } rd
    hdc hsa
  refine ⟨_, a, _, _, _, hu, ⟨hl, hsp, ht, hd, hr⟩, ha, hload, hsw, hdir, ?_, hla, hspb, htb,
    hdc, e7⟩
  unfold executeFrame
  rw [hu, Option.some_bind, ha, Option.some_bind, hload, Option.some_bind, hsw,
    Option.some_bind]
  exact (congrArg (fun o => Option.bind o fun s => some (endFrame s)) hdir).trans rfl

/-- C18: in every reachable state, a scene set and the recompile flag clear imply
that all five kernels exist (with program vars).  Whenever `execute` gets past
`beginFrame`, the scene is non-null, `updatePrograms` returns a state in which all
five kernels exist, `prepareResources` (which dereferences `mpReflectTypesPass`)
is defined on it, every pass function is entered with its kernel handle non-null,
so that `execute` returns and no message is added to the log after `beginFrame`. -/
theorem kernels_exist_past_beginFrame (s s1 : ReSTIRDIPass) (rd : RenderData)
    (hr : Reachable s) (hb : beginFrame s rd = some (true, s1)) :
    (s.mpScene.isSome = true → s.mRecompile = false → KernelsReady s) ∧
    s1.mpScene.isSome = true ∧
    ∃ u a b c d : ReSTIRDIPass,
      updatePrograms s1 = some u ∧ KernelsReady u ∧
      u.mpLoadSurfaceDataPass.isSome = true ∧ u.mpSpatialResamplingPass.isSome = true ∧
      u.mpTemporalResamplingPass.isSome = true ∧
      u.mpComputeDirectLightingPass.isSome = true ∧ u.mpReflectTypesPass.isSome = true ∧
      prepareResources u = some a ∧
      loadSurfaceDataPass a rd = some b ∧ a.mpLoadSurfaceDataPass.isSome = true ∧
      restirModeSwitch b rd = some c ∧ b.mpSpatialResamplingPass.isSome = true ∧
      b.mpTemporalResamplingPass.isSome = true ∧
      computeDirectLightingPass c rd = some d ∧ c.mpComputeDirectLightingPass.isSome = true ∧
      execute s rd = some (endFrame d) ∧ (endFrame d).log = s1.log := by
  have hi := reachable_invariant s hr
  have hx := frameExecuted_of_beginFrame s s1 rd hb
  obtain ⟨hs, he, c, hc, hm⟩ := hx
  obtain ⟨sc, hsc⟩ := Option.isSome_iff_exists.1 hs
  obtain ⟨rc, lb, env, emis, dict, oc, hb2, hrc⟩ := beginFrame_executed s rd sc c hsc he hc hm
  have h1 := hb.symm.trans hb2
  simp only [Option.some.injEq, Prod.mk.injEq, true_and] at h1
  have hs1 : s1.mpScene.isSome = true := by rw [h1]; exact hs
  have hk1 : s1.mRecompile = false → KernelsReady s1 := by
    rw [h1]
    exact fun h0 => hi.kernels hs (hrc h0)
  obtain ⟨u, a, b, c2, d, hu, hku, ha, hl, hsw, hd, hex, p1, p2, p3, p4, hlog⟩ :=
    executeFrame_handles s1 rd hs1 hk1
  have isSome_of_ready : ∀ p : Option ComputePass, passReady p = true → p.isSome = true := by
    intro p hp
    obtain ⟨q, v, hq, -⟩ := (passReady_iff p).1 hp
    rw [hq]
    rfl
  refine ⟨hi.kernels, hs1, u, a, b, c2, d, hu, hku, isSome_of_ready _ hku.1,
    isSome_of_ready _ hku.2.1, isSome_of_ready _ hku.2.2.1, isSome_of_ready _ hku.2.2.2.1,
    isSome_of_ready _ hku.2.2.2.2, ha, hl, isSome_of_ready _ p1, hsw, isSome_of_ready _ p2,
    isSome_of_ready _ p3, hd, isSome_of_ready _ p4, ?_, hlog⟩
  unfold execute
  rw [hb]
  exact hex

theorem kernels_exist_past_beginFrame_witness :
    Reachable exampleStart ∧
    (∃ s1 : ReSTIRDIPass, beginFrame exampleStart exampleRenderData = some (true, s1) ∧
      s1.mpScene.isSome = true ∧
      ∃ u a t : ReSTIRDIPass,
        updatePrograms s1 = some u ∧ KernelsReady u ∧ prepareResources u = some a ∧
        execute exampleStart exampleRenderData = some t ∧ t.log = s1.log) := by
  obtain ⟨s1, hb⟩ := beginFrame_of_frameExecuted exampleStart exampleRenderData
    exampleStart_frameExecuted
  obtain ⟨-, hs1, u, a, b, c, d, hu, hku, -, -, -, -, -, ha, -, -, -, -, -, -, -, hex, hlog⟩ :=
    kernels_exist_past_beginFrame exampleStart s1 exampleRenderData exampleStart_reachable hb
  exact ⟨exampleStart_reachable, s1, hb, hs1, u, a, _, hu, hku, ha, hex, hlog⟩

/-! ## Round trip through the property dictionary -/

theorem parseProperties_getProperties (c s : ReSTIRDIPass) :
    parseProperties s (getProperties c) = some
      { s with
        mMaxBounces := c.mMaxBounces % 2 ^ 32
        mUseImportanceSampling := c.mUseImportanceSampling
        mStaticParams :=
          { s.mStaticParams with
            candidateCount := c.mStaticParams.candidateCount % 2 ^ 32
            spatialReuseIteration := c.mStaticParams.spatialReuseIteration % 2 ^ 32
            spatialReuseNeighbors := c.mStaticParams.spatialReuseNeighbors % 2 ^ 32
            biasedMode := c.mStaticParams.biasedMode % 2 ^ 32 } } := by
  simp [getProperties, parseProperties, parseProperty, PropValue.asUInt, PropValue.asBool,
    kMaxBounces, kCandidateCount, kUseImportanceSampling, kSelectRestirMode, kBiasedMode,
    kSpatialReuseIteration, kSpatialReuseNeighbors]

/-- C19, at a failing input: the example pass with `No Resampling` selected has
`restirMode = 0`; `getProperties` writes no `restirMode` entry, so
`parseProperties` on a default-configured pass leaves the default 3 and the
configuration is not reproduced.  For every configuration the other six values
are reproduced (as 32-bit values) and `restirMode` of the result is the default 3. -/
theorem getProperties_omits_restirMode :
    Reachable exampleNoResampling ∧
    exampleNoResampling.mStaticParams.restirMode = 0 ∧
    (∀ p ∈ getProperties exampleNoResampling, p.1 ≠ kSelectRestirMode) ∧
    (∃ t : ReSTIRDIPass,
      parseProperties (ReSTIRDIPass.initial exampleDevice) (getProperties exampleNoResampling)
        = some t ∧
      t.mStaticParams.restirMode = 3 ∧
      configuration t ≠ configuration exampleNoResampling) ∧
    (∀ (c : ReSTIRDIPass) (pDevice : Device),
      ∃ t : ReSTIRDIPass,
        parseProperties (ReSTIRDIPass.initial pDevice) (getProperties c) = some t ∧
        t.mMaxBounces = c.mMaxBounces % 2 ^ 32 ∧
        t.mStaticParams.candidateCount = c.mStaticParams.candidateCount % 2 ^ 32 ∧
        t.mStaticParams.biasedMode = c.mStaticParams.biasedMode % 2 ^ 32 ∧
        t.mStaticParams.spatialReuseIteration
          = c.mStaticParams.spatialReuseIteration % 2 ^ 32 ∧
        t.mStaticParams.spatialReuseNeighbors
          = c.mStaticParams.spatialReuseNeighbors % 2 ^ 32 ∧
        t.mUseImportanceSampling = c.mUseImportanceSampling ∧
        t.mStaticParams.restirMode = 3) := by
  refine ⟨exampleNoResampling_reachable, by decide, by decide, ?_, ?_⟩
  · exact ⟨_, parseProperties_getProperties _ _, rfl, by decide⟩
  · intro c pDevice
    exact ⟨_, parseProperties_getProperties _ _, rfl, rfl, rfl, rfl, rfl, rfl, rfl⟩

/-! ## Resampling modes outside `0..3` -/

theorem exampleUnknownMode_reachable : Reachable exampleUnknownMode :=
  ⟨exampleDevice, exampleUnknownModeProps, [Op.setScene (some exampleScene)], by decide⟩

theorem exampleUnknownMode_frameExecuted : FrameExecuted exampleUnknownMode exampleRenderData :=
  ⟨by decide, by decide, exampleColor, rfl, exampleRenderData_sizesMatch⟩

theorem parseProperties_restirMode (s0 : ReSTIRDIPass) (v : Nat) :
    parseProperties s0 [(kSelectRestirMode, PropValue.uint v)] =
      some { s0 with mStaticParams := { s0.mStaticParams with restirMode := v % 2 ^ 32 } } := by
  simp [parseProperties, parseProperty, kSelectRestirMode, kMaxBounces, kCandidateCount,
    kUseImportanceSampling, PropValue.asUInt]

/-- C20: `parseProperties` stores any unsigned value given for `restirMode`.  In
every reachable state whose `restirMode` is outside `0..3`, an executed frame
returns and issues exactly two dispatches, LoadSurfaceData followed by
DirectLighting, both bound to the same reservoir buffer, which is the kernel
order of mode 0 (`No Resampling`); no temporal or spatial dispatch is issued and
nothing is added to the log. -/
theorem unknown_mode_runs_as_noResampling (s : ReSTIRDIPass) (rd : RenderData)
    (hr : Reachable s) (hx : FrameExecuted s rd) (hm : 4 ≤ s.mStaticParams.restirMode) :
    (∀ (s0 : ReSTIRDIPass) (v : Nat), ∃ t0 : ReSTIRDIPass,
      parseProperties s0 [(kSelectRestirMode, PropValue.uint v)] = some t0 ∧
      t0.mStaticParams.restirMode = v % 2 ^ 32) ∧
    ∃ (t : ReSTIRDIPass) (dL dD : Dispatch),
      execute s rd = some t ∧
      t.ctx = s.ctx ++ [Command.dispatch dL, Command.dispatch dD] ∧
      dL.kernel = Kernel.LoadSurfaceData ∧ dD.kernel = Kernel.DirectLighting ∧
      dD.buffer "gReservoirs" = dL.buffer "gReservoirs" ∧
      [dL.kernel, dD.kernel] = dispatchOrder 0 s.mStaticParams.spatialReuseIteration ∧
      (∀ d, Command.dispatch d ∈ [Command.dispatch dL, Command.dispatch dD] →
        d.kernel ≠ Kernel.TemporalReuse ∧ d.kernel ≠ Kernel.SpatialReuse) ∧
      t.log = s.log := by
  constructor
  · intro s0 v
    exact ⟨_, parseProperties_restirMode s0 v, rfl⟩
  · obtain ⟨t, a, dL, tl, sl, dD, hf⟩ :=
      execute_executed s rd hx (fun h => (reachable_invariant s hr).kernels hx.1 h)
    have hsp := hf.staticParams_before
    have htl : tl = [] := by
      have h := hf.dispatches.temporal
      rw [hsp] at h
      rw [if_neg (by omega)] at h
      exact h
    have hsl : sl = [] := by
      have h := hf.dispatches.spatialLength
      rw [hsp] at h
      rw [if_neg (by omega)] at h
      exact h
    subst htl hsl
    have hctx := hf.ctx_after
    have hL := hf.dispatches.load
    have hD := hf.dispatches.direct
    have hlog : t.log = s.log := by
      have h1 := hf.after
      have h2 := hf.before
      rw [h1, h2]
    refine ⟨t, dL, dD, hf.result, by simpa using hctx, hL.1, hD.1, ?_, ?_, ?_, hlog⟩
    · rw [hD.2.1, hL.2.2.1]
      rfl
    · rw [hL.1, hD.1]
      simp [dispatchOrder]
    · intro d hd
      simp only [List.mem_cons, Command.dispatch.injEq, List.not_mem_nil, or_false] at hd
      rcases hd with rfl | rfl
      · rw [hL.1]
        exact ⟨by decide, by decide⟩
      · rw [hD.1]
        exact ⟨by decide, by decide⟩

theorem unknown_mode_runs_as_noResampling_witness :
    Reachable exampleUnknownMode ∧ FrameExecuted exampleUnknownMode exampleRenderData ∧
    exampleUnknownMode.mStaticParams.restirMode = 7 ∧
    (∃ (t : ReSTIRDIPass) (dL dD : Dispatch),
      execute exampleUnknownMode exampleRenderData = some t ∧
      t.ctx = exampleUnknownMode.ctx ++ [Command.dispatch dL, Command.dispatch dD] ∧
      dL.kernel = Kernel.LoadSurfaceData ∧ dD.kernel = Kernel.DirectLighting ∧
      t.log = exampleUnknownMode.log) := by
  obtain ⟨-, t, dL, dD, he, hc, hL, hD, -, -, -, hlog⟩ :=
    unknown_mode_runs_as_noResampling exampleUnknownMode exampleRenderData
      exampleUnknownMode_reachable exampleUnknownMode_frameExecuted (by decide)
  exact ⟨exampleUnknownMode_reachable, exampleUnknownMode_frameExecuted, by decide,
    t, dL, dD, he, hc, hL, hD, hlog⟩

end Falcor
